import Mathlib

/-!
# SC-TS3-Directional-Audio: the TeamSpeak SDK samples and the plugin

A shallow embedding of the sample programs that call into the closed-source
TeamSpeak client library, and of the two versions of the TeamSpeak plugin.
The library is not part of the source tree, so it is a parameter of every
definition: a `Lib` answers each call from the whole history of calls made so
far, and a `World` records that history (`trace`) together with what was
printed on standard output (`out`).

Every C++ function that talks to the library becomes a function
`World → α × World` (or `World → World` for `void`).
-/

namespace TS3

/-! ## Constants of the SDK headers

`teamspeak/public_errors.h` and `teamspeak/public_definitions.h` are vendor headers
outside the source tree.  The enumerators the samples use are listed here with the values
of SDK 3.3.1; no theorem below depends on a value other than through the distinctness of
`ERROR_ok` from the other codes. -/

/-- Modelled from the spec: the "ok" sentinel `ERROR_ok` of `public_errors.h` (vendor header,
not in the tree). -/
def ERROR_ok : Nat := 0x0000
/-- Modelled from the spec: `ERROR_ok_no_update` of `public_errors.h` (vendor header, not in
the tree). -/
def ERROR_ok_no_update : Nat := 0x0003
/-- Modelled from the spec: `ERROR_failed_connection_initialisation` of `public_errors.h`
(vendor header, not in the tree). -/
def ERROR_failed_connection_initialisation : Nat := 0x0700
/-- Modelled from the spec: `ERROR_sound_no_data`, the "no data available" status of
`public_errors.h` (vendor header, not in the tree). -/
def ERROR_sound_no_data : Nat := 0x0917

/-- Modelled from the spec: `enum LogLevel` of `public_definitions.h` (vendor header, not in
the tree). -/
inductive LogLevel where
  | LogLevel_CRITICAL
  | LogLevel_ERROR
  | LogLevel_WARNING
  | LogLevel_DEBUG
  | LogLevel_INFO
  | LogLevel_DEVEL
  deriving DecidableEq, Repr

/-- Modelled from the spec: `LogType_FILE | LogType_CONSOLE | LogType_USERLOGGING`, the
values 1, 2 and 4 of `enum LogTypes` (vendor header, not in the tree). -/
def LogType_FILE_CONSOLE_USERLOGGING : Nat := 1 ||| 2 ||| 4

/-- Modelled from the spec: `enum ConnectStatus` (vendor header, not in the tree), as the
`int` values the callbacks receive. -/
def STATUS_DISCONNECTED : Int := 0
/-- Modelled from the spec: `enum ConnectStatus`, second enumerator. -/
def STATUS_CONNECTING : Int := 1
/-- Modelled from the spec: `enum ConnectStatus`, third enumerator. -/
def STATUS_CONNECTED : Int := 2
/-- Modelled from the spec: `enum ConnectStatus`, fourth enumerator. -/
def STATUS_CONNECTION_ESTABLISHING : Int := 3
/-- Modelled from the spec: `enum ConnectStatus`, fifth enumerator. -/
def STATUS_CONNECTION_ESTABLISHED : Int := 4

/-- Modelled from the spec: `enum Visibility` (vendor header, not in the tree), as the `int`
values the move callbacks receive. -/
def ENTER_VISIBILITY : Int := 0
/-- Modelled from the spec: `enum Visibility`, second enumerator. -/
def RETAIN_VISIBILITY : Int := 1
/-- Modelled from the spec: `enum Visibility`, third enumerator. -/
def LEAVE_VISIBILITY : Int := 2

/-- Modelled from the spec: the flag `CLIENT_INPUT_DEACTIVATED` of `enum ClientProperties`
(vendor header, not in the tree). -/
def CLIENT_INPUT_DEACTIVATED : Nat := 10
/-- Modelled from the spec: `INPUT_ACTIVE` of `enum InputDeactivationStatus`. -/
def INPUT_ACTIVE : Int := 0
/-- Modelled from the spec: `INPUT_DEACTIVATED` of `enum InputDeactivationStatus`. -/
def INPUT_DEACTIVATED : Int := 1

/-! ## The library boundary -/

/-- One request to the client library, with the arguments the samples pass.
Pointer arguments are recorded by what they point to at the time of the call
(`none` for a null pointer).  The plugin reaches the same functions through the
table `ts3Functions` of its host; the last three constructors are the requests it
makes to the C runtime (`malloc`, `free`) and to the Windows API
(`WideCharToMultiByte`, recorded with the string to convert, whether a buffer was
handed in, and the buffer size), which can fail in the same way. -/
inductive Call where
  | initClientLib (usedLogTypes : Nat) (resourcesFolder : String)
  | destroyClientLib
  | getClientLibVersion
  | freeMemory
  | logMessage (msg : String) (level : LogLevel) (channel : String) (connection_id : Nat)
  | getErrorMessage (error : Nat)
  | registerCustomDevice (deviceID deviceDisplayName : String)
      (capFrequency capChannels playFrequency playChannels : Nat)
  | unregisterCustomDevice (deviceID : String)
  | acquireCustomPlaybackData (deviceName : String) (samples : Nat)
  | processCustomCaptureData (deviceName : String) (buffer : List Int) (samples : Nat)
  | spawnNewServerConnectionHandler (port : Nat)
  | destroyServerConnectionHandler (connection_id : Nat)
  | createIdentity
  | startConnection (connection_id : Nat) (identity ip : String) (port : Nat) (nickname : String)
      (defaultChannelArray : Option (List String)) (defaultChannelPassword serverPassword : String)
  | stopConnection (connection_id : Nat) (quitMessage : String)
  | openCaptureDevice (connection_id : Nat) (modeID : String) (captureDevice : Option String)
  | openPlaybackDevice (connection_id : Nat) (modeID : String) (playbackDevice : Option String)
  | setPreProcessorConfigValue (connection_id : Nat) (ident value : String)
  | getClientList (connection_id : Nat)
  | getClientID (connection_id : Nat)
  | getClientVariableAsString (connection_id : Nat) (clientID : Nat) (flag : Nat)
  | requestClientSetWhisperList (connection_id : Nat) (clientID : Nat)
      (targetChannelIDArray : Option (List Nat)) (targetClientIDArray : List Nat)
      (returnCode : Option String)
  | setClientSelfVariableAsInt (connection_id : Nat) (flag : Nat) (value : Int)
  | allowWhispersFrom (connection_id : Nat) (clientID : Nat)
  | getServerVariableAsString (connection_id : Nat) (flag : Nat)
  | getChannelVariableAsString (connection_id : Nat) (channelID : Nat) (flag : Nat)
  | malloc (size : Nat)
  | free
  | WideCharToMultiByte (lpWideCharStr : String) (lpMultiByteStr : Bool) (cbMultiByte : Int)
  deriving DecidableEq, Repr

/-- What the library gives back for one call: the returned status and whatever
it stored through the out-parameters of that call. -/
structure Reply where
  /-- the `unsigned int` status the call returns -/
  status : Nat := 0
  /-- the C string stored through a `char**` out-parameter -/
  text : String := ""
  /-- the number stored through an integer out-parameter; `none`: nothing was stored -/
  num : Option Nat := none
  /-- the memory of the array stored through an `anyID**` out-parameter -/
  ids : List Nat := []
  /-- the samples written to the buffer handed in; `none`: the buffer was left alone -/
  samples : Option (List Int) := none
  /-- the value returned by a call that returns no status: the address from `malloc`
  (0 for a null pointer), the byte count from `WideCharToMultiByte` (0 for a failure) -/
  ret : Int := 0
  deriving DecidableEq, Repr

/-- One entry of the call history: a request and what the library gave back. -/
structure Entry where
  call : Call
  reply : Reply
  deriving DecidableEq, Repr

/-- The client library: its answer to a call may depend on everything that went before. -/
abbrev Lib := List Entry → Call → Reply

/-- The observable state of a run. -/
structure World where
  /-- the library the program is linked against -/
  lib : Lib
  /-- the library calls made so far with their replies, oldest first -/
  trace : List Entry
  /-- what was written to standard output so far, oldest first -/
  out : List String

/-- Make one library call: the library answers from the history, the call is recorded. -/
def World.call (w : World) (c : Call) : Reply × World :=
  (w.lib w.trace c, { w with trace := w.trace ++ [⟨c, w.lib w.trace c⟩] })

/-- Write to standard output (`printf`, `std::cout`). -/
def World.print (w : World) (s : String) : World :=
  { w with out := w.out ++ [s] }

/-- The history entries added between an earlier world `w0` and a later world `w`. -/
def World.since (w w0 : World) : List Entry :=
  w.trace.drop w0.trace.length

/-- The requests made between an earlier world `w0` and a later world `w`. -/
def World.callsSince (w w0 : World) : List Call :=
  (w.since w0).map Entry.call

/-- A world that has seen no call and printed nothing, linked against `lib`. -/
def World.start (lib : Lib) : World :=
  { lib := lib, trace := [], out := [] }

/-- `printf("%d", error)` of a 32-bit unsigned status: printed as a signed `int`. -/
def fmt_d (n : Nat) : String :=
  if n % 2 ^ 32 < 2 ^ 31 then toString (n % 2 ^ 32) else "-" ++ toString (2 ^ 32 - n % 2 ^ 32)

/-! ## Classification of calls (for statements about traces) -/

def Call.isAcquire : Call → Bool
  | .acquireCustomPlaybackData .. => true
  | _ => false

def Call.isCapture : Call → Bool
  | .processCustomCaptureData .. => true
  | _ => false

def Call.isLog : Call → Bool
  | .logMessage .. => true
  | _ => false

def Call.isStartConnection : Call → Bool
  | .startConnection .. => true
  | _ => false

def Call.isOpenDevice : Call → Bool
  | .openCaptureDevice .. => true
  | .openPlaybackDevice .. => true
  | _ => false

def Call.isGetClientList : Call → Bool
  | .getClientList .. => true
  | _ => false

def Call.isWhisperList : Call → Bool
  | .requestClientSetWhisperList .. => true
  | _ => false

/-- The calls `print_error` makes: message lookup, release of the message, log write. -/
def Call.isErrorReport : Call → Bool
  | .getErrorMessage .. => true
  | .freeMemory => true
  | .logMessage .. => true
  | _ => false

/-! ## Repeater sample: `helpers.hpp`, `helpers.cpp`, `custom_device.hpp` -/

namespace Repeater

/-- `enum Audio_IO : uint8_t { Playback = 0, Capture }` (helpers.hpp). -/
inductive Audio_IO where
  | Playback
  | Capture
  deriving DecidableEq, Repr

/-- `Custom_Device::custom_mode`. -/
def custom_mode : String := "custom"
/-- `Custom_Device::custom_device`. -/
def custom_device : String := "loopback"

/-- `print_error` of helpers.cpp. -/
def print_error (error : Nat) (msg : String) (connection_id : Nat) (w : World) : World :=
  if error = ERROR_ok then w
  else
    let (r, w1) := w.call (.getErrorMessage error)
    if r.status = ERROR_ok then
      let error_msg := msg ++ " " ++ r.text
      let (_, w2) := w1.call .freeMemory
      (w2.call (.logMessage error_msg .LogLevel_ERROR "" connection_id)).2
    else
      (w1.call (.logMessage msg .LogLevel_ERROR "" connection_id)).2

/-- `create_identity` of helpers.cpp: the identity string, empty on failure. -/
def create_identity (w : World) : String × World :=
  let (r, w1) := w.call .createIdentity
  if r.status ≠ ERROR_ok then
    ("", print_error r.status "Error creating identity" 0 w1)
  else
    let result := r.text
    let (_, w2) := w1.call .freeMemory
    (result, w2)

/-! ### The audio thread of `main.cpp` (lines 181-219) -/

/-- The number of samples of `playback_buffer` (`std::array<int16_t, 960>`). -/
def playback_buffer_size : Nat := 960

/-- The inner `for (;;)` loop of the audio thread: one drain pass.  `buf` is the
content of `playback_buffer`.  The loop has no bound of its own, so the model
takes fuel (one unit per iteration) and gives `none` when it runs out. -/
def drainPass : Nat → List Int → World → Option (List Int × World)
  | 0, _, _ => none
  | fuel + 1, buf, w =>
    let (r, w1) := w.call (.acquireCustomPlaybackData custom_device playback_buffer_size)
    let buf1 := r.samples.getD buf
    if r.status ≠ ERROR_ok then
      if ERROR_sound_no_data = r.status then
        some (buf1, w1)
      else
        some (buf1, print_error r.status "Failed to get playback data" 0 w1)
    else
      let (r2, w2) := w1.call (.processCustomCaptureData custom_device buf1 playback_buffer_size)
      if ERROR_ok ≠ r2.status then
        some (buf1, print_error r2.status "Failed to process capture data" 0 w2)
      else
        drainPass fuel buf1 w2

/-! ### `connection_handler.hpp`, `connection_handler.cpp` -/

/-- `Connection_Handler::Connection_Data` with its default member values. -/
structure Connection_Data where
  address : String := ""
  port : Nat := 9987
  nick : String := ""
  identity : String := ""
  pw : String := ""
  deriving DecidableEq, Repr

/-- `class Connection_Handler`: the connection data and the `const` connection id. -/
structure Connection_Handler where
  _connection_data : Connection_Data := {}
  _connection_id : Nat
  deriving DecidableEq, Repr

/-- `TS_Client::_do_autoreconnect` (`static constexpr bool`, ts_client.hpp line 33). -/
def _do_autoreconnect : Bool := true

namespace Connection_Handler

/-- `Connection_Handler::~Connection_Handler`. -/
def destroy (h : Connection_Handler) (w : World) : World :=
  let (r, w1) := w.call (.destroyServerConnectionHandler h._connection_id)
  if r.status ≠ ERROR_ok then
    print_error r.status "Error destroying connection" h._connection_id w1
  else w1

/-- `Connection_Handler::create`: `none` is the empty `unique_ptr`. -/
def create (w : World) : Option Connection_Handler × World :=
  let (r, w1) := w.call (.spawnNewServerConnectionHandler 0)
  let connection_id := r.num.getD 0
  if r.status ≠ ERROR_ok then
    (none, print_error r.status "Error spawning server connection handler" 0 w1)
  else
    (some { _connection_id := connection_id }, w1)

/-- `Connection_Handler::connect`. -/
def connect (h : Connection_Handler) (w : World) : Nat × World :=
  let (r, w1) := w.call (.startConnection h._connection_id h._connection_data.identity
    h._connection_data.address h._connection_data.port h._connection_data.nick none ""
    h._connection_data.pw)
  if r.status ≠ ERROR_ok then
    (r.status, print_error r.status "Error connecting to server" h._connection_id w1)
  else
    (ERROR_ok, w1)

/-- `Connection_Handler::disconnect` (the default reason is "leaving"). -/
def disconnect (h : Connection_Handler) (reason : String) (w : World) : Nat × World :=
  let (r, w1) := w.call (.stopConnection h._connection_id reason)
  if r.status ≠ ERROR_ok then
    (r.status, w1.print ("Error stopping connection: " ++ fmt_d r.status ++ "\n"))
  else
    (ERROR_ok, w1)

/-- `Connection_Handler::on_connect_status_change`. -/
def on_connect_status_change (h : Connection_Handler) (status : Int) (_error : Nat)
    (w : World) : World :=
  if _do_autoreconnect && STATUS_DISCONNECTED == status then
    (h.connect w).2
  else w

/-- `Connection_Handler::open_audio`. -/
def open_audio (h : Connection_Handler) (audio_io : Audio_IO) (mode device_id : String)
    (w : World) : Nat × World :=
  match audio_io with
  | .Capture =>
    let (r, w1) := w.call (.openPlaybackDevice h._connection_id mode (some device_id))
    if r.status ≠ ERROR_ok then
      (r.status, print_error r.status "Error opening playback device." h._connection_id w1)
    else
      (ERROR_ok, w1)
  | .Playback =>
    let (r, w1) := w.call (.openCaptureDevice h._connection_id mode (some device_id))
    if r.status ≠ ERROR_ok then
      (r.status, print_error r.status "Error opening capture device." h._connection_id w1)
    else
      let (r1, w2) := w1.call (.setPreProcessorConfigValue h._connection_id "vad_mode" "1")
      let w3 := print_error r1.status "Error setting vad_mode value to hybrid." h._connection_id w2
      let (r2, w4) := w3.call
        (.setPreProcessorConfigValue h._connection_id "voiceactivation_level" "-50")
      let w5 := print_error r2.status "Error setting voiceactivation_level." h._connection_id w4
      let (r3, w6) := w5.call (.setPreProcessorConfigValue h._connection_id "vad" "true")
      let w7 := print_error r3.status "Couldn't turn on VAD." h._connection_id w6
      (ERROR_ok, w7)

end Connection_Handler

/-! ### `custom_device.cpp` -/

namespace Custom_Device

/-- `Custom_Device::Custom_Device(uint32_t& error)`: gives the value left in `error`. -/
def new (w : World) : Nat × World :=
  let (r, w1) := w.call (.registerCustomDevice custom_device custom_device 48000 1 48000 1)
  if r.status ≠ ERROR_ok then
    (r.status, print_error r.status "Error creating custom device." 0 w1)
  else
    (r.status, w1)

/-- `Custom_Device::~Custom_Device`. -/
def destroy (w : World) : World :=
  let (r, w1) := w.call (.unregisterCustomDevice custom_device)
  if r.status ≠ ERROR_ok then
    w1.print ("Error unregistering custom device: " ++ fmt_d r.status ++ "\n")
  else w1

end Custom_Device

/-! ### `ts_client.hpp`, `ts_client.cpp` -/

/-- `class TS_Client` (the callback table `_funcs` holds no data of its own). -/
structure TS_Client where
  _identity : String := ""
  /-- `std::array<std::unique_ptr<Connection_Handler>, 2>`, indexed by `Audio_IO` -/
  _connections : List (Option Connection_Handler) := [none, none]
  _shutting_down : Bool := false
  /-- `std::unique_ptr<Custom_Device>`: whether a device object is held -/
  _custom_device : Bool := false
  deriving DecidableEq, Repr

/-- The array index of an `Audio_IO` enumerator. -/
def Audio_IO.index : Audio_IO → Nat
  | .Playback => 0
  | .Capture => 1

namespace TS_Client

/-- `TS_Client::TS_Client(path, success)`: the object and the value left in `success`. -/
def new (path : String) (w : World) : (TS_Client × Bool) × World :=
  let (r, w1) := w.call (.initClientLib LogType_FILE_CONSOLE_USERLOGGING path)
  let (success, w2) :=
    if r.status ≠ ERROR_ok then (false, print_error r.status "Error initialzing clientlib" 0 w1)
    else (true, w1)
  if success then
    let (error, w3) := Custom_Device.new w2
    if ERROR_ok ≠ error then
      -- `_custom_device = {}` destroys the device object just made
      (({ _custom_device := false }, false), Custom_Device.destroy w3)
    else
      (({ _custom_device := true }, true), w3)
  else
    (({ _custom_device := false }, false), w2)

/-- `TS_Client::~TS_Client`: the body, then the members in reverse order of declaration
(`_custom_device`, then `_connections` from the last element to the first). -/
def destroy (c : TS_Client) (w : World) : World :=
  let (r, w1) := w.call .destroyClientLib
  let w2 := if r.status ≠ ERROR_ok then print_error r.status "Failed to destroy clientlib" 0 w1
    else w1
  let w3 := if c._custom_device then Custom_Device.destroy w2 else w2
  c._connections.reverse.foldl
    (fun acc conn => match conn with
      | some h => h.destroy acc
      | none => acc) w3

/-- `TS_Client::log_clientlib_version`. -/
def log_clientlib_version (w : World) : Bool × World :=
  let (r, w1) := w.call .getClientLibVersion
  if r.status ≠ ERROR_ok then
    (false, print_error r.status "Failed to get clientlib version" 0 w1)
  else
    let msg := "Client lib version: " ++ r.text
    let (_, w2) := w1.call .freeMemory
    (true, (w2.call (.logMessage msg .LogLevel_INFO "" 0)).2)

/-- `TS_Client::create`: `ts_client` is the static `TS_Client::ts_client`; the result is
the return value and the new content of the static. -/
def create (path : String) (ts_client : Option TS_Client) (w : World) :
    (Bool × Option TS_Client) × World :=
  if ts_client.isSome then ((false, ts_client), w)
  else
    let ((result, success), w1) := TS_Client.new path w
    if !success then ((false, ts_client), result.destroy w1)
    else
      let (success, w2) := log_clientlib_version w1
      if !success then ((false, ts_client), result.destroy w2)
      else ((true, some result), w2)

/-- `TS_Client::on_connect_status_change`. -/
def on_connect_status_change (c : TS_Client) (connection_id : Nat) (status : Int) (error : Nat)
    (w : World) : World :=
  let msg := "Connect status changed: " ++ toString connection_id ++ " " ++ toString status
  let w1 := (w.call (.logMessage msg .LogLevel_INFO "" connection_id)).2
  let w2 :=
    if status = STATUS_DISCONNECTED ∧ error = ERROR_failed_connection_initialisation then
      (w1.call (.logMessage "Looks like there is no server running.\n" .LogLevel_INFO ""
        connection_id)).2
    else w1
  let w3 := print_error error "onConnectStatusChange" connection_id w2
  if c._shutting_down then w3
  else
    match c._connections.find? (fun connection =>
        match connection with
        | some h => connection_id == h._connection_id
        | none => false) with
    | some (some h) => h.on_connect_status_change status error w3
    | _ => w3

end TS_Client

/-! ### `main.cpp` -/

/-- `strrchr`: the index of the last occurrence of `c` in `s`, if any. -/
def strrchr (s : List Char) (c : Char) : Option Nat :=
  if c ∈ s then some (s.length - 1 - s.reverse.indexOf c) else none

/-- `programPath`: the invocation up to and including its last path separator (`pathsep` is
a backslash under `_WIN32`, a slash otherwise); `none` is a null pointer. -/
def programPath (pathsep : Char) (programInvocation : Option String) : String :=
  match programInvocation with
  | none => ""
  | some s =>
    match strrchr s.data pathsep with
    | none => ""
    | some e => String.mk (s.data.take (e + 1))

/-- `print_usage`. -/
def print_usage (w : World) : World :=
  w.print "usage: from_id from_port to_id to_port\n"

/-- `struct Opts`. -/
structure Opts where
  from_ip : String := ""
  from_port : Nat := 0
  to_ip : String := ""
  to_port : Nat := 0
  deriving DecidableEq, Repr

/-- Store a handler in a slot of `_connections` (the `swap` with a fresh handler). -/
def setConnection (c : TS_Client) (slot : Audio_IO) (h : Connection_Handler) : TS_Client :=
  { c with _connections := c._connections.set slot.index (some h) }

/-- Lines 124-155 of `main`: the client library is set up, the identity created and the two
connection handlers spawned.  The result is `.error ts_client` when `main` returns 1 in this
part (`ts_client` is what the static `TS_Client::ts_client` holds then), else `.ok` of the
client and its two handlers (listen, broadcast).  The branch for a successful `create` that
leaves the static empty cannot be taken (`TS_Client_create_reach`); the source dereferences
the static there without a test. -/
def main_library (path : String) (w : World) :
    Except (Option TS_Client) (TS_Client × Connection_Handler × Connection_Handler) × World :=
  let ((success, ts_client), w) := TS_Client.create path none w
  if !success then (.error ts_client, w)
  else
  match ts_client with
  | none => (.error none, w)
  | some ts =>
  let (identity, w) := create_identity w
  if identity.isEmpty then (.error (some ts), w)
  else
  let ts := { ts with _identity := identity }
  let (connection, w) := Connection_Handler.create w
  match connection with
  | none => (.error (some ts), w)
  | some connection_listen =>
  let ts := setConnection ts .Playback connection_listen
  let (connection, w) := Connection_Handler.create w
  match connection with
  | none => (.error (some ts), w)
  | some connection_broadcast =>
  let ts := setConnection ts .Capture connection_broadcast
  (.ok (ts, connection_listen, connection_broadcast), w)

/-- Lines 158-177 of `main`: the audio devices are opened and the two connections started;
the values returned by `open_audio` and `connect` are not looked at. -/
def main_connections (opts : Opts) (ts : TS_Client)
    (connection_listen connection_broadcast : Connection_Handler) (w : World) :
    TS_Client × World :=
  let (_, w) := connection_listen.open_audio .Playback custom_mode custom_device w
  let (_, w) := connection_broadcast.open_audio .Capture custom_mode custom_device w
  let connection_listen := { connection_listen with _connection_data :=
    { address := opts.from_ip, port := opts.from_port, nick := "repeater-listener",
      identity := ts._identity } }
  let ts := setConnection ts .Playback connection_listen
  let (_, w) := connection_listen.connect w
  let connection_broadcast := { connection_broadcast with _connection_data :=
    { address := opts.to_ip, port := opts.to_port, nick := "repeater-broadcaster",
      identity := ts._identity } }
  let ts := setConnection ts .Capture connection_broadcast
  let (_, w) := connection_broadcast.connect w
  (ts, w)

/-- Lines 77-120 of `main`: the arguments.  `stoul` is `std::stoul` (`none`: it throws),
`argv` the argument vector; `none` when `main` prints the usage and returns -1. -/
def parse_args (stoul : String → Option Nat) (argv : List String) : Option Opts :=
  if argv.length ≠ 5 then none
  else
    match stoul (argv.getD 2 "") with
    | none => none
    | some from_port =>
    match stoul (argv.getD 4 "") with
    | none => none
    | some to_port =>
    some { from_ip := argv.getD 1 "", from_port := from_port % 2 ^ 16,
           to_ip := argv.getD 3 "", to_port := to_port % 2 ^ 16 }

/-- Lines 77-177 of `main`: from the start of the program to the point where the audio thread
is started.  The first component is `some code` when `main` returns `code` in this part,
`none` when it goes on; the second is the static `TS_Client::ts_client`. -/
def main_startup (stoul : String → Option Nat) (pathsep : Char) (argv : List String)
    (w : World) : Option Int × Option TS_Client × World :=
  match parse_args stoul argv with
  | none => (some (-1), none, print_usage w)
  | some opts =>
  let w := w.print ("listening to " ++ opts.from_ip ++ ":" ++ toString opts.from_port
    ++ ", sending to " ++ opts.to_ip ++ ":" ++ toString opts.to_port ++ "\n")
  match main_library (programPath pathsep (argv.get? 0)) w with
  | (.error ts_client, w) => (some 1, ts_client, w)
  | (.ok (ts, connection_listen, connection_broadcast), w) =>
    let (ts, w) := main_connections opts ts connection_listen connection_broadcast w
    (none, some ts, w)

/-- What happens after `main` returns: the static `TS_Client::ts_client` is destroyed. -/
def at_exit (ts_client : Option TS_Client) (w : World) : World :=
  match ts_client with
  | some ts => ts.destroy w
  | none => w

/-- A run of `main` that ends during startup: the exit code and the final world, static
destruction included; `none` when `main` gets as far as starting the audio thread. -/
def main_early (stoul : String → Option Nat) (pathsep : Char) (argv : List String)
    (w : World) : Option (Int × World) :=
  match main_startup stoul pathsep argv w with
  | (some code, ts_client, w1) => some (code, at_exit ts_client w1)
  | (none, _, _) => none

/-! ### The audio thread as a machine over (shutdown flag, call trace) -/

/-- Where the audio thread stands: at the test of `while (!_shutting_down)`, or past the
loop (the lambda has returned). -/
inductive Pc where
  | loopTop
  | exited
  deriving DecidableEq, Repr

/-- The state the audio thread runs in. -/
structure ThreadState where
  /-- `TS_Client::ts_client->_shutting_down`, written by the main thread only -/
  shutting_down : Bool
  pc : Pc
  playback_buffer : List Int
  /-- the library as the thread sees it, with the trace of the calls of the thread -/
  world : World

/-- What can happen: the thread runs one iteration of its outer loop (test, drain pass with
the given fuel, sleep), or the main thread sets the flag. -/
inductive Event where
  | iteration (fuel : Nat)
  | setShuttingDown
  deriving DecidableEq, Repr

/-- One step of the machine; `none` when the drain pass does not end within its fuel. -/
def step : Event → ThreadState → Option ThreadState
  | .setShuttingDown, s => some { s with shutting_down := true }
  | .iteration fuel, s =>
    match s.pc with
    | .exited => some s
    | .loopTop =>
      if s.shutting_down then some { s with pc := .exited }
      else
        match drainPass fuel s.playback_buffer s.world with
        | none => none
        | some (buf, w) => some { s with playback_buffer := buf, world := w }

/-- Run a sequence of events. -/
def run : List Event → ThreadState → Option ThreadState
  | [], s => some s
  | e :: es, s =>
    match step e s with
    | none => none
    | some s1 => run es s1

end Repeater

/-! ## Whisperer sample: `client_cpp_whisperer/main.cpp` -/

namespace Whisperer

/-- `kWhisperApp`. -/
def kWhisperApp : String := "Whisperer"

/-- `client_id_array_to_string`. -/
def client_id_array_to_string (client_ids : List Nat) : String :=
  client_ids.foldl (fun result client_id => result ++ toString client_id) ""

/-- `print_error` of the whisperer. -/
def print_error (error : Nat) (msg : String) (connection_id : Nat) (w : World) : World :=
  if error = ERROR_ok then w
  else
    let (r, w1) := w.call (.getErrorMessage error)
    if r.status = ERROR_ok then
      let error_msg := msg ++ " " ++ r.text
      let (_, w2) := w1.call .freeMemory
      (w2.call (.logMessage error_msg .LogLevel_ERROR kWhisperApp connection_id)).2
    else
      (w1.call (.logMessage msg .LogLevel_ERROR kWhisperApp connection_id)).2

/-- The loop `for (i = 0; client_ids[i]; i++) result.push_back(client_ids[i])`: the ids
before the first 0 of the array (the library terminates the array with a 0; the model stops
at the end of an array that has none). -/
def read_client_ids : List Nat → List Nat
  | [] => []
  | id :: rest => if id ≠ 0 then id :: read_client_ids rest else []

/-- `get_client_ids`. -/
def get_client_ids (connection_id : Nat) (w : World) : List Nat × World :=
  let (r, w1) := w.call (.getClientList connection_id)
  if r.status ≠ ERROR_ok then
    ([], print_error r.status "Couldn't get client list." connection_id w1)
  else
    let result := read_client_ids r.ids
    let (_, w2) := w1.call .freeMemory
    (result, w2)

/-- `filter_own_client_id`: `std::find` the own id and `erase` what was found. -/
def filter_own_client_id (my_id : Nat) (_connection_id : Nat) (client_ids : List Nat) :
    List Nat :=
  match client_ids.indexOf? my_id with
  | some i => client_ids.eraseIdx i
  | none => client_ids

/-- `set_whisper_to_all_visible`. -/
def set_whisper_to_all_visible (my_id : Nat) (connection_id : Nat) (w : World) : World :=
  let (target_client_ids, w1) := get_client_ids connection_id w
  let target_client_ids := filter_own_client_id my_id connection_id target_client_ids
  if target_client_ids.length > 0 then
    let target_client_ids := target_client_ids ++ [0]
    let whisper_log := "Whisperlist set to " ++ client_id_array_to_string target_client_ids
    let (r, w2) := w1.call
      (.requestClientSetWhisperList connection_id 0 none target_client_ids none)
    if r.status ≠ ERROR_ok then
      print_error r.status (whisper_log ++ ", but FAILED") connection_id w2
    else
      let w3 := (w2.call (.logMessage whisper_log .LogLevel_INFO kWhisperApp connection_id)).2
      let (r2, w4) := w3.call
        (.setClientSelfVariableAsInt connection_id CLIENT_INPUT_DEACTIVATED INPUT_ACTIVE)
      if r2.status ≠ ERROR_ok ∧ r2.status ≠ ERROR_ok_no_update then
        print_error r2.status "Couldn't activate input." connection_id w4
      else if r2.status = ERROR_ok then
        (w4.call (.logMessage "Activated Input for whispering." .LogLevel_INFO kWhisperApp
          connection_id)).2
      else w4
  else
    let (r, w2) := w1.call
      (.setClientSelfVariableAsInt connection_id CLIENT_INPUT_DEACTIVATED INPUT_DEACTIVATED)
    if r.status ≠ ERROR_ok ∧ r.status ≠ ERROR_ok_no_update then
      print_error r.status "Couldn't deactivate input." connection_id w2
    else
      (w2.call (.logMessage "Deactivated Input: No whisper targets." .LogLevel_INFO kWhisperApp
        connection_id)).2

/-- `on_client_move_common`; `my_id` is the global of that name. -/
def on_client_move_common (my_id : Nat) (connection_id client_id _oldChannelID newChannelID : Nat)
    (visibility : Int) (w : World) : World :=
  if visibility = ENTER_VISIBILITY ∨ visibility = LEAVE_VISIBILITY then
    if ¬ (newChannelID = 0 ∧ client_id = my_id) then
      set_whisper_to_all_visible my_id connection_id w
    else w
  else w

/-- The initial value of the global `my_id` (`auto my_id = anyID{ 0 }`, line 33).  The
functions of this section take the current value of the global as their parameter `my_id`. -/
def my_id : Nat := 0

/-- `onConnectStatusChangeEvent` (lines 141-157); the result is the value of the global
`my_id` after the event.  `ts3client_getClientID` is handed `&my_id`: `num` of its reply is
the id it stored there (`none`: it stored nothing). -/
def onConnectStatusChangeEvent (my_id : Nat) (serverConnectionHandlerID : Nat) (newStatus : Int)
    (errorNumber : Nat) (w : World) : Nat × World :=
  let w := w.print ("Connect status changed: " ++ toString serverConnectionHandlerID ++ " " ++
    toString newStatus ++ " " ++ toString (errorNumber % 2 ^ 32) ++ "\n")
  let w := if newStatus = STATUS_DISCONNECTED ∧
      errorNumber = ERROR_failed_connection_initialisation then
      w.print "Looks like there is no server running.\n" else w
  if newStatus = STATUS_CONNECTED then
    let (r, w1) := w.call (.getClientID serverConnectionHandlerID)
    let my_id := r.num.getD my_id
    if r.status ≠ ERROR_ok then
      (my_id, print_error r.status "Couldn't get own client id." serverConnectionHandlerID w1)
    else (my_id, w1)
  else if newStatus = STATUS_DISCONNECTED then (0, w)
  else (my_id, w)

/-- Lines 328-352 of `main`: the two device-open requests and the three preprocessor
settings on the connection `scHandlerID`; a failure is printed (or logged) and nothing else. -/
def main_audio (scHandlerID : Nat) (w : World) : World :=
  let (r, w) := w.call (.openCaptureDevice scHandlerID "" none)
  let w := if r.status ≠ ERROR_ok then
      w.print ("Error opening capture device: " ++ fmt_d r.status ++ "\n") else w
  let (r, w) := w.call (.openPlaybackDevice scHandlerID "" none)
  let w := if r.status ≠ ERROR_ok then
      w.print ("Error opening playback device: " ++ fmt_d r.status ++ "\n") else w
  let (r, w) := w.call (.setPreProcessorConfigValue scHandlerID "vad" "true")
  let w := if r.status ≠ ERROR_ok then print_error r.status "Couldn't turn on VAD." scHandlerID w
    else w
  let (r, w) := w.call (.setPreProcessorConfigValue scHandlerID "vad_mode" "2")
  let w := if r.status ≠ ERROR_ok then
      w.print ("Error setting vad_mode value to hybrid: " ++ fmt_d r.status ++ "\n") else w
  let (r, w) := w.call (.setPreProcessorConfigValue scHandlerID "voiceactivation_level" "-20")
  if r.status ≠ ERROR_ok then
    w.print ("Error setting voiceactivation_level: " ++ fmt_d r.status ++ "\n") else w

/-- Lines 367-407 of `main`: what follows a successful `startConnection`, up to the exit
code (the wait for the Return key lies between the version lines and `stopConnection`). -/
def main_session (scHandlerID : Nat) (w : World) : Int × World :=
  let w := (w.call .freeMemory).2
  let w := w.print "Client lib initialized and running\n"
  let (r, w) := w.call .getClientLibVersion
  if r.status ≠ ERROR_ok then
    (1, w.print ("Failed to get clientlib version: " ++ fmt_d r.status ++ "\n"))
  else
  let w := w.print ("Client lib version: " ++ r.text ++ "\n")
  let w := (w.call .freeMemory).2
  let w := w.print "\n--- Press Return to disconnect from server and exit ---\n"
  let (r, w) := w.call (.stopConnection scHandlerID "leaving")
  if r.status ≠ ERROR_ok then
    (1, w.print ("Error stopping connection: " ++ fmt_d r.status ++ "\n"))
  else
  let (r, w) := w.call (.destroyServerConnectionHandler scHandlerID)
  if r.status ≠ ERROR_ok then
    (1, w.print ("Error destroying clientlib: " ++ fmt_d r.status ++ "\n"))
  else
  let (r, w) := w.call .destroyClientLib
  if r.status ≠ ERROR_ok then
    (1, w.print ("Failed to destroy clientlib: " ++ fmt_d r.status ++ "\n"))
  else
  (0, w)

/-- Lines 354-365 of `main`, then the session: identity creation and `startConnection`. -/
def main_connect (scHandlerID : Nat) (w : World) : Int × World :=
  let (r, w) := w.call .createIdentity
  if r.status ≠ ERROR_ok then
    (1, w.print ("Error creating identity: " ++ fmt_d r.status ++ "\n"))
  else
  let identity := r.text
  let (r, w) := w.call
    (.startConnection scHandlerID identity "localhost" 9987 "client" none "" "secret")
  if r.status ≠ ERROR_ok then
    (1, w.print ("Error connecting to server: " ++ fmt_d r.status ++ "\n"))
  else
  main_session scHandlerID w

/-- `main` of the whisperer (the callbacks the library may invoke meanwhile are not part of
it): library initialisation and the spawn (lines 305-326), then `main_audio` and
`main_connect`.  `argv0` is `argv[0]`; the result is the exit code. -/
def main (pathsep : Char) (argv0 : Option String) (w : World) : Int × World :=
  let path := Repeater.programPath pathsep argv0
  let (r, w) := w.call (.initClientLib LogType_FILE_CONSOLE_USERLOGGING path)
  if r.status ≠ ERROR_ok then
    let (m, w) := w.call (.getErrorMessage r.status)
    if m.status = ERROR_ok then
      let w := w.print ("Error initialzing serverlib: " ++ m.text ++ "\n")
      (1, (w.call .freeMemory).2)
    else (1, w)
  else
  let (r, w) := w.call (.spawnNewServerConnectionHandler 0)
  if r.status ≠ ERROR_ok then
    (1, w.print ("Error spawning server connection handler: " ++ fmt_d r.status ++ "\n"))
  else
  let scHandlerID := r.num.getD 0
  main_connect scHandlerID (main_audio scHandlerID w)

end Whisperer

/-! ## The TeamSpeak plugin: `SC-TS3-DA-Plugin/plugin.cpp` and its safe-logging variant

The two files are embedded side by side: `Plugin` is `src/SC-TS3-DA-Plugin/plugin.cpp`,
`SafePlugin` is `src/TeamSpeak Plugin/SC-TS3-DA-Plugin/plugin.cpp`.  A `const char*` or
`char*` is an `Option String` (`none` for a null pointer), a C string a `String` with one
character per byte.  Both files compile for Windows and for other systems; the build is
the parameter `win32` of the functions whose text depends on `_WIN32`.  A function that
would write through a null pointer has no defined behaviour in C: it returns `none`. -/

/-- The `#define PLUGIN_API_VERSION 26` of both files. -/
def PLUGIN_API_VERSION : Int := 26
/-- The `#define INFODATA_BUFSIZE 128` of both files. -/
def INFODATA_BUFSIZE : Nat := 128

/-- Modelled from the spec: `enum PluginItemType` of `plugin_definitions.h` (vendor header,
not in the tree), as the `int` values the host passes. -/
def PLUGIN_SERVER : Int := 0
/-- Modelled from the spec: `enum PluginItemType`, second enumerator. -/
def PLUGIN_CHANNEL : Int := 1
/-- Modelled from the spec: `enum PluginItemType`, third enumerator. -/
def PLUGIN_CLIENT : Int := 2
/-- Modelled from the spec: the flag `VIRTUALSERVER_NAME` of `enum VirtualServerProperties`
(vendor header, not in the tree). -/
def VIRTUALSERVER_NAME : Nat := 1
/-- Modelled from the spec: the flag `CHANNEL_NAME` of `enum ChannelProperties`
(vendor header, not in the tree). -/
def CHANNEL_NAME : Nat := 0
/-- Modelled from the spec: the flag `CLIENT_NICKNAME` of `enum ClientProperties`
(vendor header, not in the tree). -/
def CLIENT_NICKNAME : Nat := 1

/-- The function `snprintf(buf, size, ...)` of the C library, as the text it leaves in a
buffer of `size` bytes when the formatted text is `s`: the text cut to `size - 1`
characters. -/
def snprintf_c (size : Nat) (s : String) : String :=
  String.mk (s.data.take (size - 1))

/-- The function `sprintf_s(buf, size, ...)` of the Microsoft runtime, as the text it
leaves in the buffer: the formatted text when it fits with its terminator, the empty
string otherwise.  (In that case the runtime also invokes its invalid-parameter handler;
the model follows the runs in which the handler returns.) -/
def sprintf_s (size : Nat) (s : String) : String :=
  if s.length < size then s else ""

/-- The name `snprintf` as both files use it: `#define snprintf sprintf_s` under `_WIN32`. -/
def snprintf (win32 : Bool) (size : Nat) (s : String) : String :=
  if win32 then sprintf_s size s else snprintf_c size s

/-- The function `strcpy_s(dest, destSize, src)` of the Microsoft runtime, as the text it
leaves in `dest`: a copy of `src` when it fits with its terminator, the empty string
otherwise. -/
def strcpy_s (destSize : Nat) (src : String) : String :=
  if src.length < destSize then src else ""

/-- The `_strcpy(dest, destSize, src)` of both files, as the text it leaves in `dest`:
`strcpy_s` under `_WIN32`, else `strncpy(dest, src, destSize - 1)` followed by
`dest[destSize - 1] = 0`. -/
def _strcpy (win32 : Bool) (destSize : Nat) (src : String) : String :=
  if win32 then strcpy_s destSize src else String.mk (src.data.take (destSize - 1))

/-- What `printf("%s", p)` writes: the string, and `(null)` for a null pointer (what the
GNU and the Microsoft runtime print; the C standard leaves it open). -/
def fmt_s (p : Option String) : String :=
  p.getD "(null)"

/-- The file-level state of a plugin. -/
structure PluginState where
  /-- the variable `static char* pluginID` -/
  pluginID : Option String := none
  /-- the variable `static char* result` of `ts3plugin_name` (`_WIN32` builds) -/
  name_result : Option String := none
  /-- whether the member `logMessage` of `ts3Functions` is set -/
  ts3Functions_logMessage : Bool := true
  deriving DecidableEq, Repr

namespace Plugin

/-- `wcharToUtf8` (lines 58-69): returns the `int` result and what `*result` holds. -/
def wcharToUtf8 (str : String) (w : World) : Int × Option String × World :=
  let (r0, w0) := w.call (.WideCharToMultiByte str false 0)
  let outlen := r0.ret
  let (m, w1) := w0.call (.malloc (outlen % 2 ^ 64).toNat)
  let (r1, w2) := w1.call (.WideCharToMultiByte str (m.ret != 0) outlen)
  if r1.ret = 0 then (-1, none, w2)
  else (0, if m.ret = 0 then none else some r1.text, w2)

/-- `ts3plugin_name` (lines 76-93).  In the branch of a failed conversion the source
declares a new array `char result[64]` (here `_result`) and copies the fallback text into
it; the array goes out of scope at the closing brace, and `return result` names the static
variable. -/
def ts3plugin_name (win32 : Bool) (st : PluginState) (w : World) :
    Option String × PluginState × World :=
  if win32 then
    if st.name_result.isNone then
      let name := "Star Citizen Directional Audio"
      let (rc, result, w1) := wcharToUtf8 name w
      let _result : Option String :=
        if rc = -1 then some (strcpy_s 64 "Star Ctizen Directional Audio") else none
      (result, { st with name_result := result }, w1)
    else (st.name_result, st, w)
  else (some "Star Citizen Directional Audio", st, w)

/-- `ts3plugin_version` (lines 95-99). -/
def ts3plugin_version : Option String := some "1.2"

/-- `ts3plugin_apiVersion` (lines 101-105). -/
def ts3plugin_apiVersion : Int := PLUGIN_API_VERSION

/-- `ts3plugin_author` (lines 107-112). -/
def ts3plugin_author : Option String := some "RaylaValdez"

/-- `ts3plugin_description` (lines 114-119). -/
def ts3plugin_description : Option String :=
  some "This plugin takes postitional data from SCTS3DA.exe and attempts to place clients in their respective 3D Audio co-ordinates. Thus, giving positional audio for Star Citizen."

/-- `ts3plugin_shutdown` (lines 156-173). -/
def ts3plugin_shutdown (st : PluginState) (w : World) : PluginState × World :=
  let w1 := w.print "PLUGIN: shutdown\n"
  if st.pluginID.isSome then
    let (_, w2) := w1.call .free
    ({ st with pluginID := none }, w2)
  else (st, w1)

/-- `ts3plugin_registerPluginID` (lines 185-191).  The result of `malloc` is not tested:
with a null pointer the copy has no defined behaviour. -/
def ts3plugin_registerPluginID (win32 : Bool) (id : String) (st : PluginState) (w : World) :
    Option (PluginState × World) :=
  let sz := id.length + 1
  let (m, w1) := w.call (.malloc (sz * 1))
  if m.ret = 0 then none
  else
    let copy := _strcpy win32 sz id
    some ({ st with pluginID := some copy },
      w1.print ("PLUGIN: registerPluginID: " ++ copy ++ "\n"))

/-- `ts3plugin_commandKeyword` (lines 193-197). -/
def ts3plugin_commandKeyword : Option String := some "scda"

/-- `ts3plugin_infoTitle` (lines 211-215). -/
def ts3plugin_infoTitle : Option String := some "Star Citizen Directional Audio info"

/-- The end of `ts3plugin_infoData` (lines 252-254), reached with the name looked up.
The result of `malloc` is not tested: with a null pointer `snprintf` has no defined
behaviour. -/
def infoData_fill (win32 : Bool) (name : String) (w : World) : Option (Option String × World) :=
  let (m, w1) := w.call (.malloc (INFODATA_BUFSIZE * 1))
  if m.ret = 0 then none
  else
    let text := snprintf win32 INFODATA_BUFSIZE ("The nickname is [I]\"" ++ name ++ "\"[/I]")
    let (_, w2) := w1.call .freeMemory
    some (some text, w2)

/-- `ts3plugin_infoData` (lines 223-255): `data` is what the caller's slot `*data` holds
at the call, the result what it holds at the return.  The `default:` label assigns null
to the parameter `data`, which is the function's own copy of the address of the slot. -/
def ts3plugin_infoData (win32 : Bool) (serverConnectionHandlerID id : Nat) (type : Int)
    (data : Option String) (w : World) : Option (Option String × World) :=
  if type = PLUGIN_SERVER then
    let (r, w1) := w.call (.getServerVariableAsString serverConnectionHandlerID VIRTUALSERVER_NAME)
    if r.status ≠ ERROR_ok then some (data, w1.print "Error getting virtual server name\n")
    else infoData_fill win32 r.text w1
  else if type = PLUGIN_CHANNEL then
    let (r, w1) := w.call (.getChannelVariableAsString serverConnectionHandlerID id CHANNEL_NAME)
    if r.status ≠ ERROR_ok then some (data, w1.print "Error getting channel name\n")
    else infoData_fill win32 r.text w1
  else if type = PLUGIN_CLIENT then
    let (r, w1) := w.call
      (.getClientVariableAsString serverConnectionHandlerID (id % 2 ^ 16) CLIENT_NICKNAME)
    if r.status ≠ ERROR_ok then some (data, w1.print "Error getting client nickname\n")
    else infoData_fill win32 r.text w1
  else
    some (data, w.print ("Invalid item type: " ++ toString type ++ "\n"))

/-- `ts3plugin_requestAutoload` (lines 269-272). -/
def ts3plugin_requestAutoload : Int := 0

/-- `ts3plugin_onServerErrorEvent` (lines 410-421). -/
def ts3plugin_onServerErrorEvent (serverConnectionHandlerID : Nat) (errorMessage : Option String)
    (error : Nat) (returnCode _extraMessage : Option String) (w : World) : Int × World :=
  let w1 := w.print ("PLUGIN: onServerErrorEvent " ++ toString serverConnectionHandlerID ++ " " ++
    fmt_s errorMessage ++ " " ++ fmt_d error ++ " " ++ returnCode.getD "" ++ "\n")
  if returnCode.isSome then (1, w1) else (0, w1)

/-- `ts3plugin_onTextMessageEvent` (lines 425-453; the block under `#if 0` is not compiled). -/
def ts3plugin_onTextMessageEvent (serverConnectionHandlerID targetMode _toID fromID : Nat)
    (fromName _fromUniqueIdentifier message : Option String) (ffIgnored : Int) (w : World) :
    Int × World :=
  let w1 := w.print ("PLUGIN: onTextMessageEvent " ++ toString serverConnectionHandlerID ++ " " ++
    toString targetMode ++ " " ++ toString fromID ++ " " ++ fmt_s fromName ++ " " ++
    fmt_s message ++ " " ++ toString ffIgnored ++ "\n")
  if ffIgnored ≠ 0 then (0, w1) else (0, w1)

end Plugin

namespace SafePlugin

/-- `logTS` (lines 59-61). -/
def logTS (st : PluginState) (sch : Nat) (lvl : LogLevel) (msg : String) (w : World) : World :=
  if st.ts3Functions_logMessage then (w.call (.logMessage msg lvl "SC-DA" sch)).2 else w

/-- `logInfo` (line 62). -/
def logInfo (st : PluginState) (msg : String) (sch : Nat) (w : World) : World :=
  logTS st sch .LogLevel_INFO msg w

/-- `logWarn` (line 63). -/
def logWarn (st : PluginState) (msg : String) (sch : Nat) (w : World) : World :=
  logTS st sch .LogLevel_WARNING msg w

/-- `logError` (line 64). -/
def logError (st : PluginState) (msg : String) (sch : Nat) (w : World) : World :=
  logTS st sch .LogLevel_ERROR msg w

/-- `wcharToUtf8` (lines 68-78): returns the `int` result and what `*result` holds
(a null pointer at the call). -/
def wcharToUtf8 (str : String) (w : World) : Int × Option String × World :=
  let (r0, w0) := w.call (.WideCharToMultiByte str false 0)
  let outlen := r0.ret
  if outlen ≤ 0 then (-1, none, w0)
  else
    let (m, w1) := w0.call (.malloc (outlen % 2 ^ 64).toNat)
    if m.ret = 0 then (-1, none, w1)
    else
      let (r1, w2) := w1.call (.WideCharToMultiByte str true outlen)
      if r1.ret = 0 then (-1, none, (w2.call .free).2)
      else (0, some r1.text, w2)

/-- `ts3plugin_name` (lines 101-116). -/
def ts3plugin_name (win32 : Bool) (st : PluginState) (w : World) :
    Option String × PluginState × World :=
  if win32 then
    if st.name_result.isNone then
      let name := "Star Citizen Directional Audio"
      let (rc, result, w1) := wcharToUtf8 name w
      if rc = -1 ∨ result.isNone then
        (some "Star Citizen Directional Audio", { st with name_result := result }, w1)
      else (result, { st with name_result := result }, w1)
    else (st.name_result, st, w)
  else (some "Star Citizen Directional Audio", st, w)

/-- `ts3plugin_version` (line 119). -/
def ts3plugin_version : Option String := some "1.2"

/-- `ts3plugin_apiVersion` (line 122). -/
def ts3plugin_apiVersion : Int := PLUGIN_API_VERSION

/-- `ts3plugin_author` (line 125). -/
def ts3plugin_author : Option String := some "RaylaValdez"

/-- `ts3plugin_description` (lines 128-130). -/
def ts3plugin_description : Option String :=
  some "This plugin takes positional data from SCTS3DA.exe and places clients in 3D audio coordinates for Star Citizen."

/-- `ts3plugin_shutdown` (lines 167-175). -/
def ts3plugin_shutdown (st : PluginState) (w : World) : PluginState × World :=
  let w1 := logInfo st "PLUGIN: shutdown" 0 w
  if st.pluginID.isSome then
    let (_, w2) := w1.call .free
    ({ st with pluginID := none }, w2)
  else (st, w1)

/-- `ts3plugin_registerPluginID` (lines 179-187).  The result of `malloc` is not tested:
with a null pointer the copy has no defined behaviour. -/
def ts3plugin_registerPluginID (win32 : Bool) (id : String) (st : PluginState) (w : World) :
    Option (PluginState × World) :=
  let sz := id.length + 1
  let (m, w1) := w.call (.malloc (sz * 1))
  if m.ret = 0 then none
  else
    let copy := _strcpy win32 sz id
    let buf := snprintf win32 256 ("PLUGIN: registerPluginID: " ++ copy)
    some ({ st with pluginID := some copy }, logInfo st buf 0 w1)

/-- `ts3plugin_commandKeyword` (line 189). -/
def ts3plugin_commandKeyword : Option String := some "scda"

/-- `ts3plugin_infoTitle` (line 200). -/
def ts3plugin_infoTitle : Option String := some "Star Citizen Directional Audio info"

/-- The end of `ts3plugin_infoData` (lines 231-235), reached with the name looked up. -/
def infoData_fill (win32 : Bool) (name : String) (w : World) : Option String × World :=
  let (m, w1) := w.call (.malloc (INFODATA_BUFSIZE * 1))
  let data :=
    if m.ret ≠ 0 then
      some (snprintf win32 INFODATA_BUFSIZE ("The nickname is [I]\"" ++ name ++ "\"[/I]"))
    else none
  let (_, w2) := w1.call .freeMemory
  (data, w2)

/-- `ts3plugin_infoData` (lines 203-236): `data` is what the caller's slot `*data` holds
at the call, the result what it holds at the return. -/
def ts3plugin_infoData (win32 : Bool) (st : PluginState) (sch id : Nat) (type : Int)
    (_data : Option String) (w : World) : Option String × World :=
  if type = PLUGIN_SERVER then
    let (r, w1) := w.call (.getServerVariableAsString sch VIRTUALSERVER_NAME)
    if r.status ≠ ERROR_ok then (none, logError st "Error getting virtual server name" sch w1)
    else infoData_fill win32 r.text w1
  else if type = PLUGIN_CHANNEL then
    let (r, w1) := w.call (.getChannelVariableAsString sch id CHANNEL_NAME)
    if r.status ≠ ERROR_ok then (none, logError st "Error getting channel name" sch w1)
    else infoData_fill win32 r.text w1
  else if type = PLUGIN_CLIENT then
    let (r, w1) := w.call (.getClientVariableAsString sch (id % 2 ^ 16) CLIENT_NICKNAME)
    if r.status ≠ ERROR_ok then (none, logError st "Error getting client nickname" sch w1)
    else infoData_fill win32 r.text w1
  else
    (none, w)

/-- `ts3plugin_requestAutoload` (line 242). -/
def ts3plugin_requestAutoload : Int := 0

/-- `ts3plugin_onServerErrorEvent` (lines 336-346). -/
def ts3plugin_onServerErrorEvent (win32 : Bool) (st : PluginState) (sch : Nat)
    (errorMessage : Option String) (error : Nat) (returnCode _extraMessage : Option String)
    (w : World) : Int × World :=
  let buf := snprintf win32 512 ("PLUGIN: onServerErrorEvent " ++ toString sch ++ " " ++
    errorMessage.getD "" ++ " " ++ toString (error % 2 ^ 32) ++ " " ++ returnCode.getD "")
  let w1 := logWarn st buf sch w
  if returnCode.isSome then (1, w1) else (0, w1)

/-- `ts3plugin_onTextMessageEvent` (lines 348-356). -/
def ts3plugin_onTextMessageEvent (win32 : Bool) (st : PluginState)
    (sch targetMode _toID fromID : Nat) (fromName _fromUID message : Option String)
    (ffIgnored : Int) (w : World) : Int × World :=
  if ffIgnored ≠ 0 then (0, w)
  else
    let buf := snprintf win32 512 ("PLUGIN: onTextMessageEvent " ++ toString sch ++ " " ++
      toString targetMode ++ " " ++ toString fromID ++ " " ++ fromName.getD "" ++ " " ++
      message.getD "" ++ " " ++ toString ffIgnored)
    (0, logInfo st buf sch w)

end SafePlugin

/-! ## Vocabulary of the statements -/

/-- A preprocessor setting. -/
def Call.isPreProcessor : Call → Bool
  | .setPreProcessorConfigValue .. => true
  | _ => false

/-- A request that sets a variable of the own client. -/
def Call.isSelfVariable : Call → Bool
  | .setClientSelfVariableAsInt .. => true
  | _ => false

/-- The identity request. -/
def Call.isCreateIdentity : Call → Bool
  | .createIdentity => true
  | _ => false

/-- The world `w1` is reached from `w` by library calls (and output) only, and every history
entry added on the way satisfies `P`. -/
def Reach (P : Entry → Prop) (w w1 : World) : Prop :=
  w1.lib = w.lib ∧ ∃ l, w1.trace = w.trace ++ l ∧ ∀ e ∈ l, P e

/-- The number of acquire requests in a history. -/
def acquired (t : List Entry) : Nat :=
  t.countP (fun e => e.call.isAcquire)

/-- The `startConnection` requests made between `w0` and `w`. -/
def World.startsSince (w w0 : World) : List Call :=
  (w.callsSince w0).filter Call.isStartConnection

/-- The whisper-list requests made between `w0` and `w`. -/
def World.whisperListsSince (w w0 : World) : List Call :=
  (w.callsSince w0).filter Call.isWhisperList

/-- An entry that is neither a device-open nor a `startConnection` request. -/
def Entry.quiet (e : Entry) : Bool :=
  !e.call.isOpenDevice && !e.call.isStartConnection

/-- A startup request whose failure makes `main` give up: library initialisation, custom
device registration, identity creation (also an empty identity) and the connection spawns. -/
def Repeater.startupFailure (e : Entry) : Bool :=
  match e.call with
  | .initClientLib .. => e.reply.status != ERROR_ok
  | .registerCustomDevice .. => e.reply.status != ERROR_ok
  | .spawnNewServerConnectionHandler .. => e.reply.status != ERROR_ok
  | .createIdentity => e.reply.status != ERROR_ok || e.reply.text.isEmpty
  | _ => false

/-- The acquire request every iteration of the drain loop makes. -/
def Repeater.acquireCall : Call :=
  .acquireCustomPlaybackData "loopback" 960

/-- The capture request that submits the chunk `c`. -/
def Repeater.captureCall (c : List Int) : Call :=
  .processCustomCaptureData "loopback" c 960

/-- The requests of a drain pass over the chunks `cs`: acquire and submit for each chunk in
turn, then the acquire that finds nothing. -/
def Repeater.drainCalls : List (List Int) → List Call
  | [] => [Repeater.acquireCall]
  | c :: cs => Repeater.acquireCall :: Repeater.captureCall c :: Repeater.drainCalls cs

/-- The `startConnection` request `connect` makes for a handler. -/
def Repeater.Connection_Handler.startCall (h : Repeater.Connection_Handler) : Call :=
  .startConnection h._connection_id h._connection_data.identity h._connection_data.address
    h._connection_data.port h._connection_data.nick none "" h._connection_data.pw

/-! ### Parts of the functions above, named for the proofs

Each is tied to the function it is cut from by an equation proved by `rfl` or by cases
(`open_audio_playback_eq`, `on_connect_status_change_eq`, `set_whisper_eq`). -/

/-- One request whose status is handed to the repeater's `print_error`: the pattern
`print_error(ts3client_f(..), msg, id)`. -/
def Repeater.reported (c : Call) (msg : String) (connection_id : Nat) (w : World) : World :=
  Repeater.print_error (w.call c).1.status msg connection_id (w.call c).2

/-- The first part of `TS_Client::on_connect_status_change` (ts_client.cpp lines 197-206):
the log lines and the error report that come before the event is passed on. -/
def Repeater.TS_Client.announce (connection_id : Nat) (status : Int) (error : Nat)
    (w : World) : World :=
  Repeater.print_error error "onConnectStatusChange" connection_id
    (if status = STATUS_DISCONNECTED ∧ error = ERROR_failed_connection_initialisation then
      (World.call
        (w.call (.logMessage ("Connect status changed: " ++ toString connection_id ++ " "
          ++ toString status) .LogLevel_INFO "" connection_id)).2
        (.logMessage "Looks like there is no server running.\n" .LogLevel_INFO ""
          connection_id)).2
    else
      (w.call (.logMessage ("Connect status changed: " ++ toString connection_id ++ " "
        ++ toString status) .LogLevel_INFO "" connection_id)).2)

/-- Lines 88-117 of `set_whisper_to_all_visible`: what is done with the filtered target
list once it has been computed. -/
def Whisperer.apply_targets (connection_id : Nat) (target_client_ids : List Nat)
    (w1 : World) : World :=
  if target_client_ids.length > 0 then
    let target_client_ids := target_client_ids ++ [0]
    let whisper_log := "Whisperlist set to "
      ++ Whisperer.client_id_array_to_string target_client_ids
    let (r, w2) := w1.call
      (.requestClientSetWhisperList connection_id 0 none target_client_ids none)
    if r.status ≠ ERROR_ok then
      Whisperer.print_error r.status (whisper_log ++ ", but FAILED") connection_id w2
    else
      let w3 := (w2.call (.logMessage whisper_log .LogLevel_INFO Whisperer.kWhisperApp
        connection_id)).2
      let (r2, w4) := w3.call
        (.setClientSelfVariableAsInt connection_id CLIENT_INPUT_DEACTIVATED INPUT_ACTIVE)
      if r2.status ≠ ERROR_ok ∧ r2.status ≠ ERROR_ok_no_update then
        Whisperer.print_error r2.status "Couldn't activate input." connection_id w4
      else if r2.status = ERROR_ok then
        (w4.call (.logMessage "Activated Input for whispering." .LogLevel_INFO
          Whisperer.kWhisperApp connection_id)).2
      else w4
  else
    let (r, w2) := w1.call
      (.setClientSelfVariableAsInt connection_id CLIENT_INPUT_DEACTIVATED INPUT_DEACTIVATED)
    if r.status ≠ ERROR_ok ∧ r.status ≠ ERROR_ok_no_update then
      Whisperer.print_error r.status "Couldn't deactivate input." connection_id w2
    else
      (w2.call (.logMessage "Deactivated Input: No whisper targets." .LogLevel_INFO
        Whisperer.kWhisperApp connection_id)).2

/-! ### Concrete libraries and inputs (for the witnesses and counterexamples) -/

/-- A library in which the requests picked out by `fails` return `status` and every other
request succeeds; a successful request stores the text "x", a fresh number and an empty
array. -/
def libFailing (fails : Call → Bool) (status : Nat) : Lib := fun t c =>
  if fails c then { status := status }
  else { status := ERROR_ok, text := "x", num := some (t.length + 1), ids := [0] }

/-- A library in which every request succeeds. -/
def libOk : Lib := libFailing (fun _ => false) 0

/-- A library with a playback queue: the k-th acquire request is answered with the k-th
chunk of `cs`, and with "no data" once the chunks are used up; all else succeeds. -/
def Repeater.queueLib (cs : List (List Int)) : Lib := fun t c =>
  match c with
  | .acquireCustomPlaybackData .. =>
    match cs.get? (acquired t) with
    | some chunk => { status := ERROR_ok, samples := some chunk }
    | none => { status := ERROR_sound_no_data }
  | _ => {}

/-- An audio thread at its loop test, with the shutdown flag already set and a chunk still
waiting in the library. -/
def Repeater.flagSetAtTest : Repeater.ThreadState :=
  { shutting_down := true, pc := .loopTop, playback_buffer := [],
    world := World.start (Repeater.queueLib [[5]]) }

/-- A fresh world whose library rejects the request for "vad_mode" on connection 1. -/
def vadModeFails : World :=
  World.start (libFailing (fun c => c == .setPreProcessorConfigValue 1 "vad_mode" "1") 1)

/-- A repeater client that holds one connection, with id 7, and is not shutting down. -/
def clientWithConnection7 : Repeater.TS_Client :=
  { _identity := "x"
    _connections :=
      [some ⟨{ address := "localhost", nick := "repeater-listener", identity := "x" }, 7⟩,
       none] }

/-- A library whose client list is the array 4, 9, 5, 0 and in which every request
succeeds. -/
def libClients495 : Lib := fun _ c =>
  match c with
  | .getClientList .. => { status := ERROR_ok, ids := [4, 9, 5, 0] }
  | _ => { status := ERROR_ok, text := "x" }

/-- A library in which both device-open requests fail (status 0x0906) and all else
succeeds. -/
def devicesFail : Lib := libFailing Call.isOpenDevice 0x0906

/-- A library in which every connection spawn fails (status 1) and all else succeeds. -/
def spawnFails : Lib := libFailing (fun c => c == .spawnNewServerConnectionHandler 0) 1

/-- A command line of the repeater. -/
def repeaterArgv : List String := ["./repeater", "10.0.0.1", "9987", "10.0.0.2", "9988"]

/-- The value of a string of decimal digits, digit by digit. -/
def digitsValue : List Char → Nat → Option Nat
  | [], acc => some acc
  | c :: cs, acc => if c.isDigit then digitsValue cs (acc * 10 + (c.toNat - 48)) else none

/-- A stand-in for `std::stoul`, used only where a witness or a counterexample needs a
value for the parameter `stoul`, at the port arguments "9987" and "9988".  It agrees with
`std::stoul` on a string of decimal digits whose value fits `unsigned long`; unlike
`std::stoul` it gives `none` (the exception) for a number followed by other characters or
preceded by white space or a sign, and it has no upper bound. -/
def decimal (s : String) : Option Nat :=
  if s.data = [] then none else digitsValue s.data 0

/-! ### Vocabulary and concrete hosts for the plugin -/

/-- A request to the C runtime for memory. -/
def Call.isMalloc : Call → Bool
  | .malloc _ => true
  | _ => false

/-- The release of memory through the host (`ts3Functions.freeMemory`). -/
def Call.isFreeMemory : Call → Bool
  | .freeMemory => true
  | _ => false

/-- A release of memory through the C runtime (`free`). -/
def Call.isFree : Call → Bool
  | .free => true
  | _ => false

/-- The connection id a request carries: `none` for a request that has no such argument. -/
def Call.connection_id? : Call → Option Nat
  | .logMessage _ _ _ connection_id => some connection_id
  | .destroyServerConnectionHandler connection_id => some connection_id
  | .startConnection connection_id _ _ _ _ _ _ _ => some connection_id
  | .stopConnection connection_id _ => some connection_id
  | .openCaptureDevice connection_id _ _ => some connection_id
  | .openPlaybackDevice connection_id _ _ => some connection_id
  | .setPreProcessorConfigValue connection_id _ _ => some connection_id
  | .getClientList connection_id => some connection_id
  | .getClientID connection_id => some connection_id
  | .getClientVariableAsString connection_id _ _ => some connection_id
  | .requestClientSetWhisperList connection_id _ _ _ _ => some connection_id
  | .setClientSelfVariableAsInt connection_id _ _ => some connection_id
  | .allowWhispersFrom connection_id _ => some connection_id
  | .getServerVariableAsString connection_id _ => some connection_id
  | .getChannelVariableAsString connection_id _ _ => some connection_id
  | _ => none

/-- Every entry of `l` whose request carries a connection id carries the id `n`. -/
def carriesOnly (n : Nat) (l : List Entry) : Prop :=
  ∀ e ∈ l, ∀ m, e.call.connection_id? = some m → m = n

/-- The name lookup `ts3plugin_infoData` makes for an item of type `type` (the three
`case` labels of its `switch`, the same in both files); `none` for any other type. -/
def infoData_lookup (sch id : Nat) (type : Int) : Option Call :=
  if type = PLUGIN_SERVER then some (.getServerVariableAsString sch VIRTUALSERVER_NAME)
  else if type = PLUGIN_CHANNEL then some (.getChannelVariableAsString sch id CHANNEL_NAME)
  else if type = PLUGIN_CLIENT then
    some (.getClientVariableAsString sch (id % 2 ^ 16) CLIENT_NICKNAME)
  else none

/-- A host and runtime in which every request succeeds: lookups give the name "Rayla",
`malloc` gives a buffer, a conversion gives the 31 bytes of the plugin name. -/
def hostOk : Lib := fun t c =>
  match c with
  | .malloc _ => { ret := 4096 + t.length }
  | .WideCharToMultiByte s _ _ => { text := s, ret := s.length + 1 }
  | _ => { status := ERROR_ok, text := "Rayla" }

/-- As `hostOk`, but `malloc` returns a null pointer. -/
def hostNoMemory : Lib := fun t c =>
  match c with
  | .malloc _ => { ret := 0 }
  | _ => hostOk t c

/-- As `hostOk`, but the conversion into the buffer fails (the size query succeeds). -/
def conversionFails : Lib := fun t c =>
  match c with
  | .WideCharToMultiByte _ true _ => { ret := 0 }
  | _ => hostOk t c

/-- As `hostOk`, but every name lookup fails with status 0x0200. -/
def lookupFails : Lib := fun t c =>
  match c with
  | .getServerVariableAsString _ _ => { status := 0x0200 }
  | .getChannelVariableAsString _ _ _ => { status := 0x0200 }
  | .getClientVariableAsString _ _ _ => { status := 0x0200 }
  | _ => hostOk t c

/-! ### Vocabulary and inputs for the audio loop, the info text and the whisper targets -/

/-- The world after at most `n` iterations of the inner loop of the audio thread: the body
of `drainPass`, followed for `n` iterations, without the value of the pass.  A pass that
has not ended after `n` iterations is cut there (`drainPass_steps` ties the two). -/
def Repeater.drainSteps : Nat → List Int → World → World
  | 0, _, w => w
  | n + 1, buf, w =>
    let (r, w1) := w.call
      (.acquireCustomPlaybackData Repeater.custom_device Repeater.playback_buffer_size)
    let buf1 := r.samples.getD buf
    if r.status ≠ ERROR_ok then
      if ERROR_sound_no_data = r.status then w1
      else Repeater.print_error r.status "Failed to get playback data" 0 w1
    else
      let (r2, w2) := w1.call
        (.processCustomCaptureData Repeater.custom_device buf1 Repeater.playback_buffer_size)
      if ERROR_ok ≠ r2.status then
        Repeater.print_error r2.status "Failed to process capture data" 0 w2
      else Repeater.drainSteps n buf1 w2

/-- A request of the audio loop names the device "loopback" and 960 samples. -/
def Call.loopback960 : Call → Bool
  | .acquireCustomPlaybackData deviceName samples => deviceName == "loopback" && samples == 960
  | .processCustomCaptureData deviceName _ samples => deviceName == "loopback" && samples == 960
  | _ => true

/-- The text `ts3plugin_infoData` formats for the name `s` (the format string of both
files with `s` in the place of `%s`), before it is cut to the buffer. -/
def infoData_text (s : String) : String :=
  "The nickname is [I]\"" ++ s ++ "\"[/I]"

/-- A request that opens the capture device. -/
def Call.isOpenCapture : Call → Bool
  | .openCaptureDevice .. => true
  | _ => false

/-- A request that opens the playback device. -/
def Call.isOpenPlayback : Call → Bool
  | .openPlaybackDevice .. => true
  | _ => false

/-- A library whose client list is the array 4, 9, 4, 5, 0 (the id 4 twice) and in which
every request succeeds. -/
def libClients4945 : Lib := fun _ c =>
  match c with
  | .getClientList .. => { status := ERROR_ok, ids := [4, 9, 4, 5, 0] }
  | _ => { status := ERROR_ok, text := "x" }

/-- A library whose client list is the array 4, 0 and in which every request succeeds. -/
def libClients4 : Lib := fun _ c =>
  match c with
  | .getClientList .. => { status := ERROR_ok, ids := [4, 0] }
  | _ => { status := ERROR_ok, text := "x" }

/-- The `printf` lines at the start of the whisperer's `onConnectStatusChangeEvent`
(lines 142-146), named for the proofs: the world they leave. -/
def Whisperer.status_lines (serverConnectionHandlerID : Nat) (newStatus : Int)
    (errorNumber : Nat) (w : World) : World :=
  let w := w.print ("Connect status changed: " ++ toString serverConnectionHandlerID ++ " " ++
    toString newStatus ++ " " ++ toString (errorNumber % 2 ^ 32) ++ "\n")
  if newStatus = STATUS_DISCONNECTED ∧
      errorNumber = ERROR_failed_connection_initialisation then
    w.print "Looks like there is no server running.\n" else w

/-! ### Vocabulary for the reports of a failed device-open request -/

/-- The entry `m` is the log line by which the repeater's `print_error` reports the failed
device-open request of the entry `e`, as `open_audio` calls it: a `LogLevel_ERROR` line
for the connection of the request whose text begins with the message for that device
(`print_error` appends a blank and the looked-up error text when the lookup succeeds). -/
def Repeater.reportsOpenFailure (e m : Entry) : Bool :=
  match e.call, m.call with
  | .openCaptureDevice id _ _, .logMessage msg level _ connection_id =>
    level == .LogLevel_ERROR && connection_id == id &&
      "Error opening capture device.".data.isPrefixOf msg.data
  | .openPlaybackDevice id _ _, .logMessage msg level _ connection_id =>
    level == .LogLevel_ERROR && connection_id == id &&
      "Error opening playback device.".data.isPrefixOf msg.data
  | _, _ => false

/-- Between the worlds `w0` and `w` the history has only grown, and every failed
device-open request made in between has its report in between. -/
def Repeater.openFailuresLogged (w0 w : World) : Prop :=
  (∃ l, w.trace = w0.trace ++ l) ∧
  ∀ e ∈ w.since w0, e.call.isOpenDevice = true → e.reply.status ≠ ERROR_ok →
    ∃ m ∈ w.since w0, Repeater.reportsOpenFailure e m = true

/-- The line the whisperer's `main` prints for the failed device-open request of the entry
`e` (main.cpp lines 330-338). -/
def Whisperer.openFailureLine (e : Entry) : String :=
  match e.call with
  | .openCaptureDevice .. => "Error opening capture device: " ++ fmt_d e.reply.status ++ "\n"
  | .openPlaybackDevice .. => "Error opening playback device: " ++ fmt_d e.reply.status ++ "\n"
  | _ => ""

/-- Between the worlds `w0` and `w` the history and the output have only grown, and every
failed device-open request made in between has its line in the output. -/
def Whisperer.openFailuresPrinted (w0 w : World) : Prop :=
  (∃ l, w.trace = w0.trace ++ l) ∧ (∃ o, w.out = w0.out ++ o) ∧
  ∀ e ∈ w.since w0, e.call.isOpenDevice = true → e.reply.status ≠ ERROR_ok →
    Whisperer.openFailureLine e ∈ w.out

/-- A library whose client list is the array 4, 4, 0 (the id 4 twice, nothing else) and in
which every request succeeds. -/
def libClients44 : Lib := fun _ c =>
  match c with
  | .getClientList .. => { status := ERROR_ok, ids := [4, 4, 0] }
  | _ => { status := ERROR_ok, text := "x" }

/-! ## Basic facts about worlds -/

@[simp] theorem call_fst (w : World) (c : Call) : (w.call c).1 = w.lib w.trace c := rfl
@[simp] theorem call_trace (w : World) (c : Call) :
    (w.call c).2.trace = w.trace ++ [⟨c, w.lib w.trace c⟩] := rfl
@[simp] theorem call_lib (w : World) (c : Call) : (w.call c).2.lib = w.lib := rfl
@[simp] theorem call_out (w : World) (c : Call) : (w.call c).2.out = w.out := rfl
@[simp] theorem print_trace (w : World) (s : String) : (w.print s).trace = w.trace := rfl
@[simp] theorem print_lib (w : World) (s : String) : (w.print s).lib = w.lib := rfl
@[simp] theorem print_out (w : World) (s : String) : (w.print s).out = w.out ++ [s] := rfl

theorem since_of_append {w w0 : World} {l : List Entry} (h : w.trace = w0.trace ++ l) :
    w.since w0 = l := by
  simp [World.since, h]

@[simp] theorem since_self (w : World) : w.since w = [] := by
  simp [World.since]

theorem Reach.refl (P : Entry → Prop) (w : World) : Reach P w w :=
  ⟨rfl, [], by simp, by simp⟩

theorem Reach.trans {P : Entry → Prop} {w w1 w2 : World} (h1 : Reach P w w1)
    (h2 : Reach P w1 w2) : Reach P w w2 := by
  obtain ⟨hl1, l1, ht1, hp1⟩ := h1
  obtain ⟨hl2, l2, ht2, hp2⟩ := h2
  refine ⟨hl2.trans hl1, l1 ++ l2, by simp [ht2, ht1], ?_⟩
  intro e he
  rcases List.mem_append.mp he with h | h
  · exact hp1 e h
  · exact hp2 e h

theorem Reach.mono {P Q : Entry → Prop} {w w1 : World} (h : Reach P w w1)
    (hpq : ∀ e, P e → Q e) : Reach Q w w1 := by
  obtain ⟨hl, l, ht, hp⟩ := h
  exact ⟨hl, l, ht, fun e he => hpq e (hp e he)⟩

theorem Reach.call {P : Entry → Prop} (w : World) (c : Call)
    (h : P ⟨c, w.lib w.trace c⟩) : Reach P w (w.call c).2 :=
  ⟨rfl, [⟨c, w.lib w.trace c⟩], rfl, by simpa using h⟩

theorem Reach.print (P : Entry → Prop) (w : World) (s : String) : Reach P w (w.print s) :=
  ⟨rfl, [], by simp, by simp⟩

theorem Reach.since {P : Entry → Prop} {w w1 : World} (h : Reach P w w1) :
    ∀ e ∈ w1.since w, P e := by
  obtain ⟨_, l, ht, hp⟩ := h
  rw [since_of_append ht]
  exact hp

theorem Reach.since_trans {P Q : Entry → Prop} {w w1 w2 : World} (h1 : Reach P w w1)
    (h2 : Reach Q w1 w2) : w2.since w = w1.since w ++ w2.since w1 := by
  obtain ⟨_, l1, ht1, _⟩ := h1
  obtain ⟨_, l2, ht2, _⟩ := h2
  rw [since_of_append ht1, since_of_append ht2]
  exact since_of_append (by simp [ht2, ht1])

/-! ## `print_error` -/

/-- The history `print_error` adds (both copies make the same requests but for the log
channel): nothing for `ERROR_ok`; else the message lookup, then either the release of the
message and the log line with the message appended, or the log line of `msg` alone. -/
theorem Repeater.repeater_print_error_trace (error : Nat) (msg : String) (connection_id : Nat)
    (w : World) :
    (Repeater.print_error error msg connection_id w).lib = w.lib ∧
    (Repeater.print_error error msg connection_id w).out = w.out ∧
    ((Repeater.print_error error msg connection_id w).trace = w.trace ++
      (if error = ERROR_ok then []
       else if (w.lib w.trace (.getErrorMessage error)).status = ERROR_ok then
        [⟨.getErrorMessage error, w.lib w.trace (.getErrorMessage error)⟩,
         ⟨.freeMemory, w.lib (w.trace ++ [⟨.getErrorMessage error,
            w.lib w.trace (.getErrorMessage error)⟩]) .freeMemory⟩,
         ⟨.logMessage (msg ++ " " ++ (w.lib w.trace (.getErrorMessage error)).text)
            .LogLevel_ERROR "" connection_id,
          w.lib (w.trace ++ [⟨.getErrorMessage error, w.lib w.trace (.getErrorMessage error)⟩,
            ⟨.freeMemory, w.lib (w.trace ++ [⟨.getErrorMessage error,
              w.lib w.trace (.getErrorMessage error)⟩]) .freeMemory⟩])
            (.logMessage (msg ++ " " ++ (w.lib w.trace (.getErrorMessage error)).text)
              .LogLevel_ERROR "" connection_id)⟩]
       else
        [⟨.getErrorMessage error, w.lib w.trace (.getErrorMessage error)⟩,
         ⟨.logMessage msg .LogLevel_ERROR "" connection_id,
          w.lib (w.trace ++ [⟨.getErrorMessage error, w.lib w.trace (.getErrorMessage error)⟩])
            (.logMessage msg .LogLevel_ERROR "" connection_id)⟩])) := by
  unfold Repeater.print_error
  by_cases h : error = ERROR_ok
  · simp [h]
  · by_cases h2 : (w.lib w.trace (.getErrorMessage error)).status = ERROR_ok
    · simp [h, h2, World.call]
    · simp [h, h2, World.call]

theorem Whisperer.whisperer_print_error_trace (error : Nat) (msg : String) (connection_id : Nat)
    (w : World) :
    (Whisperer.print_error error msg connection_id w).lib = w.lib ∧
    (Whisperer.print_error error msg connection_id w).out = w.out ∧
    ((Whisperer.print_error error msg connection_id w).trace = w.trace ++
      (if error = ERROR_ok then []
       else if (w.lib w.trace (.getErrorMessage error)).status = ERROR_ok then
        [⟨.getErrorMessage error, w.lib w.trace (.getErrorMessage error)⟩,
         ⟨.freeMemory, w.lib (w.trace ++ [⟨.getErrorMessage error,
            w.lib w.trace (.getErrorMessage error)⟩]) .freeMemory⟩,
         ⟨.logMessage (msg ++ " " ++ (w.lib w.trace (.getErrorMessage error)).text)
            .LogLevel_ERROR "Whisperer" connection_id,
          w.lib (w.trace ++ [⟨.getErrorMessage error, w.lib w.trace (.getErrorMessage error)⟩,
            ⟨.freeMemory, w.lib (w.trace ++ [⟨.getErrorMessage error,
              w.lib w.trace (.getErrorMessage error)⟩]) .freeMemory⟩])
            (.logMessage (msg ++ " " ++ (w.lib w.trace (.getErrorMessage error)).text)
              .LogLevel_ERROR "Whisperer" connection_id)⟩]
       else
        [⟨.getErrorMessage error, w.lib w.trace (.getErrorMessage error)⟩,
         ⟨.logMessage msg .LogLevel_ERROR "Whisperer" connection_id,
          w.lib (w.trace ++ [⟨.getErrorMessage error, w.lib w.trace (.getErrorMessage error)⟩])
            (.logMessage msg .LogLevel_ERROR "Whisperer" connection_id)⟩])) := by
  unfold Whisperer.print_error
  by_cases h : error = ERROR_ok
  · simp [h]
  · by_cases h2 : (w.lib w.trace (.getErrorMessage error)).status = ERROR_ok
    · simp [h, h2, World.call, Whisperer.kWhisperApp]
    · simp [h, h2, World.call, Whisperer.kWhisperApp]

/-- Whatever `print_error` adds to the history is error reporting. -/
theorem Repeater.repeater_print_error_reach (error : Nat) (msg : String) (connection_id : Nat)
    (w : World) :
    Reach (fun e => e.call.isErrorReport = true) w
      (Repeater.print_error error msg connection_id w) := by
  obtain ⟨hl, _, ht⟩ := Repeater.repeater_print_error_trace error msg connection_id w
  refine ⟨hl, _, ht, ?_⟩
  intro e he
  split_ifs at he <;> simp at he
  · rcases he with rfl | rfl | rfl <;> rfl
  · rcases he with rfl | rfl <;> rfl

theorem Whisperer.whisperer_print_error_reach (error : Nat) (msg : String) (connection_id : Nat)
    (w : World) :
    Reach (fun e => e.call.isErrorReport = true) w
      (Whisperer.print_error error msg connection_id w) := by
  obtain ⟨hl, _, ht⟩ := Whisperer.whisperer_print_error_trace error msg connection_id w
  refine ⟨hl, _, ht, ?_⟩
  intro e he
  split_ifs at he <;> simp at he
  · rcases he with rfl | rfl | rfl <;> rfl
  · rcases he with rfl | rfl <;> rfl

/-! ## The drain pass -/

namespace Repeater

theorem drainCalls_capture (cs : List (List Int)) :
    (drainCalls cs).filter Call.isCapture = cs.map captureCall := by
  induction cs with
  | nil => simp [drainCalls, acquireCall, Call.isCapture]
  | cons c cs ih => simp [drainCalls, acquireCall, captureCall, Call.isCapture] at ih ⊢; exact ih

theorem drainCalls_countAcquire (cs : List (List Int)) :
    (drainCalls cs).countP Call.isAcquire = cs.length + 1 := by
  induction cs with
  | nil => simp [drainCalls, acquireCall, Call.isAcquire]
  | cons c cs ih => simp [drainCalls, acquireCall, captureCall, Call.isAcquire] at ih ⊢; exact ih

theorem drainCalls_countCapture (cs : List (List Int)) :
    (drainCalls cs).countP Call.isCapture = cs.length := by
  induction cs with
  | nil => simp [drainCalls, acquireCall, Call.isCapture]
  | cons c cs ih => simp [drainCalls, acquireCall, captureCall, Call.isCapture] at ih ⊢; exact ih

/-- The drain pass over a library that hands out the chunks `cs` and then has no data. -/
theorem drainPass_chunks (cs : List (List Int)) :
    ∀ (fuel : Nat) (buf : List Int) (w : World),
      cs.length < fuel →
      (∀ (t : List Entry) (i : Nat) (c : List Int), w.trace <+: t →
          acquired t = acquired w.trace + i → cs.get? i = some c →
          (w.lib t acquireCall).status = ERROR_ok ∧ (w.lib t acquireCall).samples = some c) →
      (∀ (t : List Entry), w.trace <+: t → acquired t = acquired w.trace + cs.length →
          (w.lib t acquireCall).status = ERROR_sound_no_data) →
      (∀ (t : List Entry) (c : Call), c.isCapture = true → (w.lib t c).status = ERROR_ok) →
      ∃ b w1 l, drainPass fuel buf w = some (b, w1) ∧ w1.out = w.out ∧
        w1.trace = w.trace ++ l ∧ l.map Entry.call = drainCalls cs := by
  induction cs with
  | nil =>
    intro fuel buf w hf _ hend _
    obtain ⟨f, rfl⟩ : ∃ f, fuel = f + 1 := ⟨fuel - 1, by simp at hf; omega⟩
    have h0 := hend w.trace (List.prefix_refl _) (by simp)
    simp only [acquireCall] at h0
    refine ⟨(w.lib w.trace acquireCall).samples.getD buf, (w.call acquireCall).2,
      [⟨acquireCall, w.lib w.trace acquireCall⟩], ?_, ?_, rfl, rfl⟩
    · simp [drainPass, World.call, h0, ERROR_sound_no_data, ERROR_ok, acquireCall,
        custom_device, playback_buffer_size]
    · rfl
  | cons c cs ih =>
    intro fuel buf w hf hacq hend hcap
    obtain ⟨f, rfl⟩ : ∃ f, fuel = f + 1 := ⟨fuel - 1, by simp at hf; omega⟩
    have h0 := hacq w.trace 0 c (List.prefix_refl _) (by simp) (by simp)
    have h1 := hcap (w.trace ++ [⟨acquireCall, w.lib w.trace acquireCall⟩]) (captureCall c) rfl
    have hcnt : acquired (w.trace ++ [⟨acquireCall, w.lib w.trace acquireCall⟩,
        ⟨captureCall c, w.lib (w.trace ++ [⟨acquireCall, w.lib w.trace acquireCall⟩])
          (captureCall c)⟩]) = acquired w.trace + 1 := by
      simp [acquired, acquireCall, captureCall, Call.isAcquire]
    obtain ⟨b, w1, l, hb, hout, htr, hl⟩ := ih f c
      { lib := w.lib, trace := w.trace ++ [⟨acquireCall, w.lib w.trace acquireCall⟩,
          ⟨captureCall c, w.lib (w.trace ++ [⟨acquireCall, w.lib w.trace acquireCall⟩])
            (captureCall c)⟩], out := w.out }
      (by simp at hf; omega)
      (fun t i d hp hc hd => hacq t (i + 1) d
        ((List.prefix_append _ _).trans hp) (by rw [hc, hcnt]; omega) (by simpa using hd))
      (fun t hp hc => hend t ((List.prefix_append _ _).trans hp)
        (by rw [hc, hcnt]; simp; omega))
      hcap
    refine ⟨b, w1, ⟨acquireCall, w.lib w.trace acquireCall⟩ ::
      ⟨captureCall c, w.lib (w.trace ++ [⟨acquireCall, w.lib w.trace acquireCall⟩])
        (captureCall c)⟩ :: l, ?_, hout, ?_, ?_⟩
    · simp only [acquireCall, captureCall] at h0 h1 hb
      simp [drainPass, World.call, h0, h1, custom_device, playback_buffer_size, hb]
    · rw [htr]; simp
    · simp [drainCalls, hl]

end Repeater

/-- A drain pass that ends has only added to the history, starting with its acquire
request. -/
theorem Repeater.drainPass_first (fuel : Nat) :
    ∀ (buf : List Int) (w : World) (b : List Int) (w1 : World),
      Repeater.drainPass fuel buf w = some (b, w1) →
      w1.lib = w.lib ∧ ∃ l, w1.trace = w.trace ++
        ⟨.acquireCustomPlaybackData "loopback" 960,
          w.lib w.trace (.acquireCustomPlaybackData "loopback" 960)⟩ :: l := by
  induction fuel with
  | zero => intro buf w b w1 h; simp [Repeater.drainPass] at h
  | succ f ih =>
    intro buf w b w1 h
    simp only [Repeater.drainPass, Repeater.custom_device, Repeater.playback_buffer_size] at h
    split_ifs at h with h1 h2 h3
    · simp only [Option.some.injEq, Prod.mk.injEq] at h
      obtain ⟨-, rfl⟩ := h
      exact ⟨rfl, [], rfl⟩
    · simp only [Option.some.injEq, Prod.mk.injEq] at h
      obtain ⟨-, rfl⟩ := h
      obtain ⟨hl, l, ht, -⟩ := Repeater.repeater_print_error_reach
        (w.call (.acquireCustomPlaybackData "loopback" 960)).1.status
        "Failed to get playback data" 0
        (w.call (.acquireCustomPlaybackData "loopback" 960)).2
      exact ⟨hl, l, by rw [ht]; simp⟩
    · simp only [Option.some.injEq, Prod.mk.injEq] at h
      obtain ⟨-, rfl⟩ := h
      obtain ⟨hl, l, ht, -⟩ := Repeater.repeater_print_error_reach
        (World.call (w.call (.acquireCustomPlaybackData "loopback" 960)).2
          (.processCustomCaptureData "loopback"
            ((w.call (.acquireCustomPlaybackData "loopback" 960)).1.samples.getD buf) 960)).1.status
        "Failed to process capture data" 0
        (World.call (w.call (.acquireCustomPlaybackData "loopback" 960)).2
          (.processCustomCaptureData "loopback"
            ((w.call (.acquireCustomPlaybackData "loopback" 960)).1.samples.getD buf) 960)).2
      simp only [call_trace, List.append_assoc, List.singleton_append] at ht
      exact ⟨hl, _, ht⟩
    · obtain ⟨hl, l, ht⟩ := ih _ _ _ _ h
      simp only [call_trace, List.append_assoc, List.singleton_append] at ht
      exact ⟨hl, _, ht⟩

/-- Once the audio thread has left its loop, no event changes its history again. -/
theorem Repeater.run_exited (es : List Repeater.Event) :
    ∀ (s : Repeater.ThreadState), s.pc = .exited →
      ∃ s2, Repeater.run es s = some s2 ∧ s2.pc = .exited ∧ s2.world.trace = s.world.trace := by
  induction es with
  | nil => intro s hs; exact ⟨s, rfl, hs, rfl⟩
  | cons e es ih =>
    intro s hs
    cases e with
    | iteration fuel =>
      obtain ⟨s2, h2, hp, ht⟩ := ih s hs
      exact ⟨s2, by simp [Repeater.run, Repeater.step, hs, h2], hp, ht⟩
    | setShuttingDown =>
      obtain ⟨s2, h2, hp, ht⟩ := ih { s with shutting_down := true } hs
      exact ⟨s2, by simp [Repeater.run, Repeater.step, h2], hp, ht⟩

/-! ## `Connection_Handler` -/

theorem Repeater.reported_trace (c : Call) (msg : String) (connection_id : Nat) (w : World) :
    (Repeater.reported c msg connection_id w).lib = w.lib ∧
    (Repeater.reported c msg connection_id w).out = w.out ∧
    ∃ l, (Repeater.reported c msg connection_id w).trace = w.trace ++ ⟨c, w.lib w.trace c⟩ :: l ∧
      ∀ e ∈ l, e.call.isErrorReport = true := by
  obtain ⟨hl, l, ht, hp⟩ := Repeater.repeater_print_error_reach (w.call c).1.status msg
    connection_id (w.call c).2
  obtain ⟨-, ho, -⟩ := Repeater.repeater_print_error_trace (w.call c).1.status msg
    connection_id (w.call c).2
  refine ⟨hl, ho, l, ?_, hp⟩
  rw [Repeater.reported, ht]
  simp

/-- A successful request adds nothing but itself. -/
theorem Repeater.reported_ok (c : Call) (msg : String) (connection_id : Nat) (w : World)
    (h : (w.lib w.trace c).status = ERROR_ok) :
    Repeater.reported c msg connection_id w = (w.call c).2 := by
  simp [Repeater.reported, Repeater.print_error, h]

/-- `open_audio` on the `Playback` branch, written with `reported`. -/
theorem Repeater.open_audio_playback_eq (h : Repeater.Connection_Handler) (mode dev : String)
    (w : World) :
    h.open_audio .Playback mode dev w =
      if (w.lib w.trace (.openCaptureDevice h._connection_id mode (some dev))).status ≠ ERROR_ok
      then
        ((w.lib w.trace (.openCaptureDevice h._connection_id mode (some dev))).status,
          Repeater.reported (.openCaptureDevice h._connection_id mode (some dev))
            "Error opening capture device." h._connection_id w)
      else
        (ERROR_ok,
          Repeater.reported (.setPreProcessorConfigValue h._connection_id "vad" "true")
            "Couldn't turn on VAD." h._connection_id
          (Repeater.reported
            (.setPreProcessorConfigValue h._connection_id "voiceactivation_level" "-50")
            "Error setting voiceactivation_level." h._connection_id
          (Repeater.reported (.setPreProcessorConfigValue h._connection_id "vad_mode" "1")
            "Error setting vad_mode value to hybrid." h._connection_id
            (w.call (.openCaptureDevice h._connection_id mode (some dev))).2))) := by
  rfl

/-- `open_audio` on the `Capture` branch, written with `reported`. -/
theorem Repeater.open_audio_capture_eq (h : Repeater.Connection_Handler) (mode dev : String)
    (w : World) :
    h.open_audio .Capture mode dev w =
      if (w.lib w.trace (.openPlaybackDevice h._connection_id mode (some dev))).status ≠ ERROR_ok
      then
        ((w.lib w.trace (.openPlaybackDevice h._connection_id mode (some dev))).status,
          Repeater.reported (.openPlaybackDevice h._connection_id mode (some dev))
            "Error opening playback device." h._connection_id w)
      else
        (ERROR_ok, (w.call (.openPlaybackDevice h._connection_id mode (some dev))).2) := by
  rfl

/-- The history of `open_audio`: a device-open request first; if it failed, error reporting
only; if it succeeded, preprocessor requests (none or three) and error reporting.  The value
returned is the status of the device-open request. -/
theorem Repeater.open_audio_shape (h : Repeater.Connection_Handler) (audio_io : Repeater.Audio_IO)
    (mode dev : String) (w : World) :
    (h.open_audio audio_io mode dev w).2.lib = w.lib ∧
    ∃ e rest, (h.open_audio audio_io mode dev w).2.trace = w.trace ++ e :: rest ∧
      e.call.isOpenDevice = true ∧
      (h.open_audio audio_io mode dev w).1 = e.reply.status ∧
      (∀ x ∈ rest, x.call.isPreProcessor = true ∨ x.call.isErrorReport = true) ∧
      (e.reply.status ≠ ERROR_ok → ∀ x ∈ rest, x.call.isErrorReport = true) ∧
      (e.reply.status = ERROR_ok →
        rest.countP (fun x => x.call.isPreProcessor) = 0 ∨
        rest.countP (fun x => x.call.isPreProcessor) = 3) := by
  cases audio_io with
  | Capture =>
    rw [Repeater.open_audio_capture_eq]
    by_cases hr : (w.lib w.trace (.openPlaybackDevice h._connection_id mode (some dev))).status
        = ERROR_ok
    · simp only [hr, ne_eq, not_true_eq_false, if_false]
      exact ⟨rfl, _, [], rfl, rfl, hr.symm, by simp, by simp, by simp⟩
    · simp only [hr, ne_eq, not_false_eq_true, if_true]
      obtain ⟨hl, -, l, ht, hp⟩ := Repeater.reported_trace
        (.openPlaybackDevice h._connection_id mode (some dev))
        "Error opening playback device." h._connection_id w
      exact ⟨hl, _, l, ht, rfl, rfl, fun x hx => Or.inr (hp x hx), fun _ => hp,
        fun h0 => absurd h0 hr⟩
  | Playback =>
    rw [Repeater.open_audio_playback_eq]
    by_cases hr : (w.lib w.trace (.openCaptureDevice h._connection_id mode (some dev))).status
        = ERROR_ok
    · simp only [hr, ne_eq, not_true_eq_false, if_false]
      obtain ⟨hl1, -, l1, ht1, hp1⟩ := Repeater.reported_trace
        (.setPreProcessorConfigValue h._connection_id "vad_mode" "1")
        "Error setting vad_mode value to hybrid." h._connection_id
        (w.call (.openCaptureDevice h._connection_id mode (some dev))).2
      generalize Repeater.reported (.setPreProcessorConfigValue h._connection_id "vad_mode" "1")
        "Error setting vad_mode value to hybrid." h._connection_id
        (w.call (.openCaptureDevice h._connection_id mode (some dev))).2 = W1 at hl1 ht1 ⊢
      obtain ⟨hl2, -, l2, ht2, hp2⟩ := Repeater.reported_trace
        (.setPreProcessorConfigValue h._connection_id "voiceactivation_level" "-50")
        "Error setting voiceactivation_level." h._connection_id W1
      generalize Repeater.reported
        (.setPreProcessorConfigValue h._connection_id "voiceactivation_level" "-50")
        "Error setting voiceactivation_level." h._connection_id W1 = W2 at hl2 ht2 ⊢
      obtain ⟨hl3, -, l3, ht3, hp3⟩ := Repeater.reported_trace
        (.setPreProcessorConfigValue h._connection_id "vad" "true")
        "Couldn't turn on VAD." h._connection_id W2
      generalize Repeater.reported (.setPreProcessorConfigValue h._connection_id "vad" "true")
        "Couldn't turn on VAD." h._connection_id W2 = W3 at hl3 ht3 ⊢
      have hc : ∀ l : List Entry, (∀ e ∈ l, e.call.isErrorReport = true) →
          l.countP (fun x => x.call.isPreProcessor) = 0 := by
        intro l hl
        rw [List.countP_eq_zero]
        intro e he
        have := hl e he
        cases hce : e.call <;> simp [hce, Call.isErrorReport, Call.isPreProcessor] at this ⊢
      rw [ht2, ht1] at ht3
      simp only [call_trace, List.append_assoc, List.singleton_append, List.cons_append,
        List.nil_append] at ht3
      refine ⟨by rw [hl3, hl2, hl1]; rfl, _, _, ht3, rfl, hr.symm, ?_, ?_, ?_⟩
      · intro x hx
        simp only [List.mem_cons, List.mem_append] at hx
        rcases hx with rfl | hx | rfl | hx | rfl | hx
        · exact Or.inl rfl
        · exact Or.inr (hp1 x hx)
        · exact Or.inl rfl
        · exact Or.inr (hp2 x hx)
        · exact Or.inl rfl
        · exact Or.inr (hp3 x hx)
      · intro h0; exact absurd hr h0
      · intro _
        right
        simp only [List.countP_cons, List.countP_append, hc l1 hp1, hc l2 hp2, hc l3 hp3]
        rfl
    · simp only [hr, ne_eq, not_false_eq_true, if_true]
      obtain ⟨hl, -, l, ht, hp⟩ := Repeater.reported_trace
        (.openCaptureDevice h._connection_id mode (some dev))
        "Error opening capture device." h._connection_id w
      exact ⟨hl, _, l, ht, rfl, rfl, fun x hx => Or.inr (hp x hx), fun _ => hp,
        fun h0 => absurd h0 hr⟩

theorem Repeater.on_connect_status_change_eq (c : Repeater.TS_Client) (connection_id : Nat)
    (status : Int) (error : Nat) (w : World) :
    c.on_connect_status_change connection_id status error w =
      if c._shutting_down then Repeater.TS_Client.announce connection_id status error w
      else
        match c._connections.find? (fun connection =>
            match connection with
            | some h => connection_id == h._connection_id
            | none => false) with
        | some (some h) =>
          h.on_connect_status_change status error
            (Repeater.TS_Client.announce connection_id status error w)
        | _ => Repeater.TS_Client.announce connection_id status error w := by
  rfl

/-- The first part of the status handler only logs and reports. -/
theorem Repeater.announce_reach (connection_id : Nat) (status : Int) (error : Nat) (w : World) :
    Reach (fun e => e.call.isErrorReport = true) w
      (Repeater.TS_Client.announce connection_id status error w) := by
  unfold Repeater.TS_Client.announce
  refine Reach.trans ?_ (Repeater.repeater_print_error_reach _ _ _ _)
  split_ifs
  · exact (Reach.call _ _ (by rfl)).trans (Reach.call _ _ (by rfl))
  · exact Reach.call _ _ (by rfl)

/-- The world `connect` leaves: the `startConnection` request, reported on failure. -/
theorem Repeater.connect_snd (h : Repeater.Connection_Handler) (w : World) :
    (h.connect w).2 = Repeater.reported h.startCall "Error connecting to server"
      h._connection_id w := by
  by_cases hr : (w.lib w.trace h.startCall).status = ERROR_ok
  · rw [Repeater.reported_ok _ _ _ _ hr]
    simp only [Repeater.Connection_Handler.startCall] at hr
    simp [Repeater.Connection_Handler.connect, hr, Repeater.Connection_Handler.startCall]
  · simp only [Repeater.Connection_Handler.startCall] at hr
    simp [Repeater.Connection_Handler.connect, hr, Repeater.reported,
      Repeater.Connection_Handler.startCall]

/-- Error reporting contains no `startConnection` request. -/
theorem filter_start_errorReport (l : List Entry) (h : ∀ e ∈ l, e.call.isErrorReport = true) :
    (l.map Entry.call).filter Call.isStartConnection = [] := by
  rw [List.filter_eq_nil_iff]
  intro c hc
  obtain ⟨e, he, rfl⟩ := List.mem_map.mp hc
  have := h e he
  cases hce : e.call <;> simp [hce, Call.isErrorReport, Call.isStartConnection] at this ⊢

/-- The `startConnection` requests of `connect`: exactly one, that of the handler. -/
theorem Repeater.connect_starts (h : Repeater.Connection_Handler) (w : World) :
    (h.connect w).2.lib = w.lib ∧
    ∃ l, (h.connect w).2.trace = w.trace ++ l ∧
      (l.map Entry.call).filter Call.isStartConnection = [h.startCall] := by
  rw [Repeater.connect_snd]
  obtain ⟨hl, -, l, ht, hp⟩ := Repeater.reported_trace h.startCall "Error connecting to server"
    h._connection_id w
  refine ⟨hl, _, ht, ?_⟩
  have h0 := filter_start_errorReport l hp
  simp only [List.map_cons, List.filter_cons, h0]
  simp [Repeater.Connection_Handler.startCall, Call.isStartConnection]

/-- The `startConnection` requests of the status handler. -/
theorem Repeater.on_connect_status_change_starts (c : Repeater.TS_Client) (connection_id : Nat)
    (status : Int) (error : Nat) (w : World) :
    (c.on_connect_status_change connection_id status error w).startsSince w =
      if c._shutting_down then []
      else
        match c._connections.find? (fun connection =>
            match connection with
            | some h => connection_id == h._connection_id
            | none => false) with
        | some (some h) => if status = STATUS_DISCONNECTED then [h.startCall] else []
        | _ => [] := by
  rw [Repeater.on_connect_status_change_eq]
  obtain ⟨-, la, hta, hpa⟩ := Repeater.announce_reach connection_id status error w
  have h0 : (Repeater.TS_Client.announce connection_id status error w).startsSince w = [] := by
    rw [World.startsSince, World.callsSince, since_of_append hta]
    exact filter_start_errorReport la hpa
  by_cases hs : c._shutting_down = true
  · simp only [hs, if_true]
    exact h0
  · simp only [hs, Bool.false_eq_true, if_false]
    split
    · rename_i h hf
      by_cases hd : status = STATUS_DISCONNECTED
      · subst hd
        obtain ⟨-, l, ht, hl⟩ := Repeater.connect_starts h
          (Repeater.TS_Client.announce connection_id STATUS_DISCONNECTED error w)
        simp only [Repeater.Connection_Handler.on_connect_status_change, Repeater._do_autoreconnect,
          Bool.true_and, beq_self_eq_true, if_true]
        rw [World.startsSince, World.callsSince,
          since_of_append (show _ = w.trace ++ (la ++ l) by rw [ht, hta, List.append_assoc])]
        rw [List.map_append, List.filter_append, filter_start_errorReport la hpa, hl]
        rfl
      · have hd2 : (STATUS_DISCONNECTED == status) = false := by
          simp only [beq_eq_false_iff_ne, ne_eq]
          exact fun h => hd h.symm
        simp only [Repeater.Connection_Handler.on_connect_status_change, hd2, Bool.and_false,
          Bool.false_eq_true, if_false, hd]
        exact h0
    · exact h0

/-! ## Whisperer -/

theorem Whisperer.set_whisper_eq (my_id connection_id : Nat) (w : World) :
    Whisperer.set_whisper_to_all_visible my_id connection_id w =
      Whisperer.apply_targets connection_id
        (Whisperer.filter_own_client_id my_id connection_id
          (Whisperer.get_client_ids connection_id w).1)
        (Whisperer.get_client_ids connection_id w).2 := by
  rfl

/-- `filter_own_client_id` removes the first occurrence of the own id. -/
theorem Whisperer.filter_own_eq_erase (my_id connection_id : Nat) (l : List Nat) :
    Whisperer.filter_own_client_id my_id connection_id l = l.erase my_id := by
  unfold Whisperer.filter_own_client_id
  induction l with
  | nil => simp [List.indexOf?]
  | cons a l ih =>
    by_cases h : a = my_id
    · subst h
      simp [List.indexOf?, List.findIdx?_cons]
    · have h2 : (a == my_id) = false := by simpa using h
      simp only [List.indexOf?, List.findIdx?_cons, h2, List.erase_cons, Bool.false_eq_true,
        if_false] at ih ⊢
      cases hi : List.findIdx? (fun x => x == my_id) l with
      | none => simp [hi] at ih ⊢; exact ih
      | some i => simp [hi] at ih ⊢; exact ih

/-- Reading a zero-terminated array gives the ids before the terminator. -/
theorem Whisperer.read_client_ids_terminated (l rest : List Nat) (h : ∀ x ∈ l, x ≠ 0) :
    Whisperer.read_client_ids (l ++ 0 :: rest) = l := by
  induction l with
  | nil => simp [Whisperer.read_client_ids]
  | cons a l ih =>
    have ha : a ≠ 0 := h a (by simp)
    simp [Whisperer.read_client_ids, ha, ih (fun x hx => h x (by simp [hx]))]

/-- Error reporting contains none of the requests a predicate `p` picks out, when `p`
rejects the three kinds of request `print_error` makes. -/
theorem filter_errorReport (p : Call → Bool)
    (hp : ∀ c, c.isErrorReport = true → p c = false) (l : List Entry)
    (h : ∀ e ∈ l, e.call.isErrorReport = true) :
    (l.map Entry.call).filter p = [] := by
  rw [List.filter_eq_nil_iff]
  intro c hc
  obtain ⟨e, he, rfl⟩ := List.mem_map.mp hc
  simp [hp e.call (h e he)]

theorem errorReport_not_whisperList (c : Call) (h : c.isErrorReport = true) :
    c.isWhisperList = false := by
  cases c <;> simp [Call.isErrorReport, Call.isWhisperList] at h ⊢

theorem errorReport_not_getClientList (c : Call) (h : c.isErrorReport = true) :
    c.isGetClientList = false := by
  cases c <;> simp [Call.isErrorReport, Call.isGetClientList] at h ⊢

/-- The history of `get_client_ids`: the list request, then releasing the array or
reporting the error. -/
theorem Whisperer.get_client_ids_shape (connection_id : Nat) (w : World) :
    (Whisperer.get_client_ids connection_id w).2.lib = w.lib ∧
    (Whisperer.get_client_ids connection_id w).1 =
      (if (w.lib w.trace (.getClientList connection_id)).status ≠ ERROR_ok then []
       else Whisperer.read_client_ids (w.lib w.trace (.getClientList connection_id)).ids) ∧
    ∃ l, (Whisperer.get_client_ids connection_id w).2.trace = w.trace ++
        ⟨.getClientList connection_id, w.lib w.trace (.getClientList connection_id)⟩ :: l ∧
      ∀ e ∈ l, e.call.isErrorReport = true := by
  unfold Whisperer.get_client_ids
  by_cases hr : (w.lib w.trace (.getClientList connection_id)).status = ERROR_ok
  · simp only [call_fst, hr, ne_eq, not_true_eq_false, if_false, call_lib, call_trace,
      List.append_assoc, List.singleton_append, true_and]
    exact ⟨_, rfl, by simp [Call.isErrorReport]⟩
  · simp only [call_fst, hr, ne_eq, not_false_eq_true, if_true, true_and]
    obtain ⟨hl, l, ht, hp⟩ := Whisperer.whisperer_print_error_reach
      (w.lib w.trace (.getClientList connection_id)).status "Couldn't get client list."
      connection_id (w.call (.getClientList connection_id)).2
    simp only [call_trace, List.append_assoc, List.singleton_append] at ht
    exact ⟨hl, l, ht, hp⟩

/-- The history of `apply_targets`: one whisper-list request, carrying the targets and a
terminating 0, when there is a target, and none otherwise; all else is error reporting,
log lines and the request that switches the input. -/
theorem Whisperer.apply_targets_shape (connection_id : Nat) (targets : List Nat) (w : World) :
    (Whisperer.apply_targets connection_id targets w).lib = w.lib ∧
    ∃ l, (Whisperer.apply_targets connection_id targets w).trace = w.trace ++ l ∧
      (l.map Entry.call).filter Call.isWhisperList = (if targets.length > 0 then
        [.requestClientSetWhisperList connection_id 0 none (targets ++ [0]) none] else []) ∧
      (l.map Entry.call).filter Call.isGetClientList = [] := by
  unfold Whisperer.apply_targets
  by_cases ht : targets.length > 0
  · simp only [ht, if_true]
    split_ifs with h1 h2 h3
    · obtain ⟨hl, l, htr, hp⟩ := Whisperer.whisperer_print_error_reach
        (w.call (.requestClientSetWhisperList connection_id 0 none (targets ++ [0]) none)).1.status
        ("Whisperlist set to " ++ Whisperer.client_id_array_to_string (targets ++ [0])
          ++ ", but FAILED") connection_id
        (w.call (.requestClientSetWhisperList connection_id 0 none (targets ++ [0]) none)).2
      simp only [call_trace, List.append_assoc, List.singleton_append] at htr
      refine ⟨hl, _, htr, ?_, ?_⟩
      · simp [Call.isWhisperList, filter_errorReport _ errorReport_not_whisperList l hp]
      · simp [Call.isGetClientList, filter_errorReport _ errorReport_not_getClientList l hp]
    · obtain ⟨hl, l, htr, hp⟩ := Whisperer.whisperer_print_error_reach
        (World.call (World.call (w.call
          (.requestClientSetWhisperList connection_id 0 none (targets ++ [0]) none)).2
          (.logMessage ("Whisperlist set to "
            ++ Whisperer.client_id_array_to_string (targets ++ [0])) .LogLevel_INFO
            Whisperer.kWhisperApp connection_id)).2
          (.setClientSelfVariableAsInt connection_id CLIENT_INPUT_DEACTIVATED
            INPUT_ACTIVE)).1.status
        "Couldn't activate input." connection_id
        (World.call (World.call (w.call
          (.requestClientSetWhisperList connection_id 0 none (targets ++ [0]) none)).2
          (.logMessage ("Whisperlist set to "
            ++ Whisperer.client_id_array_to_string (targets ++ [0])) .LogLevel_INFO
            Whisperer.kWhisperApp connection_id)).2
          (.setClientSelfVariableAsInt connection_id CLIENT_INPUT_DEACTIVATED INPUT_ACTIVE)).2
      simp only [call_trace, List.append_assoc, List.singleton_append, List.cons_append,
        List.nil_append] at htr
      refine ⟨hl, _, htr, ?_, ?_⟩
      · simp [Call.isWhisperList, filter_errorReport _ errorReport_not_whisperList l hp]
      · simp [Call.isGetClientList, filter_errorReport _ errorReport_not_getClientList l hp]
    · simp only [call_trace, call_lib, List.append_assoc, List.singleton_append,
        List.cons_append, List.nil_append]
      exact ⟨trivial, _, rfl, by simp [Call.isWhisperList], by simp [Call.isGetClientList]⟩
    · simp only [call_trace, call_lib, List.append_assoc, List.singleton_append,
        List.cons_append, List.nil_append]
      exact ⟨trivial, _, rfl, by simp [Call.isWhisperList], by simp [Call.isGetClientList]⟩
  · simp only [ht, if_false]
    split_ifs with h1
    · obtain ⟨hl, l, htr, hp⟩ := Whisperer.whisperer_print_error_reach
        (w.call (.setClientSelfVariableAsInt connection_id CLIENT_INPUT_DEACTIVATED
          INPUT_DEACTIVATED)).1.status
        "Couldn't deactivate input." connection_id
        (w.call (.setClientSelfVariableAsInt connection_id CLIENT_INPUT_DEACTIVATED
          INPUT_DEACTIVATED)).2
      simp only [call_trace, List.append_assoc, List.singleton_append] at htr
      refine ⟨hl, _, htr, ?_, ?_⟩
      · simp [Call.isWhisperList, filter_errorReport _ errorReport_not_whisperList l hp]
      · simp [Call.isGetClientList, filter_errorReport _ errorReport_not_getClientList l hp]
    · simp only [call_trace, call_lib, List.append_assoc, List.singleton_append,
        List.cons_append, List.nil_append]
      exact ⟨trivial, _, rfl, by simp [Call.isWhisperList], by simp [Call.isGetClientList]⟩

/-- The whisper-list and client-list requests of `set_whisper_to_all_visible`. -/
theorem Whisperer.set_whisper_requests (my_id connection_id : Nat) (w : World) :
    (Whisperer.set_whisper_to_all_visible my_id connection_id w).lib = w.lib ∧
    (Whisperer.set_whisper_to_all_visible my_id connection_id w).whisperListsSince w =
      (if ((if (w.lib w.trace (.getClientList connection_id)).status ≠ ERROR_ok then []
            else Whisperer.read_client_ids
              (w.lib w.trace (.getClientList connection_id)).ids).erase my_id).length > 0
       then [.requestClientSetWhisperList connection_id 0 none
          ((if (w.lib w.trace (.getClientList connection_id)).status ≠ ERROR_ok then []
            else Whisperer.read_client_ids
              (w.lib w.trace (.getClientList connection_id)).ids).erase my_id ++ [0]) none]
       else []) ∧
    ((Whisperer.set_whisper_to_all_visible my_id connection_id w).callsSince w).filter
      Call.isGetClientList = [.getClientList connection_id] := by
  rw [Whisperer.set_whisper_eq]
  obtain ⟨hl1, hids, l1, ht1, hp1⟩ := Whisperer.get_client_ids_shape connection_id w
  obtain ⟨hl2, l2, ht2, hw2, hg2⟩ := Whisperer.apply_targets_shape connection_id
    (Whisperer.filter_own_client_id my_id connection_id
      (Whisperer.get_client_ids connection_id w).1)
    (Whisperer.get_client_ids connection_id w).2
  rw [Whisperer.filter_own_eq_erase, hids] at hw2
  have htr : (Whisperer.apply_targets connection_id
      (Whisperer.filter_own_client_id my_id connection_id
        (Whisperer.get_client_ids connection_id w).1)
      (Whisperer.get_client_ids connection_id w).2).trace = w.trace ++
        (⟨.getClientList connection_id, w.lib w.trace (.getClientList connection_id)⟩ ::
          l1 ++ l2) := by
    rw [ht2, ht1]; simp
  refine ⟨hl2.trans hl1, ?_, ?_⟩
  · rw [World.whisperListsSince, World.callsSince, since_of_append htr]
    simp only [List.map_append, List.map_cons, List.filter_append, List.filter_cons, hw2,
      filter_errorReport _ errorReport_not_whisperList l1 hp1]
    simp [Call.isWhisperList]
  · rw [World.callsSince, since_of_append htr]
    simp only [List.map_append, List.map_cons, List.filter_append, List.filter_cons, hg2,
      filter_errorReport _ errorReport_not_getClientList l1 hp1]
    simp [Call.isGetClientList]

/-! ## Startup of the repeater -/

namespace Repeater

theorem errorReport_quiet (e : Entry) (h : e.call.isErrorReport = true) :
    e.quiet = true ∧ startupFailure e = false := by
  obtain ⟨c, r⟩ := e
  cases c <;> simp [Call.isErrorReport] at h <;>
    simp [Entry.quiet, startupFailure, Call.isOpenDevice, Call.isStartConnection]

/-- A reported request stays within `P` when the request itself and error reporting do. -/
theorem reported_reach (P : Entry → Prop) (c : Call) (msg : String) (connection_id : Nat)
    (w : World) (hc : P ⟨c, w.lib w.trace c⟩)
    (hP : ∀ e, e.call.isErrorReport = true → P e) :
    Reach P w (reported c msg connection_id w) := by
  obtain ⟨hl, -, l, ht, hp⟩ := reported_trace c msg connection_id w
  refine ⟨hl, _, ht, ?_⟩
  intro e he
  rcases List.mem_cons.mp he with rfl | he
  · exact hc
  · exact hP e (hp e he)

theorem print_error_quiet (error : Nat) (msg : String) (connection_id : Nat) (w : World) :
    Reach (fun e => e.quiet = true ∧ startupFailure e = false) w
      (print_error error msg connection_id w) :=
  (repeater_print_error_reach error msg connection_id w).mono errorReport_quiet

theorem Custom_Device_new_eq (w : World) :
    Custom_Device.new w =
      ((w.lib w.trace (.registerCustomDevice custom_device custom_device 48000 1 48000 1)).status,
        reported (.registerCustomDevice custom_device custom_device 48000 1 48000 1)
          "Error creating custom device." 0 w) := by
  by_cases hr : (w.lib w.trace
      (.registerCustomDevice custom_device custom_device 48000 1 48000 1)).status = ERROR_ok
  · rw [reported_ok _ _ _ _ hr]
    simp [Custom_Device.new, hr]
  · simp [Custom_Device.new, hr, reported]

theorem Custom_Device_new_reach (w : World) :
    Reach (fun e => e.quiet = true ∧
        ((Custom_Device.new w).1 = ERROR_ok → startupFailure e = false)) w
      (Custom_Device.new w).2 := by
  rw [Custom_Device_new_eq]
  refine reported_reach _ _ _ _ _ ⟨rfl, ?_⟩ (fun e he => ⟨(errorReport_quiet e he).1,
    fun _ => (errorReport_quiet e he).2⟩)
  intro h
  simp only at h
  simp [startupFailure, h]

theorem Custom_Device_destroy_reach (w : World) :
    Reach (fun e => e.quiet = true ∧ startupFailure e = false) w (Custom_Device.destroy w) := by
  unfold Custom_Device.destroy
  simp only
  split_ifs
  · exact (Reach.call _ _ (by exact ⟨rfl, rfl⟩)).trans (Reach.print _ _ _)
  · exact Reach.call _ _ (by exact ⟨rfl, rfl⟩)

theorem Connection_Handler_destroy_reach (h : Connection_Handler) (w : World) :
    Reach (fun e => e.quiet = true ∧ startupFailure e = false) w (h.destroy w) := by
  unfold Connection_Handler.destroy
  simp only
  split_ifs
  · exact (Reach.call _ _ (by exact ⟨rfl, rfl⟩)).trans (print_error_quiet _ _ _ _)
  · exact Reach.call _ _ (by exact ⟨rfl, rfl⟩)

theorem destroy_connections_reach (l : List (Option Connection_Handler)) :
    ∀ w : World, Reach (fun e => e.quiet = true ∧ startupFailure e = false) w
      (l.foldl (fun acc conn => match conn with
        | some h => h.destroy acc
        | none => acc) w) := by
  induction l with
  | nil => intro w; exact Reach.refl _ _
  | cons c l ih =>
    intro w
    simp only [List.foldl_cons]
    cases c with
    | none => exact ih w
    | some h => exact (Connection_Handler_destroy_reach h w).trans (ih _)

theorem TS_Client_destroy_reach (c : TS_Client) (w : World) :
    Reach (fun e => e.quiet = true ∧ startupFailure e = false) w (c.destroy w) := by
  unfold TS_Client.destroy
  simp only
  refine Reach.trans ?_ (destroy_connections_reach _ _)
  have h2 : Reach (fun e => e.quiet = true ∧ startupFailure e = false) w
      (if (w.call .destroyClientLib).1.status ≠ ERROR_ok then
        print_error (w.call .destroyClientLib).1.status "Failed to destroy clientlib" 0
          (w.call .destroyClientLib).2 else (w.call .destroyClientLib).2) := by
    refine Reach.trans (Reach.call w .destroyClientLib ⟨rfl, rfl⟩) ?_
    split_ifs
    · exact print_error_quiet _ _ _ _
    · exact Reach.refl _ _
  by_cases hc : c._custom_device = true
  · rw [if_pos hc]
    exact h2.trans (Custom_Device_destroy_reach _)
  · rw [if_neg hc]
    exact h2

theorem at_exit_reach (ts_client : Option TS_Client) (w : World) :
    Reach (fun e => e.quiet = true ∧ startupFailure e = false) w (at_exit ts_client w) := by
  cases ts_client with
  | none => exact Reach.refl _ _
  | some ts => exact TS_Client_destroy_reach ts w

theorem log_clientlib_version_reach (w : World) :
    Reach (fun e => e.quiet = true ∧ startupFailure e = false) w
      (TS_Client.log_clientlib_version w).2 := by
  unfold TS_Client.log_clientlib_version
  simp only
  split_ifs
  · exact (Reach.call _ _ (by exact ⟨rfl, rfl⟩)).trans (print_error_quiet _ _ _ _)
  · exact ((Reach.call _ _ (by exact ⟨rfl, rfl⟩)).trans
      (Reach.call _ _ (by exact ⟨rfl, rfl⟩))).trans (Reach.call _ _ (by exact ⟨rfl, rfl⟩))

theorem TS_Client_new_reach (path : String) (w : World) :
    Reach (fun e => e.quiet = true ∧
        ((TS_Client.new path w).1.2 = true → startupFailure e = false)) w
      (TS_Client.new path w).2 := by
  by_cases hr : (w.lib w.trace (.initClientLib LogType_FILE_CONSOLE_USERLOGGING path)).status
      = ERROR_ok
  · by_cases hd : (Custom_Device.new
        (w.call (.initClientLib LogType_FILE_CONSOLE_USERLOGGING path)).2).1 = ERROR_ok
    · have hnew : TS_Client.new path w = (({ _custom_device := true }, true),
          (Custom_Device.new
            (w.call (.initClientLib LogType_FILE_CONSOLE_USERLOGGING path)).2).2) := by
        simp [TS_Client.new, hr, hd]
      rw [hnew]
      refine Reach.trans (Reach.call w (.initClientLib LogType_FILE_CONSOLE_USERLOGGING path) ?_) ?_
      · exact ⟨rfl, fun _ => by simp [startupFailure, hr]⟩
      · exact (Custom_Device_new_reach _).mono (fun e he => ⟨he.1, fun _ => he.2 hd⟩)
    · have hd2 : ¬ ERROR_ok = (Custom_Device.new
          (w.call (.initClientLib LogType_FILE_CONSOLE_USERLOGGING path)).2).1 :=
        fun h => hd h.symm
      have hnew : TS_Client.new path w = (({ _custom_device := false }, false),
          Custom_Device.destroy (Custom_Device.new
            (w.call (.initClientLib LogType_FILE_CONSOLE_USERLOGGING path)).2).2) := by
        simp [TS_Client.new, hr, hd2]
      rw [hnew]
      refine Reach.trans (Reach.call w (.initClientLib LogType_FILE_CONSOLE_USERLOGGING path) ?_) ?_
      · exact ⟨rfl, fun h => by simp at h⟩
      refine Reach.trans ((Custom_Device_new_reach _).mono
        (fun e he => ⟨he.1, fun h => by simp at h⟩)) ?_
      exact (Custom_Device_destroy_reach _).mono (fun e he => ⟨he.1, fun _ => he.2⟩)
  · have hnew : TS_Client.new path w = (({ _custom_device := false }, false),
        print_error (w.lib w.trace
          (.initClientLib LogType_FILE_CONSOLE_USERLOGGING path)).status
          "Error initialzing clientlib" 0
          (w.call (.initClientLib LogType_FILE_CONSOLE_USERLOGGING path)).2) := by
      simp [TS_Client.new, hr]
    rw [hnew]
    refine Reach.trans (Reach.call w (.initClientLib LogType_FILE_CONSOLE_USERLOGGING path) ?_) ?_
    · exact ⟨rfl, fun h => by simp at h⟩
    exact (print_error_quiet _ _ _ _).mono (fun e he => ⟨he.1, fun _ => he.2⟩)

theorem TS_Client_create_reach (path : String) (w : World) :
    Reach (fun e => e.quiet = true ∧
        ((TS_Client.create path none w).1.1 = true → startupFailure e = false)) w
      (TS_Client.create path none w).2 ∧
    ((TS_Client.create path none w).1.1 = false → (TS_Client.create path none w).1.2 = none) ∧
    ((TS_Client.create path none w).1.1 = true →
      (TS_Client.create path none w).1.2 ≠ none) := by
  have h1 := TS_Client_new_reach path w
  unfold TS_Client.create
  generalize TS_Client.new path w = res at h1 ⊢
  obtain ⟨⟨result, success⟩, w1⟩ := res
  simp only [Option.isSome_none, Bool.false_eq_true, if_false] at h1 ⊢
  cases success with
  | false =>
    refine ⟨?_, fun _ => rfl, fun h => by simp at h⟩
    exact (h1.mono (fun e he => ⟨he.1, fun h => by simp at h⟩)).trans
      ((TS_Client_destroy_reach result w1).mono (fun e he => ⟨he.1, fun _ => he.2⟩))
  | true =>
    have h2 := log_clientlib_version_reach w1
    generalize TS_Client.log_clientlib_version w1 = res2 at h2 ⊢
    obtain ⟨success2, w2⟩ := res2
    simp only [Bool.not_true, Bool.false_eq_true, if_false] at h2 ⊢
    cases success2 with
    | false =>
      refine ⟨?_, fun _ => rfl, fun h => by simp at h⟩
      exact ((h1.mono (fun e he => ⟨he.1, fun h => by simp at h⟩)).trans
        (h2.mono (fun e he => ⟨he.1, fun _ => he.2⟩))).trans
        ((TS_Client_destroy_reach result w2).mono (fun e he => ⟨he.1, fun _ => he.2⟩))
    | true =>
      refine ⟨?_, fun h => by simp at h, fun _ => by simp⟩
      exact (h1.mono (fun e he => ⟨he.1, fun _ => he.2 rfl⟩)).trans
        (h2.mono (fun e he => ⟨he.1, fun _ => he.2⟩))

theorem create_identity_reach (w : World) :
    Reach (fun e => e.quiet = true ∧
        ((create_identity w).1.isEmpty = false → startupFailure e = false)) w
      (create_identity w).2 := by
  by_cases hr : (w.lib w.trace .createIdentity).status = ERROR_ok
  · have heq : create_identity w = ((w.lib w.trace .createIdentity).text,
        (World.call (w.call .createIdentity).2 .freeMemory).2) := by
      simp [create_identity, hr]
    rw [heq]
    refine Reach.trans (Reach.call _ _ ?_) (Reach.call _ _ ?_)
    · refine ⟨rfl, fun h => ?_⟩
      simp only at h
      simp [startupFailure, hr, h]
    · exact ⟨rfl, fun _ => rfl⟩
  · have heq : create_identity w = ("",
        print_error (w.lib w.trace .createIdentity).status "Error creating identity" 0
          (w.call .createIdentity).2) := by
      simp [create_identity, hr]
    rw [heq]
    refine Reach.trans (Reach.call w .createIdentity ?_) ?_
    · exact ⟨rfl, fun h => by simp [String.isEmpty] at h⟩
    exact (print_error_quiet _ _ _ _).mono (fun e he => ⟨he.1, fun _ => he.2⟩)

theorem Connection_Handler_create_reach (w : World) :
    Reach (fun e => e.quiet = true ∧
        ((Connection_Handler.create w).1 ≠ none → startupFailure e = false)) w
      (Connection_Handler.create w).2 := by
  by_cases hr : (w.lib w.trace (.spawnNewServerConnectionHandler 0)).status = ERROR_ok
  · have heq : Connection_Handler.create w =
        (some { _connection_id := (w.lib w.trace (.spawnNewServerConnectionHandler 0)).num.getD 0 },
          (w.call (.spawnNewServerConnectionHandler 0)).2) := by
      simp [Connection_Handler.create, hr]
    rw [heq]
    refine Reach.call _ _ ?_
    exact ⟨rfl, fun _ => by simp [startupFailure, hr]⟩
  · have heq : Connection_Handler.create w = (none,
        print_error (w.lib w.trace (.spawnNewServerConnectionHandler 0)).status
          "Error spawning server connection handler" 0
          (w.call (.spawnNewServerConnectionHandler 0)).2) := by
      simp [Connection_Handler.create, hr]
    rw [heq]
    refine Reach.trans (Reach.call w (.spawnNewServerConnectionHandler 0) ?_) ?_
    · exact ⟨rfl, fun h => by simp at h⟩
    exact (print_error_quiet _ _ _ _).mono (fun e he => ⟨he.1, fun _ => he.2⟩)

/-- The library part of `main`: no device-open and no `startConnection` request, and when
it succeeds no startup request has failed. -/
theorem main_library_reach (path : String) (w : World) :
    Reach (fun e => e.quiet = true ∧
        ((∃ v, (main_library path w).1 = .ok v) → startupFailure e = false)) w
      (main_library path w).2 := by
  obtain ⟨h1, h1f, h1t⟩ := TS_Client_create_reach path w
  unfold main_library
  generalize TS_Client.create path none w = res at h1 h1f h1t ⊢
  obtain ⟨⟨success, ts_client⟩, w1⟩ := res
  simp only at h1 h1f h1t ⊢
  cases success with
  | false =>
    simp only [Bool.not_false, if_true]
    exact h1.mono (fun e he => ⟨he.1, fun ⟨v, hv⟩ => by cases hv⟩)
  | true =>
    simp only [Bool.not_true, Bool.false_eq_true, if_false]
    cases ts_client with
    | none => exact absurd rfl (h1t rfl)
    | some ts =>
      simp only
      have h2 := create_identity_reach w1
      generalize create_identity w1 = res2 at h2 ⊢
      obtain ⟨identity, w2⟩ := res2
      simp only at h2 ⊢
      cases hid : identity.isEmpty with
      | true =>
        simp only [if_true]
        exact (h1.mono (fun e he => ⟨he.1, fun ⟨v, hv⟩ => by cases hv⟩)).trans
          (h2.mono (fun e he => ⟨he.1, fun ⟨v, hv⟩ => by cases hv⟩))
      | false =>
        simp only [Bool.false_eq_true, if_false]
        have h3 := Connection_Handler_create_reach w2
        generalize Connection_Handler.create w2 = res3 at h3 ⊢
        obtain ⟨c1, w3⟩ := res3
        simp only at h3 ⊢
        cases c1 with
        | none =>
          simp only
          exact ((h1.mono (fun e he => ⟨he.1, fun ⟨v, hv⟩ => by cases hv⟩)).trans
            (h2.mono (fun e he => ⟨he.1, fun ⟨v, hv⟩ => by cases hv⟩))).trans
            (h3.mono (fun e he => ⟨he.1, fun ⟨v, hv⟩ => by cases hv⟩))
        | some connection_listen =>
          simp only
          have h4 := Connection_Handler_create_reach w3
          generalize Connection_Handler.create w3 = res4 at h4 ⊢
          obtain ⟨c2, w4⟩ := res4
          simp only at h4 ⊢
          cases c2 with
          | none =>
            simp only
            exact (((h1.mono (fun e he => ⟨he.1, fun ⟨v, hv⟩ => by cases hv⟩)).trans
              (h2.mono (fun e he => ⟨he.1, fun ⟨v, hv⟩ => by cases hv⟩))).trans
              (h3.mono (fun e he => ⟨he.1, fun ⟨v, hv⟩ => by cases hv⟩))).trans
              (h4.mono (fun e he => ⟨he.1, fun ⟨v, hv⟩ => by cases hv⟩))
          | some connection_broadcast =>
            simp only
            exact (((h1.mono (fun e he => ⟨he.1, fun _ => he.2 rfl⟩)).trans
              (h2.mono (fun e he => ⟨he.1, fun _ => he.2 hid⟩))).trans
              (h3.mono (fun e he => ⟨he.1, fun _ => he.2 (by simp)⟩))).trans
              (h4.mono (fun e he => ⟨he.1, fun _ => he.2 (by simp)⟩))

/-- The history of `open_audio` holds no failed startup request and no `startConnection`
request; it holds a device-open request. -/
theorem open_audio_reach (h : Connection_Handler) (audio_io : Audio_IO) (mode dev : String)
    (w : World) :
    (h.open_audio audio_io mode dev w).2.lib = w.lib ∧
    ∃ l, (h.open_audio audio_io mode dev w).2.trace = w.trace ++ l ∧
      (∀ e ∈ l, startupFailure e = false) ∧
      (l.map Entry.call).filter Call.isStartConnection = [] := by
  obtain ⟨hl, e, rest, ht, ho, -, hall, -, -⟩ := open_audio_shape h audio_io mode dev w
  have hk : ∀ x ∈ e :: rest, startupFailure x = false ∧ x.call.isStartConnection = false := by
    intro x hx
    rcases List.mem_cons.mp hx with rfl | hx
    · obtain ⟨c, r⟩ := x
      cases c <;> simp [Call.isOpenDevice] at ho <;>
        simp [startupFailure, Call.isStartConnection]
    · obtain ⟨c, r⟩ := x
      rcases hall _ hx with hp | hp
      · cases c <;>
          first
          | (simp [Call.isPreProcessor] at hp; done)
          | simp [startupFailure, Call.isStartConnection]
      · cases c <;> simp [Call.isErrorReport] at hp <;>
          simp [startupFailure, Call.isStartConnection]
  refine ⟨hl, e :: rest, ht, fun x hx => (hk x hx).1, ?_⟩
  rw [List.filter_eq_nil_iff]
  intro c hc
  obtain ⟨x, hx, rfl⟩ := List.mem_map.mp hc
  simp [(hk x hx).2]

/-- The history of `connect` holds no failed startup request and exactly one
`startConnection` request. -/
theorem connect_reach (h : Connection_Handler) (w : World) :
    (h.connect w).2.lib = w.lib ∧
    ∃ l, (h.connect w).2.trace = w.trace ++ l ∧
      (∀ e ∈ l, startupFailure e = false) ∧
      (l.map Entry.call).filter Call.isStartConnection = [h.startCall] := by
  rw [connect_snd]
  obtain ⟨hl, -, l, ht, hp⟩ := reported_trace h.startCall "Error connecting to server"
    h._connection_id w
  refine ⟨hl, _, ht, ?_, ?_⟩
  · intro e he
    rcases List.mem_cons.mp he with rfl | he
    · rfl
    · exact (errorReport_quiet e (hp e he)).2
  · have h0 := filter_start_errorReport l hp
    simp only [List.map_cons, List.filter_cons, h0]
    simp [Connection_Handler.startCall, Call.isStartConnection]

/-- The connection part of `main`: whatever the device-open requests return, both
`startConnection` requests are made. -/
theorem main_connections_reach (opts : Opts) (ts : TS_Client)
    (connection_listen connection_broadcast : Connection_Handler) (w : World) :
    (main_connections opts ts connection_listen connection_broadcast w).2.lib = w.lib ∧
    ∃ l, (main_connections opts ts connection_listen connection_broadcast w).2.trace
        = w.trace ++ l ∧
      (∀ e ∈ l, startupFailure e = false) ∧
      ((l.map Entry.call).filter Call.isStartConnection).length = 2 := by
  unfold main_connections
  obtain ⟨hl1, l1, ht1, hf1, hs1⟩ :=
    open_audio_reach connection_listen .Playback custom_mode custom_device w
  generalize connection_listen.open_audio .Playback custom_mode custom_device w = r1
    at hl1 ht1 ⊢
  obtain ⟨v1, w1⟩ := r1
  simp only at hl1 ht1 ⊢
  obtain ⟨hl2, l2, ht2, hf2, hs2⟩ :=
    open_audio_reach connection_broadcast .Capture custom_mode custom_device w1
  generalize connection_broadcast.open_audio .Capture custom_mode custom_device w1 = r2
    at hl2 ht2 ⊢
  obtain ⟨v2, w2⟩ := r2
  simp only at hl2 ht2 ⊢
  obtain ⟨hl3, l3, ht3, hf3, hs3⟩ := connect_reach
    { connection_listen with _connection_data :=
      { address := opts.from_ip, port := opts.from_port, nick := "repeater-listener",
        identity := ts._identity } } w2
  generalize Connection_Handler.connect
    { connection_listen with _connection_data :=
      { address := opts.from_ip, port := opts.from_port, nick := "repeater-listener",
        identity := ts._identity } } w2 = r3 at hl3 ht3 ⊢
  obtain ⟨v3, w3⟩ := r3
  simp only at hl3 ht3 ⊢
  obtain ⟨hl4, l4, ht4, hf4, hs4⟩ := connect_reach
    { connection_broadcast with _connection_data :=
      { address := opts.to_ip, port := opts.to_port, nick := "repeater-broadcaster",
        identity := (setConnection ts .Playback
          { connection_listen with _connection_data :=
            { address := opts.from_ip, port := opts.from_port, nick := "repeater-listener",
              identity := ts._identity } })._identity } } w3
  refine ⟨by rw [hl4, hl3, hl2, hl1], l1 ++ l2 ++ l3 ++ l4, ?_, ?_, ?_⟩
  · rw [ht4, ht3, ht2, ht1]
    simp only [List.append_assoc]
  · intro e he
    simp only [List.mem_append] at he
    rcases he with ((he | he) | he) | he
    · exact hf1 e he
    · exact hf2 e he
    · exact hf3 e he
    · exact hf4 e he
  · simp only [List.map_append, List.filter_append, hs1, hs2, hs3, hs4]
    rfl

end Repeater

theorem Reach.call_after {P : Entry → Prop} {w w1 : World} (c : Call) (h : Reach P w w1)
    (hc : P ⟨c, w1.lib w1.trace c⟩) : Reach P w (w1.call c).2 :=
  h.trans (Reach.call w1 c hc)

theorem Reach.print_after {P : Entry → Prop} {w w1 : World} (s : String) (h : Reach P w w1) :
    Reach P w (w1.print s) :=
  h.trans (Reach.print P w1 s)

theorem Reach.ite_print {P : Entry → Prop} {w w1 : World} (c : Prop) [Decidable c] (s : String)
    (h : Reach P w w1) : Reach P w (if c then w1.print s else w1) := by
  split_ifs
  · exact h.print_after s
  · exact h

/-- Entries that satisfy `P` add nothing to a filter that `P` excludes. -/
theorem filter_of_forall (p : Call → Bool) (l : List Entry)
    (h : ∀ e ∈ l, p e.call = false) : (l.map Entry.call).filter p = [] := by
  rw [List.filter_eq_nil_iff]
  intro c hc
  obtain ⟨e, he, rfl⟩ := List.mem_map.mp hc
  simp [h e he]

namespace Repeater

/-- The three ways the startup of `main` can go: the usage error, an exit with code 1
before any device-open or `startConnection` request, or the full startup, in which no
startup request has failed and both `startConnection` requests are made. -/
theorem main_startup_cases (stoul : String → Option Nat) (pathsep : Char) (argv : List String)
    (w : World) :
    (parse_args stoul argv = none ∧ (main_startup stoul pathsep argv w).1 = some (-1) ∧
      (main_startup stoul pathsep argv w).2.2.trace = w.trace) ∨
    (parse_args stoul argv ≠ none ∧ (main_startup stoul pathsep argv w).1 = some 1 ∧
      Reach (fun e => e.quiet = true) w (main_startup stoul pathsep argv w).2.2) ∨
    (parse_args stoul argv ≠ none ∧ (main_startup stoul pathsep argv w).1 = none ∧
      Reach (fun e => startupFailure e = false) w (main_startup stoul pathsep argv w).2.2 ∧
      ((main_startup stoul pathsep argv w).2.2.startsSince w).length = 2) := by
  unfold main_startup
  cases hp : parse_args stoul argv with
  | none => exact Or.inl ⟨rfl, rfl, rfl⟩
  | some opts =>
    right
    simp only
    have h1 := main_library_reach (programPath pathsep (argv.get? 0))
      (w.print ("listening to " ++ opts.from_ip ++ ":" ++ toString opts.from_port
        ++ ", sending to " ++ opts.to_ip ++ ":" ++ toString opts.to_port ++ "\n"))
    generalize main_library (programPath pathsep (argv.get? 0))
      (w.print ("listening to " ++ opts.from_ip ++ ":" ++ toString opts.from_port
        ++ ", sending to " ++ opts.to_ip ++ ":" ++ toString opts.to_port ++ "\n")) = res
      at h1 ⊢
    obtain ⟨r, w1⟩ := res
    have h0 : Reach (fun e => e.quiet = true ∧
        ((∃ v, r = .ok v) → startupFailure e = false)) w w1 :=
      (Reach.print _ w _).trans h1
    cases r with
    | error ts_client =>
      left
      exact ⟨by simp, rfl, h0.mono (fun e he => he.1)⟩
    | ok v =>
      right
      obtain ⟨ts, connection_listen, connection_broadcast⟩ := v
      simp only
      obtain ⟨hl2, l2, ht2, hf2, hs2⟩ :=
        main_connections_reach opts ts connection_listen connection_broadcast w1
      generalize main_connections opts ts connection_listen connection_broadcast w1 = res2
        at hl2 ht2 ⊢
      obtain ⟨ts2, w2⟩ := res2
      simp only at hl2 ht2 ⊢
      obtain ⟨hl1, l1, ht1, hp1⟩ := h0
      refine ⟨by simp, trivial,
        ⟨hl2.trans hl1, l1 ++ l2, by rw [ht2, ht1, List.append_assoc], ?_⟩, ?_⟩
      · intro e he
        rcases List.mem_append.mp he with he | he
        · exact (hp1 e he).2 ⟨_, rfl⟩
        · exact hf2 e he
      · rw [World.startsSince, World.callsSince,
          since_of_append (show w2.trace = w.trace ++ (l1 ++ l2) by
            rw [ht2, ht1, List.append_assoc])]
        rw [List.map_append, List.filter_append,
          filter_of_forall Call.isStartConnection l1 (fun e he => by
            have := (hp1 e he).1
            simp only [Entry.quiet, Bool.and_eq_true, Bool.not_eq_true'] at this
            exact this.2)]
        simpa using hs2

end Repeater

/-! ## `main` of the whisperer -/

namespace Whisperer

theorem ite_print_error_reach {P : Entry → Prop} {w w1 : World} (c : Prop) [Decidable c]
    (error : Nat) (msg : String) (connection_id : Nat)
    (hP : ∀ e, e.call.isErrorReport = true → P e) (h : Reach P w w1) :
    Reach P w (if c then print_error error msg connection_id w1 else w1) := by
  split_ifs
  · exact h.trans ((whisperer_print_error_reach error msg connection_id w1).mono hP)
  · exact h

theorem errorReport_not_identity (e : Entry) (h : e.call.isErrorReport = true) :
    e.call.isCreateIdentity = false ∧ e.call.isStartConnection = false := by
  obtain ⟨c, r⟩ := e
  cases c <;> simp [Call.isErrorReport] at h <;>
    simp [Call.isCreateIdentity, Call.isStartConnection]

/-- The audio part of `main` creates no identity and starts no connection. -/
theorem main_audio_reach (scHandlerID : Nat) (w : World) :
    Reach (fun e => e.call.isCreateIdentity = false ∧ e.call.isStartConnection = false) w
      (main_audio scHandlerID w) := by
  unfold main_audio
  simp only
  apply Reach.ite_print
  apply Reach.call_after _ _ ⟨rfl, rfl⟩
  apply Reach.ite_print
  apply Reach.call_after _ _ ⟨rfl, rfl⟩
  apply ite_print_error_reach _ _ _ _ errorReport_not_identity
  apply Reach.call_after _ _ ⟨rfl, rfl⟩
  apply Reach.ite_print
  apply Reach.call_after _ _ ⟨rfl, rfl⟩
  apply Reach.ite_print
  apply Reach.call_after _ _ ⟨rfl, rfl⟩
  exact Reach.refl _ _

/-- The session part of `main` creates no identity and starts no connection. -/
theorem main_session_reach (scHandlerID : Nat) (w : World) :
    Reach (fun e => e.call.isCreateIdentity = false ∧ e.call.isStartConnection = false) w
      (main_session scHandlerID w).2 := by
  unfold main_session
  simp only
  split_ifs <;>
    repeat (first
      | exact Reach.refl _ _
      | apply Reach.print_after
      | apply Reach.call_after _ _ ⟨rfl, rfl⟩)

/-- The history of `main_connect`: the identity request first; when it succeeds, exactly
one `startConnection` request follows. -/
theorem main_connect_shape (scHandlerID : Nat) (w : World) :
    (main_connect scHandlerID w).2.lib = w.lib ∧
    ∃ l, (main_connect scHandlerID w).2.trace = w.trace ++
        ⟨.createIdentity, w.lib w.trace .createIdentity⟩ :: l ∧
      (∀ e ∈ l, e.call.isCreateIdentity = false) ∧
      ((w.lib w.trace .createIdentity).status = ERROR_ok →
        ((l.map Entry.call).filter Call.isStartConnection).length = 1) := by
  by_cases hr : (w.lib w.trace .createIdentity).status = ERROR_ok
  · by_cases h2 : (w.lib (w.trace ++ [⟨.createIdentity, w.lib w.trace .createIdentity⟩])
        (.startConnection scHandlerID (w.lib w.trace .createIdentity).text "localhost" 9987
          "client" none "" "secret")).status = ERROR_ok
    · have heq : main_connect scHandlerID w = main_session scHandlerID
          (World.call (w.call .createIdentity).2
            (.startConnection scHandlerID (w.lib w.trace .createIdentity).text "localhost" 9987
              "client" none "" "secret")).2 := by
        simp [main_connect, hr, h2]
      rw [heq]
      obtain ⟨hl, l, ht, hp⟩ := main_session_reach scHandlerID
        (World.call (w.call .createIdentity).2
          (.startConnection scHandlerID (w.lib w.trace .createIdentity).text "localhost" 9987
            "client" none "" "secret")).2
      simp only [call_trace, List.append_assoc, List.singleton_append, List.cons_append,
        List.nil_append] at ht
      refine ⟨hl, _, ht, ?_, fun _ => ?_⟩
      · intro e he
        rcases List.mem_cons.mp he with rfl | he
        · rfl
        · exact (hp e he).1
      · simp only [List.map_cons, List.filter_cons,
          filter_of_forall Call.isStartConnection l (fun e he => (hp e he).2)]
        simp [Call.isStartConnection]
    · have heq : main_connect scHandlerID w = (1, World.print
          (World.call (w.call .createIdentity).2
            (.startConnection scHandlerID (w.lib w.trace .createIdentity).text "localhost" 9987
              "client" none "" "secret")).2
          ("Error connecting to server: " ++ fmt_d
            (w.lib (w.trace ++ [⟨.createIdentity, w.lib w.trace .createIdentity⟩])
              (.startConnection scHandlerID (w.lib w.trace .createIdentity).text "localhost"
                9987 "client" none "" "secret")).status ++ "\n")) := by
        simp [main_connect, hr, h2]
      rw [heq]
      refine ⟨rfl, [⟨.startConnection scHandlerID (w.lib w.trace .createIdentity).text
        "localhost" 9987 "client" none "" "secret",
        w.lib (w.trace ++ [⟨.createIdentity, w.lib w.trace .createIdentity⟩])
          (.startConnection scHandlerID (w.lib w.trace .createIdentity).text "localhost" 9987
            "client" none "" "secret")⟩], ?_, ?_, fun _ => ?_⟩
      · simp only [print_trace, call_trace, call_lib, List.append_assoc, List.singleton_append]
      · intro e he
        rw [List.mem_singleton] at he
        subst he
        rfl
      · simp [Call.isStartConnection]
  · have heq : main_connect scHandlerID w = (1, World.print (w.call .createIdentity).2
        ("Error creating identity: " ++ fmt_d (w.lib w.trace .createIdentity).status ++ "\n")) := by
      simp [main_connect, hr]
    rw [heq]
    exact ⟨rfl, [], rfl, by simp, fun h => absurd h hr⟩

/-- The `startConnection` requests of the whisperer's `main`: exactly one once the identity
has been created, whatever the device-open requests returned. -/
theorem main_starts (pathsep : Char) (argv0 : Option String) (w : World)
    (hid : ∃ e ∈ (main pathsep argv0 w).2.since w,
      e.call = .createIdentity ∧ e.reply.status = ERROR_ok) :
    ((main pathsep argv0 w).2.startsSince w).length = 1 := by
  revert hid
  unfold main
  simp only
  split_ifs with h1 h2 h3
  · rintro ⟨e, he, hc, -⟩
    simp [World.since, World.call, World.print] at he
    rcases he with rfl | rfl | rfl <;> simp at hc
  · rintro ⟨e, he, hc, -⟩
    simp [World.since, World.call, World.print] at he
    rcases he with rfl | rfl <;> simp at hc
  · rintro ⟨e, he, hc, -⟩
    simp [World.since, World.call, World.print] at he
    rcases he with rfl | rfl <;> simp at hc
  · obtain ⟨hla, la, hta, hpa⟩ := main_audio_reach
      ((World.call (w.call (.initClientLib LogType_FILE_CONSOLE_USERLOGGING
        (Repeater.programPath pathsep argv0))).2
        (.spawnNewServerConnectionHandler 0)).1.num.getD 0)
      (World.call (w.call (.initClientLib LogType_FILE_CONSOLE_USERLOGGING
        (Repeater.programPath pathsep argv0))).2 (.spawnNewServerConnectionHandler 0)).2
    generalize main_audio
      ((World.call (w.call (.initClientLib LogType_FILE_CONSOLE_USERLOGGING
        (Repeater.programPath pathsep argv0))).2
        (.spawnNewServerConnectionHandler 0)).1.num.getD 0)
      (World.call (w.call (.initClientLib LogType_FILE_CONSOLE_USERLOGGING
        (Repeater.programPath pathsep argv0))).2 (.spawnNewServerConnectionHandler 0)).2 = wa
      at hla hta ⊢
    generalize (World.call (w.call (.initClientLib LogType_FILE_CONSOLE_USERLOGGING
        (Repeater.programPath pathsep argv0))).2
        (.spawnNewServerConnectionHandler 0)).1.num.getD 0 = sc
    obtain ⟨hlc, lc, htc, hpc, hsc⟩ := main_connect_shape sc wa
    generalize main_connect sc wa = res at hlc htc ⊢
    simp only [call_trace, List.append_assoc, List.singleton_append, List.cons_append,
      List.nil_append] at hta
    rw [hta] at htc
    simp only [List.append_assoc, List.cons_append] at htc
    rintro ⟨e, he, hc, hs⟩
    rw [since_of_append htc] at he
    rw [World.startsSince, World.callsSince, since_of_append htc]
    have hstatus : (wa.lib wa.trace .createIdentity).status = ERROR_ok := by
      simp only [List.mem_cons, List.mem_append] at he
      rcases he with rfl | rfl | he | rfl | he
      · simp at hc
      · simp at hc
      · have := (hpa e he).1
        rw [hc] at this
        simp [Call.isCreateIdentity] at this
      · rw [hta]; exact hs
      · have := hpc e he
        rw [hc] at this
        simp [Call.isCreateIdentity] at this
    have hlen := hsc hstatus
    simp only [List.map_cons, List.map_append, List.filter_cons, List.filter_append,
      filter_of_forall Call.isStartConnection la (fun e he => (hpa e he).2)]
    simpa [Call.isStartConnection] using hlen

end Whisperer

/-! ## The plugin -/

/-- A failed conversion leaves the pointer handed to `wcharToUtf8` null. -/
theorem Plugin.wcharToUtf8_failed (str : String) (w : World)
    (h : (Plugin.wcharToUtf8 str w).1 = -1) : (Plugin.wcharToUtf8 str w).2.1 = none := by
  unfold Plugin.wcharToUtf8 at h ⊢
  simp only at h ⊢
  split_ifs at h ⊢ with h1
  rfl

/-- `logTS` adds one log line, or nothing when the host gave no `logMessage`. -/
theorem SafePlugin.logTS_trace (st : PluginState) (sch : Nat) (lvl : LogLevel) (msg : String)
    (w : World) :
    ∃ l, (SafePlugin.logTS st sch lvl msg w).trace = w.trace ++ l ∧
      ∀ e ∈ l, e.call.isLog = true := by
  unfold SafePlugin.logTS
  by_cases h : st.ts3Functions_logMessage = true
  · rw [if_pos h]
    exact ⟨[_], rfl, by simp [Call.isLog]⟩
  · rw [if_neg h]
    exact ⟨[], by simp, by simp⟩

/-- The end of the safe variant of `ts3plugin_infoData`: one allocation, one release of
the name through the host, and the text in the buffer if there is a buffer. -/
theorem SafePlugin.infoData_fill_trace (win32 : Bool) (name : String) (w : World) :
    ∃ m f, (SafePlugin.infoData_fill win32 name w).2.trace = w.trace ++ [m, f] ∧
      m.call = .malloc INFODATA_BUFSIZE ∧ f.call = .freeMemory ∧
      (SafePlugin.infoData_fill win32 name w).1 =
        if m.reply.ret = 0 then none
        else some (snprintf win32 INFODATA_BUFSIZE ("The nickname is [I]\"" ++ name ++ "\"[/I]")) := by
  refine ⟨⟨.malloc INFODATA_BUFSIZE, w.lib w.trace (.malloc INFODATA_BUFSIZE)⟩,
    ⟨.freeMemory, w.lib (w.trace ++ [⟨.malloc INFODATA_BUFSIZE,
      w.lib w.trace (.malloc INFODATA_BUFSIZE)⟩]) .freeMemory⟩, ?_, rfl, rfl, ?_⟩
  · simp [SafePlugin.infoData_fill, World.call]
  · by_cases h : (w.lib w.trace (.malloc INFODATA_BUFSIZE)).ret = 0
    · simp [SafePlugin.infoData_fill, World.call, h]
    · simp [SafePlugin.infoData_fill, World.call, h]

/-- The two ways the safe variant of `ts3plugin_infoData` goes on after a lookup. -/
theorem SafePlugin.infoData_after_lookup (win32 : Bool) (st : PluginState) (sch : Nat)
    (msg : String) (c : Call) (w : World) (r : Option String × World)
    (hr : r = if (w.call c).1.status ≠ ERROR_ok
        then (none, SafePlugin.logError st msg sch (w.call c).2)
        else SafePlugin.infoData_fill win32 (w.call c).1.text (w.call c).2) :
    ∃ e rest, r.2.since w = e :: rest ∧ e.call = c ∧
      if e.reply.status ≠ ERROR_ok then
        r.1 = none ∧ ∀ x ∈ rest, x.call.isLog = true
      else
        ∃ m f, rest = [m, f] ∧ m.call = .malloc INFODATA_BUFSIZE ∧ f.call = .freeMemory ∧
          r.1 = if m.reply.ret = 0 then none
            else some (snprintf win32 INFODATA_BUFSIZE
              ("The nickname is [I]\"" ++ e.reply.text ++ "\"[/I]")) := by
  subst hr
  by_cases hs : (w.lib w.trace c).status = ERROR_ok
  · obtain ⟨m, f, ht, hm, hf, hd⟩ :=
      SafePlugin.infoData_fill_trace win32 (w.call c).1.text (w.call c).2
    have hs1 : (w.call c).1.status = ERROR_ok := hs
    rw [if_neg (not_not.mpr hs1)]
    refine ⟨⟨c, w.lib w.trace c⟩, [m, f], since_of_append ?_, rfl, ?_⟩
    · rw [ht]
      simp
    · rw [if_neg (not_not.mpr hs)]
      exact ⟨m, f, rfl, hm, hf, hd⟩
  · obtain ⟨l, hl, hp⟩ := SafePlugin.logTS_trace st sch .LogLevel_ERROR msg (w.call c).2
    have hs1 : (w.call c).1.status ≠ ERROR_ok := hs
    rw [if_pos hs1]
    refine ⟨⟨c, w.lib w.trace c⟩, l, since_of_append ?_, rfl, ?_⟩
    · show (SafePlugin.logTS st sch .LogLevel_ERROR msg (w.call c).2).trace = _
      rw [hl]
      simp
    · rw [if_pos hs]
      exact ⟨rfl, hp⟩

/-- A log line is no allocation and no release. -/
theorem isLog_not_malloc (c : Call) (h : c.isLog = true) :
    c.isMalloc = false ∧ c.isFreeMemory = false := by
  cases c <;> simp [Call.isLog, Call.isMalloc, Call.isFreeMemory] at h ⊢

/-- A log line is no call of `free`. -/
theorem isLog_not_free (c : Call) (h : c.isLog = true) : c.isFree = false := by
  cases c <;> simp [Call.isLog, Call.isFree] at h ⊢

/-- `_strcpy` into a buffer of `strlen(id) + 1` bytes copies all of `id`, in both builds. -/
theorem strcpy_exact (win32 : Bool) (id : String) : _strcpy win32 (id.length + 1) id = id := by
  cases win32
  · show String.mk (id.data.take (id.length + 1 - 1)) = id
    rw [Nat.add_sub_cancel]
    show String.mk (id.data.take id.data.length) = id
    rw [List.take_length]
  · show (if id.length < id.length + 1 then id else "") = id
    rw [if_pos (Nat.lt_succ_self _)]

/-! ## Connection ids -/

/-- The requests of the repeater's `print_error` carry the connection id it was given. -/
theorem Repeater.print_error_carries (error : Nat) (msg : String) (connection_id : Nat)
    (w : World) :
    Reach (fun e => ∀ m, e.call.connection_id? = some m → m = connection_id) w
      (Repeater.print_error error msg connection_id w) := by
  obtain ⟨hl, -, ht⟩ := Repeater.repeater_print_error_trace error msg connection_id w
  refine ⟨hl, _, ht, ?_⟩
  intro e he m hm
  split_ifs at he
  · simp at he
  · simp only [List.mem_cons, List.mem_singleton, List.not_mem_nil, or_false] at he
    rcases he with rfl | rfl | rfl <;> simp [Call.connection_id?] at hm
    exact hm.symm
  · simp only [List.mem_cons, List.mem_singleton, List.not_mem_nil, or_false] at he
    rcases he with rfl | rfl <;> simp [Call.connection_id?] at hm
    exact hm.symm

/-- A reported request that carries the connection id, or none, adds only such requests. -/
theorem Repeater.reported_carries (c : Call) (msg : String) (connection_id : Nat) (w : World)
    (hc : ∀ m, c.connection_id? = some m → m = connection_id) :
    Reach (fun e => ∀ m, e.call.connection_id? = some m → m = connection_id) w
      (Repeater.reported c msg connection_id w) :=
  Reach.trans (Reach.call w c hc) (Repeater.print_error_carries _ msg connection_id _)

/-- The handlers the client holds after the second part of `main` are the two it was
given, with their connection data filled in: their ids are the ids of those two. -/
theorem Repeater.main_connections_ids (opts : Repeater.Opts) (ts : Repeater.TS_Client)
    (cl cb : Repeater.Connection_Handler) (w : World) :
    ∀ x ∈ (Repeater.main_connections opts ts cl cb w).1._connections,
      x ∈ ts._connections ∨
      ∃ h, x = some h ∧ (h._connection_id = cl._connection_id ∨
        h._connection_id = cb._connection_id) := by
  intro x hx
  simp only [Repeater.main_connections, Repeater.setConnection] at hx
  rcases List.mem_or_eq_of_mem_set hx with h1 | h1
  · rcases List.mem_or_eq_of_mem_set h1 with h2 | h2
    · exact Or.inl h2
    · exact Or.inr ⟨_, h2, Or.inl rfl⟩
  · exact Or.inr ⟨_, h1, Or.inr rfl⟩

/-! ## The audio loop, the info text, the whisper targets and the own id -/

/-- Error reporting names no audio device. -/
theorem errorReport_loopback960 (c : Call) (h : c.isErrorReport = true) :
    c.loopback960 = true := by
  cases c <;> simp [Call.isErrorReport, Call.loopback960] at h ⊢

/-- Every request of the inner loop of the audio thread names "loopback" and 960 samples,
however many iterations are followed. -/
theorem Repeater.drainSteps_reach (n : Nat) :
    ∀ (buf : List Int) (w : World),
      Reach (fun e => e.call.loopback960 = true) w (Repeater.drainSteps n buf w) := by
  induction n with
  | zero => intro buf w; exact Reach.refl _ w
  | succ n ih =>
    intro buf w
    unfold Repeater.drainSteps
    simp only
    split_ifs with h1 h2 h3
    · exact Reach.call w _ (by rfl)
    · exact Reach.trans (Reach.call w _ (by rfl))
        (Reach.mono (Repeater.repeater_print_error_reach _ _ _ _)
          (fun e he => errorReport_loopback960 _ he))
    · exact Reach.trans (Reach.trans (Reach.call w _ (by rfl)) (Reach.call _ _ (by rfl)))
        (Reach.mono (Repeater.repeater_print_error_reach _ _ _ _)
          (fun e he => errorReport_loopback960 _ he))
    · exact Reach.trans (Reach.trans (Reach.call w _ (by rfl)) (Reach.call _ _ (by rfl)))
        (ih _ _)

/-- A pass that ends within its fuel leaves the world of `drainSteps`. -/
theorem Repeater.drainPass_steps (fuel : Nat) :
    ∀ (buf : List Int) (w : World) (r : List Int × World),
      Repeater.drainPass fuel buf w = some r → r.2 = Repeater.drainSteps fuel buf w := by
  induction fuel with
  | zero => intro buf w r h; simp [Repeater.drainPass] at h
  | succ n ih =>
    intro buf w r h
    unfold Repeater.drainPass at h
    unfold Repeater.drainSteps
    simp only at h ⊢
    split_ifs at h ⊢ with h1 h2 h3
    · cases h; rfl
    · cases h; rfl
    · cases h; rfl
    · exact ih _ _ _ h

/-- Every request the audio thread makes, over any sequence of events, names "loopback"
and 960 samples. -/
theorem Repeater.run_reach (es : List Repeater.Event) :
    ∀ (s s1 : Repeater.ThreadState), Repeater.run es s = some s1 →
      Reach (fun e => e.call.loopback960 = true) s.world s1.world := by
  induction es with
  | nil => intro s s1 h; simp [Repeater.run] at h; subst h; exact Reach.refl _ _
  | cons e es ih =>
    intro s s1 h
    unfold Repeater.run at h
    cases hs : Repeater.step e s with
    | none => simp [hs] at h
    | some s2 =>
      simp only [hs] at h
      refine Reach.trans ?_ (ih s2 s1 h)
      cases e with
      | setShuttingDown =>
        simp [Repeater.step] at hs
        subst hs
        exact Reach.refl _ _
      | iteration fuel =>
        unfold Repeater.step at hs
        cases hpc : s.pc with
        | exited =>
          simp [hpc] at hs
          subst hs
          exact Reach.refl _ _
        | loopTop =>
          simp only [hpc] at hs
          by_cases hsd : s.shutting_down = true
          · simp [hsd] at hs
            subst hs
            exact Reach.refl _ _
          · simp only [hsd] at hs
            cases hd : Repeater.drainPass fuel s.playback_buffer s.world with
            | none => simp [hd] at hs
            | some r =>
              simp [hd] at hs
              subst hs
              simp only
              rw [Repeater.drainPass_steps _ _ _ _ hd]
              exact Repeater.drainSteps_reach _ _ _

/-- The text formatted for a name of `n` characters has `n + 25` characters. -/
theorem infoData_text_length (s : String) : (infoData_text s).length = s.length + 25 := by
  unfold infoData_text
  rw [String.length_append, String.length_append]
  have h1 : ("The nickname is [I]\"" : String).length = 20 := by decide
  have h2 : ("\"[/I]" : String).length = 5 := by decide
  omega

/-- The text of `snprintf` in a build without `_WIN32`: the whole text when it has at most
`size - 1` characters, and only then. -/
theorem snprintf_c_complete (size : Nat) (t : String) :
    (snprintf false size t).length ≤ size - 1 ∧
    (snprintf false size t = t ↔ t.length ≤ size - 1) := by
  have e : snprintf false size t = String.mk (t.data.take (size - 1)) := rfl
  rw [e]
  constructor
  · show (t.data.take (size - 1)).length ≤ size - 1
    rw [List.length_take]
    exact Nat.min_le_left _ _
  · constructor
    · intro h
      have h2 : (t.data.take (size - 1)).length = t.data.length := by
        have := congrArg String.length h
        exact this
      rw [List.length_take] at h2
      show t.data.length ≤ size - 1
      omega
    · intro h
      have h1 : t.data.length ≤ size - 1 := h
      rw [List.take_of_length_le h1]

/-- Error reporting sets no variable of the own client. -/
theorem errorReport_not_selfVariable (c : Call) (h : c.isErrorReport = true) :
    c.isSelfVariable = false := by
  cases c <;> simp [Call.isErrorReport, Call.isSelfVariable] at h ⊢

/-- The history of `apply_targets`, request by request.  With a target: the whisper-list
request first; if it failed, error reporting only; if it succeeded, one request that
switches the input on, among log lines and error reporting.  Without a target: the request
that switches the input off, then a log line or error reporting. -/
theorem Whisperer.apply_targets_trace (connection_id : Nat) (targets : List Nat) (w : World) :
    ∃ e rest, (Whisperer.apply_targets connection_id targets w).trace = w.trace ++ e :: rest ∧
      e.reply = w.lib w.trace e.call ∧
      if targets.length > 0 then
        e.call = .requestClientSetWhisperList connection_id 0 none (targets ++ [0]) none ∧
        (e.reply.status ≠ ERROR_ok → ∀ x ∈ rest, x.call.isErrorReport = true) ∧
        (e.reply.status = ERROR_ok →
          (rest.map Entry.call).filter Call.isSelfVariable =
            [.setClientSelfVariableAsInt connection_id CLIENT_INPUT_DEACTIVATED INPUT_ACTIVE] ∧
          (rest.map Entry.call).filter Call.isWhisperList = [])
      else
        e.call = .setClientSelfVariableAsInt connection_id CLIENT_INPUT_DEACTIVATED
          INPUT_DEACTIVATED ∧
        ∀ x ∈ rest, x.call.isErrorReport = true := by
  unfold Whisperer.apply_targets
  by_cases ht : targets.length > 0
  · simp only [ht, if_true]
    set c1 : Call := .requestClientSetWhisperList connection_id 0 none (targets ++ [0]) none
    set c2 : Call := .logMessage ("Whisperlist set to " ++
      Whisperer.client_id_array_to_string (targets ++ [0])) .LogLevel_INFO
      Whisperer.kWhisperApp connection_id
    set c3 : Call :=
      .setClientSelfVariableAsInt connection_id CLIENT_INPUT_DEACTIVATED INPUT_ACTIVE
    set w2 := (w.call c1).2 with hw2
    set w3 := (w2.call c2).2 with hw3
    set w4 := (w3.call c3).2 with hw4
    have t2 : w2.trace = w.trace ++ [⟨c1, w.lib w.trace c1⟩] := rfl
    have t3 : w3.trace = w.trace ++ [⟨c1, w.lib w.trace c1⟩, ⟨c2, w2.lib w2.trace c2⟩] := by
      rw [hw3, call_trace, t2]; simp
    have t4 : w4.trace = w.trace ++ [⟨c1, w.lib w.trace c1⟩, ⟨c2, w2.lib w2.trace c2⟩,
        ⟨c3, w3.lib w3.trace c3⟩] := by
      rw [hw4, call_trace, t3]; simp
    have s3 : c3.isSelfVariable = true := rfl
    have s2 : c2.isSelfVariable = false := rfl
    have l2 : c2.isWhisperList = false := rfl
    have l3 : c3.isWhisperList = false := rfl
    by_cases h1 : (w.lib w.trace c1).status = ERROR_ok
    · have h1' : ¬ (w.call c1).1.status ≠ ERROR_ok := not_not.mpr h1
      rw [if_neg h1']
      split_ifs with h2 h3
      · obtain ⟨-, l, htr, hp⟩ := Whisperer.whisperer_print_error_reach
          (w3.call c3).1.status "Couldn't activate input." connection_id w4
        rw [t4] at htr
        simp only [List.append_assoc, List.cons_append, List.nil_append] at htr
        refine ⟨_, _, htr, rfl, rfl, fun h => absurd h1 h, fun _ => ?_⟩
        simp only [List.map_cons, List.filter_cons, s2, s3, l2, l3,
          filter_errorReport _ errorReport_not_selfVariable l hp,
          filter_errorReport _ errorReport_not_whisperList l hp]
        simp
      · set c4 : Call := .logMessage "Activated Input for whispering." .LogLevel_INFO
          Whisperer.kWhisperApp connection_id
        have t5 : (w4.call c4).2.trace = w.trace ++ (⟨c1, w.lib w.trace c1⟩ ::
            [⟨c2, w2.lib w2.trace c2⟩, ⟨c3, w3.lib w3.trace c3⟩, ⟨c4, w4.lib w4.trace c4⟩]) := by
          rw [call_trace, t4]; simp
        have s4 : c4.isSelfVariable = false := rfl
        have l4 : c4.isWhisperList = false := rfl
        refine ⟨_, _, t5, rfl, rfl, fun h => absurd h1 h, fun _ => ?_⟩
        simp [s2, s3, l2, l3, s4, l4]
      · refine ⟨⟨c1, w.lib w.trace c1⟩, [⟨c2, w2.lib w2.trace c2⟩, ⟨c3, w3.lib w3.trace c3⟩],
          t4, rfl, rfl, fun h => absurd h1 h, fun _ => ?_⟩
        simp [s2, s3, l2, l3]
    · have h1' : (w.call c1).1.status ≠ ERROR_ok := h1
      rw [if_pos h1']
      obtain ⟨-, l, htr, hp⟩ := Whisperer.whisperer_print_error_reach
        (w.call c1).1.status
        ("Whisperlist set to " ++ Whisperer.client_id_array_to_string (targets ++ [0])
          ++ ", but FAILED") connection_id w2
      rw [t2] at htr
      simp only [List.append_assoc, List.singleton_append] at htr
      exact ⟨_, l, htr, rfl, rfl, fun _ => hp, fun h => absurd h h1⟩
  · simp only [ht, if_false]
    set c1 : Call :=
      .setClientSelfVariableAsInt connection_id CLIENT_INPUT_DEACTIVATED INPUT_DEACTIVATED
    set w2 := (w.call c1).2 with hw2
    have t2 : w2.trace = w.trace ++ [⟨c1, w.lib w.trace c1⟩] := rfl
    split_ifs with h2
    · obtain ⟨-, l, htr, hp⟩ := Whisperer.whisperer_print_error_reach
        (w.call c1).1.status "Couldn't deactivate input." connection_id w2
      rw [t2] at htr
      simp only [List.append_assoc, List.singleton_append] at htr
      exact ⟨_, l, htr, rfl, rfl, hp⟩
    · set c4 : Call := .logMessage "Deactivated Input: No whisper targets." .LogLevel_INFO
        Whisperer.kWhisperApp connection_id
      have t5 : (w2.call c4).2.trace = w.trace ++ (⟨c1, w.lib w.trace c1⟩ ::
          [⟨c4, w2.lib w2.trace c4⟩]) := by
        rw [call_trace, t2]; simp
      have e4 : c4.isErrorReport = true := rfl
      refine ⟨_, _, t5, rfl, rfl, ?_⟩
      simp [e4]

/-- The history of `set_whisper_to_all_visible`: the client-list request with its error
reporting, then the history of `apply_targets` for the filtered list. -/
theorem Whisperer.set_whisper_trace (my_id connection_id : Nat) (w : World) :
    ∃ g l1 e rest,
      (Whisperer.set_whisper_to_all_visible my_id connection_id w).since w
        = g :: (l1 ++ e :: rest) ∧
      g.call = .getClientList connection_id ∧
      (∀ x ∈ l1, x.call.isErrorReport = true) ∧
      if ((if (w.lib w.trace (.getClientList connection_id)).status ≠ ERROR_ok then []
            else Whisperer.read_client_ids
              (w.lib w.trace (.getClientList connection_id)).ids).erase my_id).length > 0
      then
        e.call.isWhisperList = true ∧
        (e.reply.status ≠ ERROR_ok → ∀ x ∈ rest, x.call.isErrorReport = true) ∧
        (e.reply.status = ERROR_ok →
          (rest.map Entry.call).filter Call.isSelfVariable =
            [.setClientSelfVariableAsInt connection_id CLIENT_INPUT_DEACTIVATED INPUT_ACTIVE] ∧
          (rest.map Entry.call).filter Call.isWhisperList = [])
      else
        e.call = .setClientSelfVariableAsInt connection_id CLIENT_INPUT_DEACTIVATED
          INPUT_DEACTIVATED ∧
        ∀ x ∈ rest, x.call.isErrorReport = true := by
  rw [Whisperer.set_whisper_eq]
  obtain ⟨-, hids, l1, ht1, hp1⟩ := Whisperer.get_client_ids_shape connection_id w
  obtain ⟨e, rest, ht2, -, hsh⟩ := Whisperer.apply_targets_trace connection_id
    (Whisperer.filter_own_client_id my_id connection_id
      (Whisperer.get_client_ids connection_id w).1)
    (Whisperer.get_client_ids connection_id w).2
  rw [Whisperer.filter_own_eq_erase, hids] at hsh
  refine ⟨⟨.getClientList connection_id, w.lib w.trace (.getClientList connection_id)⟩,
    l1, e, rest, since_of_append ?_, rfl, hp1, ?_⟩
  · rw [ht2, ht1]; simp
  · by_cases h : ((if (w.lib w.trace (.getClientList connection_id)).status ≠ ERROR_ok then []
            else Whisperer.read_client_ids
              (w.lib w.trace (.getClientList connection_id)).ids).erase my_id).length > 0
    · rw [if_pos h] at hsh ⊢
      exact ⟨by rw [hsh.1]; rfl, hsh.2⟩
    · rw [if_neg h] at hsh ⊢
      exact hsh

/-- The `printf` lines leave the library and the history alone. -/
theorem Whisperer.status_lines_trace (sch : Nat) (newStatus : Int) (errorNumber : Nat)
    (w : World) :
    (Whisperer.status_lines sch newStatus errorNumber w).lib = w.lib ∧
    (Whisperer.status_lines sch newStatus errorNumber w).trace = w.trace := by
  unfold Whisperer.status_lines
  simp only
  split_ifs <;> exact ⟨rfl, rfl⟩

/-- `onConnectStatusChangeEvent` after its `printf` lines. -/
theorem Whisperer.onConnectStatusChangeEvent_eq (my_id sch : Nat) (newStatus : Int)
    (errorNumber : Nat) (w : World) :
    ∃ wp : World, wp.lib = w.lib ∧ wp.trace = w.trace ∧
      Whisperer.onConnectStatusChangeEvent my_id sch newStatus errorNumber w =
        if newStatus = STATUS_CONNECTED then
          if (wp.call (.getClientID sch)).1.status ≠ ERROR_ok then
            ((wp.call (.getClientID sch)).1.num.getD my_id,
              Whisperer.print_error (wp.call (.getClientID sch)).1.status
                "Couldn't get own client id." sch (wp.call (.getClientID sch)).2)
          else ((wp.call (.getClientID sch)).1.num.getD my_id, (wp.call (.getClientID sch)).2)
        else if newStatus = STATUS_DISCONNECTED then (0, wp)
        else (my_id, wp) :=
  ⟨Whisperer.status_lines sch newStatus errorNumber w,
    (Whisperer.status_lines_trace sch newStatus errorNumber w).1,
    (Whisperer.status_lines_trace sch newStatus errorNumber w).2, rfl⟩

/-- Erasing the first occurrence of an id that occurs at most once removes the id. -/
theorem erase_eq_filter_of_count_le_one (my_id : Nat) :
    ∀ l : List Nat, l.count my_id ≤ 1 → l.erase my_id = l.filter (fun x => x ≠ my_id) := by
  intro l
  induction l with
  | nil => intro _; rfl
  | cons a l ih =>
    intro h
    by_cases ha : a = my_id
    · subst ha
      rw [List.count_cons_self] at h
      have h0 : l.count a = 0 := by omega
      have hn : a ∉ l := List.count_eq_zero.mp h0
      rw [List.erase_cons_head, List.filter_cons_of_neg (by simp)]
      symm
      rw [List.filter_eq_self]
      intro x hx
      have : x ≠ a := fun hxa => hn (hxa ▸ hx)
      simpa using this
    · rw [List.count_cons_of_ne (fun h' => ha h'.symm)] at h
      rw [List.erase_cons_tail (by simpa using ha), List.filter_cons_of_pos (by simpa using ha),
        ih h]

/-- Erasing the first occurrence of an id leaves the other ids as they were, in order. -/
theorem filter_erase_others (my_id : Nat) :
    ∀ l : List Nat, (l.erase my_id).filter (fun x => x ≠ my_id)
      = l.filter (fun x => x ≠ my_id) := by
  intro l
  induction l with
  | nil => rfl
  | cons a l ih =>
    by_cases ha : a = my_id
    · subst ha
      rw [List.erase_cons_head, List.filter_cons_of_neg (by simp)]
    · rw [List.erase_cons_tail (by simpa using ha), List.filter_cons_of_pos (by simpa using ha),
        List.filter_cons_of_pos (by simpa using ha), ih]

/-- What follows the device-open request of `open_audio`: preprocessor settings and error
reporting only. -/
theorem Repeater.open_audio_first (h : Repeater.Connection_Handler)
    (audio_io : Repeater.Audio_IO) (mode dev : String) (w : World) :
    ∃ c rest, (h.open_audio audio_io mode dev w).2.since w = ⟨c, w.lib w.trace c⟩ :: rest ∧
      (c = match audio_io with
        | .Playback => .openCaptureDevice h._connection_id mode (some dev)
        | .Capture => .openPlaybackDevice h._connection_id mode (some dev)) ∧
      ∀ x ∈ rest, x.call.isOpenDevice = false := by
  have hne : ∀ e : Entry, e.call.isErrorReport = true → e.call.isOpenDevice = false := by
    intro e he
    cases hc : e.call <;> simp [hc, Call.isErrorReport, Call.isOpenDevice] at he ⊢
  have hrep : ∀ (c : Call) (msg : String) (w1 : World), c.isOpenDevice = false →
      Reach (fun e => e.call.isOpenDevice = false) w1
        (Repeater.reported c msg h._connection_id w1) := by
    intro c msg w1 hc
    exact Reach.trans (Reach.call w1 c hc)
      (Reach.mono (Repeater.repeater_print_error_reach _ _ _ _) hne)
  have hrep0 : ∀ (c : Call) (msg : String),
      Reach (fun e => e.call.isOpenDevice = false) (w.call c).2
        (Repeater.reported c msg h._connection_id w) := by
    intro c msg
    exact Reach.mono (Repeater.repeater_print_error_reach (w.call c).1.status msg
      h._connection_id (w.call c).2) hne
  have hfin : ∀ (c : Call) (w2 : World),
      Reach (fun e => e.call.isOpenDevice = false) (w.call c).2 w2 →
      ∃ rest, w2.since w = ⟨c, w.lib w.trace c⟩ :: rest ∧
        ∀ x ∈ rest, x.call.isOpenDevice = false := by
    intro c w2 hr
    obtain ⟨-, l, ht, hp⟩ := hr
    refine ⟨l, since_of_append ?_, hp⟩
    rw [ht, call_trace]; simp
  cases audio_io with
  | Capture =>
    refine ⟨.openPlaybackDevice h._connection_id mode (some dev), ?_⟩
    obtain ⟨rest, h1, h2⟩ := hfin (.openPlaybackDevice h._connection_id mode (some dev))
      (h.open_audio .Capture mode dev w).2 (by
        rw [Repeater.open_audio_capture_eq]
        split_ifs
        · exact hrep0 _ _
        · exact Reach.refl _ (w.call (.openPlaybackDevice h._connection_id mode (some dev))).2)
    exact ⟨rest, h1, rfl, h2⟩
  | Playback =>
    refine ⟨.openCaptureDevice h._connection_id mode (some dev), ?_⟩
    obtain ⟨rest, h1, h2⟩ := hfin (.openCaptureDevice h._connection_id mode (some dev))
      (h.open_audio .Playback mode dev w).2 (by
        rw [Repeater.open_audio_playback_eq]
        split_ifs
        · exact hrep0 _ _
        · exact Reach.trans (hrep _ _ _ (by rfl))
            (Reach.trans (hrep _ _ _ (by rfl)) (hrep _ _ _ (by rfl))))
    exact ⟨rest, h1, rfl, h2⟩

/-! ## Reports of a failed device-open request -/

/-- A history without device-open requests has no failed one to report. -/
theorem Repeater.openFailuresLogged_of_reach {w0 w : World}
    (h : Reach (fun e => e.call.isOpenDevice = false) w0 w) :
    Repeater.openFailuresLogged w0 w := by
  obtain ⟨-, l, ht, hp⟩ := h
  refine ⟨⟨l, ht⟩, ?_⟩
  intro e he ho
  rw [since_of_append ht] at he
  rw [hp e he] at ho
  cases ho

/-- Reports stay in the history as it grows. -/
theorem Repeater.openFailuresLogged_trans {w0 w1 w2 : World}
    (h1 : Repeater.openFailuresLogged w0 w1) (h2 : Repeater.openFailuresLogged w1 w2) :
    Repeater.openFailuresLogged w0 w2 := by
  obtain ⟨⟨l1, ht1⟩, hp1⟩ := h1
  obtain ⟨⟨l2, ht2⟩, hp2⟩ := h2
  have ht : w2.trace = w0.trace ++ (l1 ++ l2) := by rw [ht2, ht1, List.append_assoc]
  rw [since_of_append ht1] at hp1
  rw [since_of_append ht2] at hp2
  refine ⟨⟨_, ht⟩, ?_⟩
  rw [since_of_append ht]
  intro e he ho hs
  rcases List.mem_append.mp he with he | he
  · obtain ⟨m, hm, hr⟩ := hp1 e he ho hs
    exact ⟨m, List.mem_append_left _ hm, hr⟩
  · obtain ⟨m, hm, hr⟩ := hp2 e he ho hs
    exact ⟨m, List.mem_append_right _ hm, hr⟩

/-- A string begins the string it is extended to. -/
theorem prefix_self_append (a b : String) : a.data.isPrefixOf (a ++ b).data = true := by
  rw [String.data_append, List.isPrefixOf_iff_prefix]
  exact List.prefix_append _ _

/-- A status other than `ERROR_ok` makes the repeater's `print_error` write its log line. -/
theorem Repeater.print_error_line (error : Nat) (msg : String) (connection_id : Nat)
    (w : World) (h : error ≠ ERROR_ok) :
    ∃ m ∈ (Repeater.print_error error msg connection_id w).since w, ∃ text,
      m.call = .logMessage text .LogLevel_ERROR "" connection_id ∧
      msg.data.isPrefixOf text.data = true := by
  obtain ⟨-, -, ht⟩ := Repeater.repeater_print_error_trace error msg connection_id w
  rw [since_of_append ht, if_neg h]
  split_ifs
  · refine ⟨_, List.mem_cons_of_mem _ (List.mem_cons_of_mem _ (List.mem_singleton.mpr rfl)),
      _, rfl, ?_⟩
    rw [String.append_assoc]
    exact prefix_self_append _ _
  · refine ⟨_, List.mem_cons_of_mem _ (List.mem_singleton.mpr rfl), _, rfl, ?_⟩
    rw [List.isPrefixOf_iff_prefix]

/-- A failed request handed to `reported` has its log line in the history. -/
theorem Repeater.reported_line (c : Call) (msg : String) (connection_id : Nat) (w : World)
    (h : (w.lib w.trace c).status ≠ ERROR_ok) :
    ∃ m ∈ (Repeater.reported c msg connection_id w).since w, ∃ text,
      m.call = .logMessage text .LogLevel_ERROR "" connection_id ∧
      msg.data.isPrefixOf text.data = true := by
  obtain ⟨m, hm, text, hmc, hpre⟩ := Repeater.print_error_line (w.call c).1.status msg
    connection_id (w.call c).2 h
  have r1 : Reach (fun _ => True) w (w.call c).2 := Reach.call w c trivial
  have r2 := Repeater.repeater_print_error_reach (w.call c).1.status msg connection_id
    (w.call c).2
  refine ⟨m, ?_, text, hmc, hpre⟩
  show m ∈ (Repeater.print_error (w.call c).1.status msg connection_id (w.call c).2).since w
  rw [Reach.since_trans r1 r2]
  exact List.mem_append_right _ hm

/-- `open_audio` reports its failed device-open request through `print_error`. -/
theorem Repeater.open_audio_logged (h : Repeater.Connection_Handler)
    (audio_io : Repeater.Audio_IO) (mode dev : String) (w : World) :
    Repeater.openFailuresLogged w (h.open_audio audio_io mode dev w).2 := by
  obtain ⟨c, rest, hs, hc, hrest⟩ := Repeater.open_audio_first h audio_io mode dev w
  obtain ⟨-, l, ht, -⟩ := Repeater.open_audio_reach h audio_io mode dev w
  refine ⟨⟨l, ht⟩, ?_⟩
  intro e he ho hst
  rcases List.mem_cons.mp (hs ▸ he) with rfl | he
  · simp only at hst
    cases audio_io with
    | Capture =>
      simp only at hc
      subst hc
      obtain ⟨m, hm, text, hmc, hpre⟩ := Repeater.reported_line
        (.openPlaybackDevice h._connection_id mode (some dev))
        "Error opening playback device." h._connection_id w hst
      refine ⟨m, ?_, ?_⟩
      · rw [Repeater.open_audio_capture_eq, if_pos hst]
        exact hm
      · simp [Repeater.reportsOpenFailure, hmc, hpre]
    | Playback =>
      simp only at hc
      subst hc
      obtain ⟨m, hm, text, hmc, hpre⟩ := Repeater.reported_line
        (.openCaptureDevice h._connection_id mode (some dev))
        "Error opening capture device." h._connection_id w hst
      refine ⟨m, ?_, ?_⟩
      · rw [Repeater.open_audio_playback_eq, if_pos hst]
        exact hm
      · simp [Repeater.reportsOpenFailure, hmc, hpre]
  · rw [hrest e he] at ho
    cases ho

/-- The history of `connect` holds no device-open request. -/
theorem Repeater.connect_no_open (h : Repeater.Connection_Handler) (w : World) :
    Reach (fun e => e.call.isOpenDevice = false) w (h.connect w).2 := by
  rw [Repeater.connect_snd]
  refine Reach.trans (Reach.call w h.startCall (by rfl)) ?_
  refine Reach.mono (Repeater.repeater_print_error_reach (w.call h.startCall).1.status
    "Error connecting to server" h._connection_id (w.call h.startCall).2) ?_
  intro e he
  cases hc : e.call <;> simp [hc, Call.isErrorReport, Call.isOpenDevice] at he ⊢

/-- The connection part of the repeater's `main` reports every failed device-open request. -/
theorem Repeater.main_connections_logged (opts : Repeater.Opts) (ts : Repeater.TS_Client)
    (connection_listen connection_broadcast : Repeater.Connection_Handler) (w : World) :
    Repeater.openFailuresLogged w
      (Repeater.main_connections opts ts connection_listen connection_broadcast w).2 := by
  show Repeater.openFailuresLogged w
    (Repeater.Connection_Handler.connect _
      (Repeater.Connection_Handler.connect _
        (Repeater.Connection_Handler.open_audio connection_broadcast .Capture
          Repeater.custom_mode Repeater.custom_device
          (Repeater.Connection_Handler.open_audio connection_listen .Playback
            Repeater.custom_mode Repeater.custom_device w).2).2).2).2
  exact Repeater.openFailuresLogged_trans (Repeater.open_audio_logged _ _ _ _ _)
    (Repeater.openFailuresLogged_trans (Repeater.open_audio_logged _ _ _ _ _)
      (Repeater.openFailuresLogged_trans
        (Repeater.openFailuresLogged_of_reach (Repeater.connect_no_open _ _))
        (Repeater.openFailuresLogged_of_reach (Repeater.connect_no_open _ _))))

/-- The startup of the repeater's `main` reports every failed device-open request. -/
theorem Repeater.main_startup_logged (stoul : String → Option Nat) (pathsep : Char)
    (argv : List String) (w : World) :
    Repeater.openFailuresLogged w (Repeater.main_startup stoul pathsep argv w).2.2 := by
  unfold Repeater.main_startup
  cases hp : Repeater.parse_args stoul argv with
  | none => exact Repeater.openFailuresLogged_of_reach (Reach.print _ w _)
  | some opts =>
    simp only
    have h1 := Repeater.main_library_reach (Repeater.programPath pathsep (argv.get? 0))
      (w.print ("listening to " ++ opts.from_ip ++ ":" ++ toString opts.from_port
        ++ ", sending to " ++ opts.to_ip ++ ":" ++ toString opts.to_port ++ "\n"))
    generalize Repeater.main_library (Repeater.programPath pathsep (argv.get? 0))
      (w.print ("listening to " ++ opts.from_ip ++ ":" ++ toString opts.from_port
        ++ ", sending to " ++ opts.to_ip ++ ":" ++ toString opts.to_port ++ "\n")) = res
      at h1 ⊢
    obtain ⟨r, w1⟩ := res
    have h0 : Reach (fun e => e.call.isOpenDevice = false) w w1 :=
      (Reach.print _ w _).trans (h1.mono (fun e he => by
        have := he.1
        simp only [Entry.quiet, Bool.and_eq_true, Bool.not_eq_true'] at this
        exact this.1))
    cases r with
    | error ts_client => exact Repeater.openFailuresLogged_of_reach h0
    | ok v =>
      obtain ⟨ts, connection_listen, connection_broadcast⟩ := v
      exact Repeater.openFailuresLogged_trans (Repeater.openFailuresLogged_of_reach h0)
        (Repeater.main_connections_logged opts ts connection_listen connection_broadcast w1)

namespace Whisperer

/-- Nothing done, nothing to print. -/
theorem printed_refl (w : World) : openFailuresPrinted w w :=
  ⟨⟨[], by simp⟩, ⟨[], by simp⟩, by simp⟩

/-- A request that opens no device needs no line. -/
theorem printed_call_after {w w1 : World} (c : Call) (h : openFailuresPrinted w w1)
    (hc : c.isOpenDevice = false) : openFailuresPrinted w (w1.call c).2 := by
  obtain ⟨⟨l, ht⟩, ho, hp⟩ := h
  have ht2 : (w1.call c).2.trace = w.trace ++ (l ++ [⟨c, w1.lib w1.trace c⟩]) := by
    rw [call_trace, ht, List.append_assoc]
  refine ⟨⟨_, ht2⟩, ho, ?_⟩
  rw [since_of_append ht] at hp
  rw [since_of_append ht2]
  intro e he hopen hst
  rcases List.mem_append.mp he with he | he
  · exact hp e he hopen hst
  · rw [List.mem_singleton] at he
    subst he
    rw [hc] at hopen
    cases hopen

/-- Printing keeps the lines printed before. -/
theorem printed_print_after {w w1 : World} (s : String)
    (h : openFailuresPrinted w w1) : openFailuresPrinted w (w1.print s) := by
  obtain ⟨ht, ⟨o, ho⟩, hp⟩ := h
  refine ⟨ht, ⟨o ++ [s], by rw [print_out, ho, List.append_assoc]⟩, ?_⟩
  intro e he hopen hst
  rw [print_out]
  exact List.mem_append_left _ (hp e he hopen hst)

/-- A conditional `printf` keeps the lines printed before. -/
theorem printed_ite_print {w w1 : World} (c : Prop) [Decidable c] (s : String)
    (h : openFailuresPrinted w w1) : openFailuresPrinted w (if c then w1.print s else w1) := by
  split_ifs
  · exact printed_print_after s h
  · exact h

/-- `print_error` opens no device and leaves the output alone. -/
theorem printed_print_error_after {w w1 : World} (error : Nat) (msg : String)
    (connection_id : Nat) (h : openFailuresPrinted w w1) :
    openFailuresPrinted w (print_error error msg connection_id w1) := by
  obtain ⟨⟨l, ht⟩, ⟨o, ho⟩, hp⟩ := h
  obtain ⟨-, hout, -⟩ := whisperer_print_error_trace error msg connection_id w1
  obtain ⟨-, l2, ht2, hp2⟩ := whisperer_print_error_reach error msg connection_id w1
  have ht3 : (print_error error msg connection_id w1).trace = w.trace ++ (l ++ l2) := by
    rw [ht2, ht, List.append_assoc]
  refine ⟨⟨_, ht3⟩, ⟨o, by rw [hout, ho]⟩, ?_⟩
  rw [since_of_append ht] at hp
  rw [since_of_append ht3, hout]
  intro e he hopen hst
  rcases List.mem_append.mp he with he | he
  · exact hp e he hopen hst
  · have := hp2 e he
    cases hc : e.call <;> simp [hc, Call.isErrorReport, Call.isOpenDevice] at this hopen

/-- A conditional `print_error` opens no device and leaves the output alone. -/
theorem printed_ite_print_error {w w1 : World} (c : Prop) [Decidable c]
    (error : Nat) (msg : String) (connection_id : Nat) (h : openFailuresPrinted w w1) :
    openFailuresPrinted w (if c then print_error error msg connection_id w1 else w1) := by
  split_ifs
  · exact printed_print_error_after error msg connection_id h
  · exact h

/-- A device-open request followed by the `printf` of its failure. -/
theorem printed_open_after {w w1 : World} (c : Call) (cond : Prop) [Decidable cond]
    (s : String) (h : openFailuresPrinted w w1)
    (hs : (w1.lib w1.trace c).status ≠ ERROR_ok →
      cond ∧ s = openFailureLine ⟨c, w1.lib w1.trace c⟩) :
    openFailuresPrinted w (if cond then (w1.call c).2.print s else (w1.call c).2) := by
  obtain ⟨⟨l, ht⟩, ⟨o, ho⟩, hp⟩ := h
  have ht2 : (w1.call c).2.trace = w.trace ++ (l ++ [⟨c, w1.lib w1.trace c⟩]) := by
    rw [call_trace, ht, List.append_assoc]
  rw [since_of_append ht] at hp
  by_cases hst : (w1.lib w1.trace c).status = ERROR_ok
  · have hcall : openFailuresPrinted w (w1.call c).2 := by
      refine ⟨⟨_, ht2⟩, ⟨o, ho⟩, ?_⟩
      rw [since_of_append ht2]
      intro e he hopen hne
      rcases List.mem_append.mp he with he | he
      · exact hp e he hopen hne
      · rw [List.mem_singleton] at he
        subst he
        exact absurd hst hne
    exact printed_ite_print cond s hcall
  · obtain ⟨hcond, hline⟩ := hs hst
    rw [if_pos hcond]
    refine ⟨⟨_, ht2⟩, ⟨o ++ [s], by rw [print_out, call_out, ho, List.append_assoc]⟩, ?_⟩
    show ∀ e ∈ ((w1.call c).2.print s).since w, _
    rw [since_of_append (show ((w1.call c).2.print s).trace = _ from ht2)]
    intro e he hopen hne
    rw [print_out, call_out]
    rcases List.mem_append.mp he with he | he
    · exact List.mem_append_left _ (hp e he hopen hne)
    · rw [List.mem_singleton] at he
      subst he
      rw [hline]
      exact List.mem_append_right _ (List.mem_singleton.mpr rfl)

/-- Lines stay on the output as the run goes on. -/
theorem printed_trans {w0 w1 w2 : World} (h1 : openFailuresPrinted w0 w1)
    (h2 : openFailuresPrinted w1 w2) : openFailuresPrinted w0 w2 := by
  obtain ⟨⟨l1, ht1⟩, ⟨o1, ho1⟩, hp1⟩ := h1
  obtain ⟨⟨l2, ht2⟩, ⟨o2, ho2⟩, hp2⟩ := h2
  have ht : w2.trace = w0.trace ++ (l1 ++ l2) := by rw [ht2, ht1, List.append_assoc]
  rw [since_of_append ht1] at hp1
  rw [since_of_append ht2] at hp2
  refine ⟨⟨_, ht⟩, ⟨o1 ++ o2, by rw [ho2, ho1, List.append_assoc]⟩, ?_⟩
  rw [since_of_append ht]
  intro e he hopen hst
  rcases List.mem_append.mp he with he | he
  · rw [ho2]
    exact List.mem_append_left _ (hp1 e he hopen hst)
  · exact hp2 e he hopen hst

/-- The audio part of the whisperer's `main` prints a line for each failed device-open
request. -/
theorem main_audio_printed (scHandlerID : Nat) (w : World) :
    openFailuresPrinted w (main_audio scHandlerID w) := by
  unfold main_audio
  simp only
  apply printed_ite_print
  apply printed_call_after _ _ (by rfl)
  apply printed_ite_print
  apply printed_call_after _ _ (by rfl)
  apply printed_ite_print_error
  apply printed_call_after _ _ (by rfl)
  apply printed_open_after _ _ _ _ (fun h => ⟨h, rfl⟩)
  apply printed_open_after _ _ _ _ (fun h => ⟨h, rfl⟩)
  exact printed_refl _

/-- The session part of the whisperer's `main` opens no device. -/
theorem main_session_printed (scHandlerID : Nat) (w : World) :
    openFailuresPrinted w (main_session scHandlerID w).2 := by
  unfold main_session
  simp only
  split_ifs <;>
    repeat (first
      | exact printed_refl _
      | apply printed_print_after
      | apply printed_call_after _ _ (by rfl))

/-- The connect part of the whisperer's `main` opens no device. -/
theorem main_connect_printed (scHandlerID : Nat) (w : World) :
    openFailuresPrinted w (main_connect scHandlerID w).2 := by
  unfold main_connect
  simp only
  split_ifs
  · exact printed_print_after _ (printed_call_after _ (printed_refl w) (by rfl))
  · exact printed_print_after _
      (printed_call_after _ (printed_call_after _ (printed_refl w) (by rfl)) (by rfl))
  · exact printed_trans
      (printed_call_after _ (printed_call_after _ (printed_refl w) (by rfl)) (by rfl))
      (main_session_printed _ _)

/-- The whisperer's `main` prints a line for each failed device-open request. -/
theorem main_printed (pathsep : Char) (argv0 : Option String) (w : World) :
    openFailuresPrinted w (main pathsep argv0 w).2 := by
  unfold main
  simp only
  split_ifs
  · exact printed_call_after _ (printed_print_after _
      (printed_call_after _ (printed_call_after _ (printed_refl w) (by rfl)) (by rfl)))
      (by rfl)
  · exact printed_call_after _ (printed_call_after _ (printed_refl w) (by rfl)) (by rfl)
  · exact printed_print_after _
      (printed_call_after _ (printed_call_after _ (printed_refl w) (by rfl)) (by rfl))
  · exact printed_trans (printed_trans
      (printed_call_after _ (printed_call_after _ (printed_refl w) (by rfl)) (by rfl))
      (main_audio_printed _ _)) (main_connect_printed _ _)

end Whisperer

/-! ## The claims -/

/-- C1: one drain pass of the repeater audio loop.  If, counted from the start of the pass,
the library answers the first `cs.length` acquire calls with the chunks `cs` and the next one
with "no data available", and every capture call succeeds, then the pass (given fuel for its
`cs.length + 1` iterations) ends, and the calls it made are: acquire, submit that chunk, for
each chunk in the order acquired, then one more acquire.  So exactly the chunks `cs` are
submitted, unchanged and in FIFO order, with `cs.length + 1` acquire calls and `cs.length`
submit calls. -/
theorem C1_drain_pass_fifo (cs : List (List Int)) (fuel : Nat) (buf : List Int) (w : World)
    (hfuel : cs.length < fuel)
    (hacq : ∀ (t : List Entry) (i : Nat) (c : List Int), w.trace <+: t →
      acquired t = acquired w.trace + i → cs.get? i = some c →
      (w.lib t Repeater.acquireCall).status = ERROR_ok ∧
      (w.lib t Repeater.acquireCall).samples = some c)
    (hend : ∀ (t : List Entry), w.trace <+: t → acquired t = acquired w.trace + cs.length →
      (w.lib t Repeater.acquireCall).status = ERROR_sound_no_data)
    (hcap : ∀ (t : List Entry) (c : Call), c.isCapture = true → (w.lib t c).status = ERROR_ok) :
    ∃ b w1, Repeater.drainPass fuel buf w = some (b, w1) ∧
      w1.callsSince w = Repeater.drainCalls cs ∧
      (w1.callsSince w).filter Call.isCapture
        = cs.map (fun c => Call.processCustomCaptureData "loopback" c 960) ∧
      (w1.callsSince w).countP Call.isAcquire = cs.length + 1 ∧
      (w1.callsSince w).countP Call.isCapture = cs.length ∧
      w1.out = w.out := by
  obtain ⟨b, w1, l, hb, hout, htr, hl⟩ :=
    Repeater.drainPass_chunks cs fuel buf w hfuel hacq hend hcap
  have hs : w1.callsSince w = Repeater.drainCalls cs := by
    rw [World.callsSince, since_of_append htr, hl]
  refine ⟨b, w1, hb, hs, ?_, ?_, ?_, hout⟩
  · rw [hs, Repeater.drainCalls_capture]; rfl
  · rw [hs, Repeater.drainCalls_countAcquire]
  · rw [hs, Repeater.drainCalls_countCapture]

/-- Witness of C1: a library whose playback queue holds the chunks [1, 2] and [3]; the pass
submits both, in that order, with three acquire calls. -/
theorem C1_drain_pass_fifo_witness :
    ∃ b w1, Repeater.drainPass 3 [] (World.start (Repeater.queueLib [[1, 2], [3]])) = some (b, w1) ∧
      w1.callsSince (World.start (Repeater.queueLib [[1, 2], [3]]))
        = Repeater.drainCalls [[1, 2], [3]] ∧
      (w1.callsSince (World.start (Repeater.queueLib [[1, 2], [3]]))).filter Call.isCapture
        = [[1, 2], [3]].map (fun c => Call.processCustomCaptureData "loopback" c 960) ∧
      (w1.callsSince (World.start (Repeater.queueLib [[1, 2], [3]]))).countP Call.isAcquire
        = [[1, 2], [3]].length + 1 ∧
      (w1.callsSince (World.start (Repeater.queueLib [[1, 2], [3]]))).countP Call.isCapture
        = [[1, 2], [3]].length ∧
      w1.out = (World.start (Repeater.queueLib [[1, 2], [3]])).out :=
  C1_drain_pass_fifo [[1, 2], [3]] 3 [] (World.start (Repeater.queueLib [[1, 2], [3]]))
    (by decide)
    (by
      intro t i c _ hc hi
      simp only [World.start, acquired, List.countP_nil, Nat.zero_add] at hc
      have hi2 : [[1, 2], [3]][i]? = some c := by simpa using hi
      simp [World.start, Repeater.queueLib, Repeater.acquireCall, acquired, hc, hi2])
    (by
      intro t _ hc
      simp only [World.start, acquired, List.countP_nil, Nat.zero_add] at hc
      simp only [World.start, Repeater.queueLib, Repeater.acquireCall, acquired, hc]
      rfl)
    (by
      intro t c hc
      cases c <;> simp [Call.isCapture] at hc
      rfl)

/-- C2: when the acquire call of an iteration of the drain loop reports
`ERROR_sound_no_data`, the pass ends there: the acquire call is the only request of that
iteration, so nothing is submitted as capture data, nothing is logged, no other acquire call
follows, and nothing is printed. -/
theorem C2_no_data_stops_pass (fuel : Nat) (buf : List Int) (w : World)
    (h : (w.lib w.trace (.acquireCustomPlaybackData "loopback" 960)).status
      = ERROR_sound_no_data) :
    ∃ b w1, Repeater.drainPass (fuel + 1) buf w = some (b, w1) ∧
      w1.callsSince w = [.acquireCustomPlaybackData "loopback" 960] ∧
      (w1.callsSince w).filter Call.isCapture = [] ∧
      (w1.callsSince w).filter Call.isLog = [] ∧
      w1.out = w.out := by
  refine ⟨(w.lib w.trace (.acquireCustomPlaybackData "loopback" 960)).samples.getD buf,
    (w.call (.acquireCustomPlaybackData "loopback" 960)).2, ?_, ?_, ?_, ?_, rfl⟩
  · simp [Repeater.drainPass, World.call, h, ERROR_sound_no_data, ERROR_ok,
      Repeater.custom_device, Repeater.playback_buffer_size]
  · simp [World.callsSince, World.since, World.call]
  · simp [World.callsSince, World.since, World.call, Call.isCapture]
  · simp [World.callsSince, World.since, World.call, Call.isLog]

/-- Witness of C2: a library with an empty playback queue. -/
theorem C2_no_data_stops_pass_witness :
    ∃ b w1, Repeater.drainPass (0 + 1) [7] (World.start (Repeater.queueLib [])) = some (b, w1) ∧
      w1.callsSince (World.start (Repeater.queueLib []))
        = [.acquireCustomPlaybackData "loopback" 960] ∧
      (w1.callsSince (World.start (Repeater.queueLib []))).filter Call.isCapture = [] ∧
      (w1.callsSince (World.start (Repeater.queueLib []))).filter Call.isLog = [] ∧
      w1.out = (World.start (Repeater.queueLib [])).out :=
  C2_no_data_stops_pass 0 [7] (World.start (Repeater.queueLib [])) rfl

/-- C3: the audio thread as a machine over (shutdown flag, call history).  If the flag is
true when the thread runs an iteration of its outer loop, the step has a result whatever
the fuel: the thread is past the loop afterwards, it has made no call, and every later run
of events has a result with the same history, so it never again calls
`acquireCustomPlaybackData` or `processCustomCaptureData`.  A drain pass is started only
at the loop test with the flag false: a step has no result only there (the pass did not
end within its fuel), and a step with a result has changed the history only there; such a
pass begins with an acquire request. -/
theorem C3_shutdown_flag_gates_passes (s : Repeater.ThreadState) (fuel : Nat) :
    (s.shutting_down = true →
      ∃ s1, Repeater.step (.iteration fuel) s = some s1 ∧
        s1.pc = .exited ∧ s1.world.trace = s.world.trace ∧
        ∀ es, ∃ s2, Repeater.run es s1 = some s2 ∧ s2.pc = .exited ∧
          s2.world.trace = s.world.trace) ∧
    (Repeater.step (.iteration fuel) s = none →
      s.pc = .loopTop ∧ s.shutting_down = false) ∧
    (∀ s1, Repeater.step (.iteration fuel) s = some s1 →
      (s1.world.trace ≠ s.world.trace → s.pc = .loopTop ∧ s.shutting_down = false) ∧
      (s.pc = .loopTop → s.shutting_down = false →
        ∃ l, s1.world.callsSince s.world = .acquireCustomPlaybackData "loopback" 960 :: l)) := by
  cases hpc : s.pc with
  | exited =>
    have hstep : Repeater.step (.iteration fuel) s = some s := by
      simp only [Repeater.step, hpc]
    refine ⟨fun _ => ⟨s, hstep, hpc, rfl, fun es => Repeater.run_exited es s hpc⟩,
      fun hn => ?_, fun s1 h => ?_⟩
    · rw [hstep] at hn
      cases hn
    · rw [hstep] at h
      cases h
      exact ⟨fun hne => absurd rfl hne, fun hp => by simp at hp⟩
  | loopTop =>
    cases hflag : s.shutting_down with
    | true =>
      have hstep : Repeater.step (.iteration fuel) s = some { s with pc := .exited } := by
        simp only [Repeater.step, hpc, hflag, if_true]
      refine ⟨fun _ => ⟨_, hstep, rfl, rfl, fun es => ?_⟩, fun hn => ?_, fun s1 h => ?_⟩
      · exact Repeater.run_exited es { s with pc := .exited } rfl
      · rw [hstep] at hn
        cases hn
      · rw [hstep] at h
        cases h
        exact ⟨fun hne => absurd rfl hne, fun _ hf => by simp at hf⟩
    | false =>
      refine ⟨fun hf => by simp at hf, fun _ => ⟨rfl, rfl⟩, fun s1 h => ⟨fun _ => ⟨rfl, rfl⟩,
        fun _ _ => ?_⟩⟩
      simp only [Repeater.step, hpc, hflag] at h
      cases hd : Repeater.drainPass fuel s.playback_buffer s.world with
      | none => simp [hd] at h
      | some r =>
        obtain ⟨b, w1⟩ := r
        simp only [hd, Bool.false_eq_true, if_false, Option.some.injEq] at h
        subst h
        obtain ⟨-, l, ht⟩ := Repeater.drainPass_first fuel _ _ _ _ hd
        exact ⟨l.map Entry.call, by simp [World.callsSince, since_of_append ht]⟩

/-- Witness of C3: the thread stands at the loop test, the flag is already set and a chunk
is still waiting in the library. -/
theorem C3_shutdown_flag_gates_passes_witness :
    ∃ s1, Repeater.step (.iteration 4) Repeater.flagSetAtTest = some s1 ∧
      s1.pc = .exited ∧ s1.world.trace = Repeater.flagSetAtTest.world.trace ∧
      ∀ es, ∃ s2, Repeater.run es s1 = some s2 ∧ s2.pc = .exited ∧
        s2.world.trace = Repeater.flagSetAtTest.world.trace :=
  (C3_shutdown_flag_gates_passes Repeater.flagSetAtTest 4).1 rfl

/-- C4: `print_error` in the repeater helper and in the whisperer copy.  For `ERROR_ok` the
world is left as it is (no library call, nothing logged).  Otherwise the log lines written
are exactly one, at error level, for the given connection id, with the text `msg`, a space
and the library message when the message lookup succeeds and `msg` alone when it fails; the
two copies differ only in the log channel. -/
theorem C4_print_error (error : Nat) (msg : String) (connection_id : Nat) (w : World) :
    if error = ERROR_ok then
      Repeater.print_error error msg connection_id w = w ∧
      Whisperer.print_error error msg connection_id w = w
    else
      ((Repeater.print_error error msg connection_id w).callsSince w).filter Call.isLog =
        [.logMessage
          (if (w.lib w.trace (.getErrorMessage error)).status = ERROR_ok
            then msg ++ " " ++ (w.lib w.trace (.getErrorMessage error)).text else msg)
          .LogLevel_ERROR "" connection_id] ∧
      ((Whisperer.print_error error msg connection_id w).callsSince w).filter Call.isLog =
        [.logMessage
          (if (w.lib w.trace (.getErrorMessage error)).status = ERROR_ok
            then msg ++ " " ++ (w.lib w.trace (.getErrorMessage error)).text else msg)
          .LogLevel_ERROR "Whisperer" connection_id] ∧
      (Repeater.print_error error msg connection_id w).out = w.out ∧
      (Whisperer.print_error error msg connection_id w).out = w.out := by
  by_cases h : error = ERROR_ok
  · simp [h, Repeater.print_error, Whisperer.print_error]
  · obtain ⟨-, ho1, ht1⟩ := Repeater.repeater_print_error_trace error msg connection_id w
    obtain ⟨-, ho2, ht2⟩ := Whisperer.whisperer_print_error_trace error msg connection_id w
    simp only [h, if_false] at ht1 ht2 ⊢
    refine ⟨?_, ?_, ho1, ho2⟩
    · rw [World.callsSince, since_of_append ht1]
      split_ifs <;> simp [Call.isLog]
    · rw [World.callsSince, since_of_append ht2]
      split_ifs <;> simp [Call.isLog]

/-- C6, as the code has it: the repeater does reconnect (`_do_autoreconnect` is `true`).
Handling a connect-status event through `TS_Client::on_connect_status_change` issues exactly
one `startConnection` request, for a stored connection with the id of the event, when the
status is `STATUS_DISCONNECTED`, the client is not shutting down and one of the stored
connections has that id; in every other case it issues no `startConnection` request. -/
theorem C6_reconnects_on_disconnect (c : Repeater.TS_Client) (connection_id : Nat)
    (status : Int) (error : Nat) (w : World) :
    (status = STATUS_DISCONNECTED ∧ c._shutting_down = false ∧
        (∃ h, some h ∈ c._connections ∧ h._connection_id = connection_id) →
      ∃ h, some h ∈ c._connections ∧ h._connection_id = connection_id ∧
        (c.on_connect_status_change connection_id status error w).startsSince w
          = [h.startCall]) ∧
    (¬ (status = STATUS_DISCONNECTED ∧ c._shutting_down = false ∧
        (∃ h, some h ∈ c._connections ∧ h._connection_id = connection_id)) →
      (c.on_connect_status_change connection_id status error w).startsSince w = []) := by
  rw [Repeater.on_connect_status_change_starts]
  constructor
  · rintro ⟨hd, hs, h, hm, hid⟩
    simp only [hs, Bool.false_eq_true, if_false]
    cases hf : c._connections.find? (fun connection =>
        match connection with
        | some h => connection_id == h._connection_id
        | none => false) with
    | none =>
      rw [List.find?_eq_none] at hf
      exact absurd (by simp [hid]) (hf (some h) hm)
    | some o =>
      have hp := List.find?_some hf
      have hmem := List.mem_of_find?_eq_some hf
      cases o with
      | none => simp at hp
      | some h2 =>
        simp only [beq_iff_eq] at hp
        exact ⟨h2, hmem, hp.symm, by simp [hd]⟩
  · intro hn
    by_cases hs : c._shutting_down = true
    · simp [hs]
    · simp only [hs, Bool.false_eq_true, if_false]
      split
      · rename_i h hf
        have hp := List.find?_some hf
        have hmem := List.mem_of_find?_eq_some hf
        simp only [beq_iff_eq] at hp
        by_cases hd : status = STATUS_DISCONNECTED
        · exact absurd ⟨hd, by simpa using hs, h, hmem, hp.symm⟩ hn
        · simp [hd]
      · rfl

/-- C6 as stated fails: a `STATUS_DISCONNECTED` event for the stored connection 7, delivered
while the client is not shutting down, makes the handler issue a `startConnection` request
for that connection. -/
theorem C6_counterexample :
    (clientWithConnection7.on_connect_status_change 7 STATUS_DISCONNECTED 0
      (World.start libOk)).callsSince (World.start libOk)
    = [.logMessage "Connect status changed: 7 0" .LogLevel_INFO "" 7,
       .startConnection 7 "x" "localhost" 9987 "repeater-listener" none "" ""] := by
  decide

/-- C8: a failure while the repeater sets itself up ends `main`.  Given the program name and
four arguments whose ports `std::stoul` accepts, if the history of the startup holds a failed
library initialisation, custom-device registration, identity creation (failed, or an empty
identity) or connection spawn, then `main` returns 1, and from its start to the end of the
process (static destruction included) no device-open and no `startConnection` request is
made. -/
theorem C8_startup_failure_exits (stoul : String → Option Nat) (pathsep : Char)
    (argv : List String) (w : World)
    (hargc : argv.length = 5)
    (hfrom : stoul (argv.getD 2 "") ≠ none)
    (hto : stoul (argv.getD 4 "") ≠ none)
    (hfail : ∃ e ∈ (Repeater.main_startup stoul pathsep argv w).2.2.since w,
      Repeater.startupFailure e = true) :
    ∃ w1, Repeater.main_early stoul pathsep argv w = some (1, w1) ∧
      ∀ c ∈ w1.callsSince w, c.isOpenDevice = false ∧ c.isStartConnection = false := by
  obtain ⟨e, he, hf⟩ := hfail
  rcases Repeater.main_startup_cases stoul pathsep argv w with
    ⟨hp, -, -⟩ | ⟨-, hx, hq⟩ | ⟨-, -, hn, -⟩
  · exfalso
    obtain ⟨a, ha⟩ := Option.ne_none_iff_exists'.mp hfrom
    obtain ⟨b, hb⟩ := Option.ne_none_iff_exists'.mp hto
    unfold Repeater.parse_args at hp
    rw [if_neg (by rw [hargc]; decide), ha] at hp
    simp only [hb] at hp
    cases hp
  · refine ⟨Repeater.at_exit (Repeater.main_startup stoul pathsep argv w).2.1
      (Repeater.main_startup stoul pathsep argv w).2.2, ?_, ?_⟩
    · unfold Repeater.main_early
      generalize Repeater.main_startup stoul pathsep argv w = R at hx
      obtain ⟨x, ts, W⟩ := R
      simp only at hx
      subst hx
      rfl
    · have hall := (hq.trans ((Repeater.at_exit_reach
        (Repeater.main_startup stoul pathsep argv w).2.1
        (Repeater.main_startup stoul pathsep argv w).2.2).mono (fun e he => he.1))).since
      intro c hc
      obtain ⟨x, hx, rfl⟩ := List.mem_map.mp hc
      have := hall x hx
      simpa [Entry.quiet] using this
  · have := hn.since e he
    simp only at this
    rw [hf] at this
    cases this

/-- Witness of C8: every connection spawn fails. -/
theorem C8_startup_failure_exits_witness :
    ∃ w1, Repeater.main_early decimal '/' repeaterArgv (World.start spawnFails) = some (1, w1) ∧
      ∀ c ∈ w1.callsSince (World.start spawnFails),
        c.isOpenDevice = false ∧ c.isStartConnection = false :=
  C8_startup_failure_exits decimal '/' repeaterArgv (World.start spawnFails)
    (by decide) (by decide) (by decide) (by decide)

/-- C9: `on_client_move_common` of the whisperer.  The whisper targets are recomputed, by one
call of `set_whisper_to_all_visible` (which asks the library for the client list once),
exactly when the visibility is `ENTER_VISIBILITY` or `LEAVE_VISIBILITY` and the event is not
the own client moving to channel 0; otherwise nothing happens at all.  In particular a
`RETAIN_VISIBILITY` event leaves the world as it is: no library request. -/
theorem C9_move_event_recomputes_targets (my_id connection_id client_id oldChannelID
    newChannelID : Nat) (visibility : Int) (w : World) :
    (if (visibility = ENTER_VISIBILITY ∨ visibility = LEAVE_VISIBILITY) ∧
        ¬ (newChannelID = 0 ∧ client_id = my_id) then
      Whisperer.on_client_move_common my_id connection_id client_id oldChannelID newChannelID
          visibility w = Whisperer.set_whisper_to_all_visible my_id connection_id w ∧
      ((Whisperer.on_client_move_common my_id connection_id client_id oldChannelID newChannelID
          visibility w).callsSince w).filter Call.isGetClientList
        = [.getClientList connection_id]
     else
      Whisperer.on_client_move_common my_id connection_id client_id oldChannelID newChannelID
          visibility w = w) ∧
    Whisperer.on_client_move_common my_id connection_id client_id oldChannelID newChannelID
      RETAIN_VISIBILITY w = w := by
  constructor
  · by_cases hv : visibility = ENTER_VISIBILITY ∨ visibility = LEAVE_VISIBILITY
    · by_cases hown : newChannelID = 0 ∧ client_id = my_id
      · simp [Whisperer.on_client_move_common, hv, hown]
      · have heq : Whisperer.on_client_move_common my_id connection_id client_id oldChannelID
            newChannelID visibility w
            = Whisperer.set_whisper_to_all_visible my_id connection_id w := by
          simp only [Whisperer.on_client_move_common, hv, hown, if_true, not_false_eq_true]
        rw [if_pos ⟨hv, hown⟩, heq]
        exact ⟨rfl, (Whisperer.set_whisper_requests my_id connection_id w).2.2⟩
    · rw [if_neg (fun h => hv h.1)]
      simp only [Whisperer.on_client_move_common, hv, if_false]
  · simp [Whisperer.on_client_move_common, RETAIN_VISIBILITY, ENTER_VISIBILITY,
      LEAVE_VISIBILITY]

/-- C10: `set_whisper_to_all_visible` of the whisperer.  When the library returns the
zero-terminated client list `L` (the array `L`, 0, and whatever follows) and `L` without the
first occurrence of the own id is not empty, exactly one whisper-list request is made and its
target array is that filtered list, in the order of the library, followed by one 0; the
filtered list itself holds no 0. -/
theorem C10_whisper_target_array (my_id connection_id : Nat) (w : World) (L rest : List Nat)
    (hok : (w.lib w.trace (.getClientList connection_id)).status = ERROR_ok)
    (hL : (w.lib w.trace (.getClientList connection_id)).ids = L ++ 0 :: rest)
    (hnz : ∀ x ∈ L, x ≠ 0)
    (hne : L.erase my_id ≠ []) :
    (Whisperer.set_whisper_to_all_visible my_id connection_id w).whisperListsSince w
      = [.requestClientSetWhisperList connection_id 0 none (L.erase my_id ++ [0]) none] ∧
    0 ∉ L.erase my_id := by
  obtain ⟨-, hw, -⟩ := Whisperer.set_whisper_requests my_id connection_id w
  have hlen : (L.erase my_id).length > 0 := List.length_pos.mpr hne
  constructor
  · rw [hw]
    simp only [hok, ne_eq, not_true_eq_false, if_false, hL,
      Whisperer.read_client_ids_terminated L rest hnz, hlen, if_true]
  · intro h0
    exact hnz 0 (List.mem_of_mem_erase h0) rfl

/-- Witness of C10: the library lists the clients 4, 9, 5 and the own id is 9; the target
array is 4, 5, 0. -/
theorem C10_whisper_target_array_witness :
    (Whisperer.set_whisper_to_all_visible 9 1 (World.start libClients495)).whisperListsSince
        (World.start libClients495)
      = [.requestClientSetWhisperList 1 0 none ([4, 9, 5].erase 9 ++ [0]) none] ∧
    0 ∉ [4, 9, 5].erase 9 :=
  C10_whisper_target_array 9 1 (World.start libClients495) [4, 9, 5] [] rfl rfl
    (by decide) (by decide)

/-- C11: `ts3plugin_apiVersion` returns 26 in the original plugin and in the safe-logging
variant.  In both files the function has no parameter and reads no variable, so its model
is a constant: the value is 26 in every call and in every plugin state. -/
theorem C11_api_version_is_26 :
    Plugin.ts3plugin_apiVersion = 26 ∧ SafePlugin.ts3plugin_apiVersion = 26 :=
  ⟨rfl, rfl⟩

/-- C12: `ts3plugin_commandKeyword` returns the keyword "scda" in both files: a pointer
that is not null, to a string that is not empty.  The function has no parameter and reads
no variable, so the value is the same in every call. -/
theorem C12_command_keyword :
    Plugin.ts3plugin_commandKeyword = some "scda" ∧
    SafePlugin.ts3plugin_commandKeyword = some "scda" ∧
    Plugin.ts3plugin_commandKeyword ≠ none ∧ SafePlugin.ts3plugin_commandKeyword ≠ none ∧
    Plugin.ts3plugin_commandKeyword ≠ some "" ∧ SafePlugin.ts3plugin_commandKeyword ≠ some "" := by
  refine ⟨rfl, rfl, ?_, ?_, ?_, ?_⟩ <;> decide

/-- C13 (what the code does where the claim fails): in the original plugin, for an item
type other than server, channel and client, `ts3plugin_infoData` returns with the caller's
slot `*data` holding what it held at the call; it makes no request and prints one line. -/
theorem C13_infoData_other_type_keeps_slot (win32 : Bool) (sch id : Nat) (type : Int)
    (data : Option String) (w : World)
    (h0 : type ≠ PLUGIN_SERVER) (h1 : type ≠ PLUGIN_CHANNEL) (h2 : type ≠ PLUGIN_CLIENT) :
    Plugin.ts3plugin_infoData win32 sch id type data w =
      some (data, w.print ("Invalid item type: " ++ toString type ++ "\n")) := by
  simp [Plugin.ts3plugin_infoData, h0, h1, h2]

/-- C13 at a concrete input: item type 3 and a slot that points to the text "stale". -/
theorem C13_infoData_other_type_keeps_slot_witness :
    (Plugin.ts3plugin_infoData false 1 7 3 (some "stale") (World.start hostOk)).map Prod.fst
      = some (some "stale") := by
  rw [C13_infoData_other_type_keeps_slot false 1 7 3 (some "stale") (World.start hostOk)
    (by decide) (by decide) (by decide)]
  rfl

/-- C15 (what the code does where the claim fails): in a Windows build of the original
plugin, when the static pointer is still null and `wcharToUtf8` reports a failed
conversion, `ts3plugin_name` returns a null pointer: the fallback text went into a local
array. -/
theorem C15_name_is_null_after_failed_conversion (st : PluginState) (w : World)
    (hs : st.name_result = none)
    (hc : (Plugin.wcharToUtf8 "Star Citizen Directional Audio" w).1 = -1) :
    (Plugin.ts3plugin_name true st w).1 = none := by
  have := Plugin.wcharToUtf8_failed _ w hc
  simp only [Plugin.ts3plugin_name, hs, Option.isNone_none, if_true]
  exact this

/-- C15 at a concrete input: the first call of `ts3plugin_name`, with a conversion into
the buffer that fails. -/
theorem C15_name_is_null_after_failed_conversion_witness :
    (Plugin.ts3plugin_name true {} (World.start conversionFails)).1 = none :=
  C15_name_is_null_after_failed_conversion {} (World.start conversionFails) rfl (by decide)

/-- C16: `ts3plugin_onServerErrorEvent` returns 1 for a return code that is not null and
0 for a null one, in both files, whatever the other arguments, the plugin state, the
build and the history are. -/
theorem C16_server_error_event_result (win32 : Bool) (st : PluginState) (sch : Nat)
    (errorMessage : Option String) (error : Nat) (returnCode extraMessage : Option String)
    (w : World) :
    (Plugin.ts3plugin_onServerErrorEvent sch errorMessage error returnCode extraMessage w).1
      = (if returnCode = none then 0 else 1) ∧
    (SafePlugin.ts3plugin_onServerErrorEvent win32 st sch errorMessage error returnCode
      extraMessage w).1 = (if returnCode = none then 0 else 1) := by
  cases returnCode <;> simp [Plugin.ts3plugin_onServerErrorEvent,
    SafePlugin.ts3plugin_onServerErrorEvent]

/-- C17, as stated, fails when `malloc` returns a null pointer: neither file tests the
result, and no copy of the id "id" is stored. -/
theorem C17_counterexample :
    (Plugin.ts3plugin_registerPluginID false "id" {} (World.start hostNoMemory)).map
        (fun r => r.1.pluginID) ≠ some (some "id") ∧
    (SafePlugin.ts3plugin_registerPluginID false "id" {} (World.start hostNoMemory)).map
        (fun r => r.1.pluginID) ≠ some (some "id") := by
  decide

/-- C17 (amended): in both files and both builds, when `malloc` gives
`ts3plugin_registerPluginID(id)` a buffer, the plugin id stored afterwards is `id` itself,
for every string `id`; after `ts3plugin_shutdown` the stored id is null; a second
`ts3plugin_shutdown` leaves the plugin state of the first and calls `free` no more. -/
theorem C17_plugin_id_state (win32 : Bool) (id : String) (st : PluginState) (w w1 : World) :
    ((w.lib w.trace (.malloc (id.length + 1))).ret ≠ 0 →
      (Plugin.ts3plugin_registerPluginID win32 id st w).map (fun r => r.1.pluginID)
        = some (some id) ∧
      (SafePlugin.ts3plugin_registerPluginID win32 id st w).map (fun r => r.1.pluginID)
        = some (some id)) ∧
    (Plugin.ts3plugin_shutdown st w).1.pluginID = none ∧
    (SafePlugin.ts3plugin_shutdown st w).1.pluginID = none ∧
    (Plugin.ts3plugin_shutdown (Plugin.ts3plugin_shutdown st w).1 w1).1
      = (Plugin.ts3plugin_shutdown st w).1 ∧
    (SafePlugin.ts3plugin_shutdown (SafePlugin.ts3plugin_shutdown st w).1 w1).1
      = (SafePlugin.ts3plugin_shutdown st w).1 ∧
    (∀ x ∈ (Plugin.ts3plugin_shutdown (Plugin.ts3plugin_shutdown st w).1 w1).2.since w1,
      x.call.isFree = false) ∧
    (∀ x ∈ (SafePlugin.ts3plugin_shutdown (SafePlugin.ts3plugin_shutdown st w).1 w1).2.since w1,
      x.call.isFree = false) := by
  have hp : (Plugin.ts3plugin_shutdown st w).1.pluginID = none := by
    unfold Plugin.ts3plugin_shutdown
    cases h : st.pluginID <;> simp [h]
  have hq : (SafePlugin.ts3plugin_shutdown st w).1.pluginID = none := by
    unfold SafePlugin.ts3plugin_shutdown
    cases h : st.pluginID <;> simp [h]
  refine ⟨?_, hp, hq, ?_, ?_, ?_, ?_⟩
  · intro hm
    simp [Plugin.ts3plugin_registerPluginID, SafePlugin.ts3plugin_registerPluginID,
      World.call, hm, strcpy_exact]
  · unfold Plugin.ts3plugin_shutdown
    cases h : st.pluginID <;> simp [h]
  · unfold SafePlugin.ts3plugin_shutdown
    cases h : st.pluginID <;> simp [h]
  · intro x hx
    generalize Plugin.ts3plugin_shutdown st w = r at hp hx
    simp [Plugin.ts3plugin_shutdown, hp, World.since, World.print] at hx
  · intro x hx
    generalize SafePlugin.ts3plugin_shutdown st w = r at hq hx
    obtain ⟨l, hl, hlog⟩ := SafePlugin.logTS_trace r.1 0 .LogLevel_INFO "PLUGIN: shutdown" w1
    simp only [SafePlugin.ts3plugin_shutdown, hq, Option.isSome_none, Bool.false_eq_true,
      if_false, SafePlugin.logInfo] at hx
    rw [since_of_append hl] at hx
    exact isLog_not_free _ (hlog x hx)

/-- C17 at a concrete input: the id "scda_plugin" in a Windows build with memory. -/
theorem C17_plugin_id_state_witness :
    (Plugin.ts3plugin_registerPluginID true "scda_plugin" {} (World.start hostOk)).map
        (fun r => r.1.pluginID) = some (some "scda_plugin") ∧
    (SafePlugin.ts3plugin_registerPluginID true "scda_plugin" {} (World.start hostOk)).map
        (fun r => r.1.pluginID) = some (some "scda_plugin") :=
  (C17_plugin_id_state true "scda_plugin" {} (World.start hostOk) (World.start hostOk)).1
    (by decide)

/-- C18: a handler that `Connection_Handler::create` returns holds the id the library
stored in answer to the one `spawnNewServerConnectionHandler` request; every request made
by `connect`, `disconnect`, `open_audio` and the destructor that has a connection id
argument carries the id of the handler (the requests without one are the message lookup
and `freeMemory` of `print_error`).  The id is a `const` member: none of these functions
gives back a handler, and where `main` fills in the connection data of its two handlers
the handlers the client holds afterwards have the ids of those two. -/
theorem C18_connection_id_passed_back :
    (∀ (w : World) (h : Repeater.Connection_Handler),
      (Repeater.Connection_Handler.create w).1 = some h →
      (∀ id, (w.lib w.trace (.spawnNewServerConnectionHandler 0)).num = some id →
        h._connection_id = id) ∧
      (Repeater.Connection_Handler.create w).2.callsSince w
        = [.spawnNewServerConnectionHandler 0]) ∧
    (∀ (h : Repeater.Connection_Handler) (w : World),
      carriesOnly h._connection_id ((h.connect w).2.since w)) ∧
    (∀ (h : Repeater.Connection_Handler) (reason : String) (w : World),
      carriesOnly h._connection_id ((h.disconnect reason w).2.since w)) ∧
    (∀ (h : Repeater.Connection_Handler) (audio_io : Repeater.Audio_IO) (mode dev : String)
        (w : World),
      carriesOnly h._connection_id ((h.open_audio audio_io mode dev w).2.since w)) ∧
    (∀ (h : Repeater.Connection_Handler) (w : World),
      carriesOnly h._connection_id ((h.destroy w).since w)) ∧
    (∀ (opts : Repeater.Opts) (ts : Repeater.TS_Client) (cl cb : Repeater.Connection_Handler)
        (w : World),
      ∀ x ∈ (Repeater.main_connections opts ts cl cb w).1._connections,
        x ∈ ts._connections ∨
        ∃ h, x = some h ∧ (h._connection_id = cl._connection_id ∨
          h._connection_id = cb._connection_id)) := by
  refine ⟨?_, ?_, ?_, ?_, ?_, Repeater.main_connections_ids⟩
  · intro w h hh
    unfold Repeater.Connection_Handler.create at hh ⊢
    by_cases hs : (w.lib w.trace (.spawnNewServerConnectionHandler 0)).status = ERROR_ok
    · simp [World.call, hs] at hh ⊢
      refine ⟨?_, ?_⟩
      · intro id hid
        rw [← hh, hid]
        rfl
      · simp [World.callsSince, World.since]
    · simp [World.call, hs] at hh
  · intro h w
    rw [Repeater.connect_snd]
    exact Reach.since (Repeater.reported_carries _ _ _ _
      (by simp [Repeater.Connection_Handler.startCall, Call.connection_id?]))
  · intro h reason w
    have : Reach (fun e => ∀ m, e.call.connection_id? = some m → m = h._connection_id) w
        (h.disconnect reason w).2 := by
      unfold Repeater.Connection_Handler.disconnect
      simp only
      split_ifs
      · exact Reach.trans (Reach.call w _ (by simp [Call.connection_id?])) (Reach.print _ _ _)
      · exact Reach.call w _ (by simp [Call.connection_id?])
    exact Reach.since this
  · intro h audio_io mode dev w
    have : Reach (fun e => ∀ m, e.call.connection_id? = some m → m = h._connection_id) w
        (h.open_audio audio_io mode dev w).2 := by
      cases audio_io with
      | Capture =>
        rw [Repeater.open_audio_capture_eq]
        split_ifs
        · exact Repeater.reported_carries _ _ _ _ (by simp [Call.connection_id?])
        · exact Reach.call w _ (by simp [Call.connection_id?])
      | Playback =>
        rw [Repeater.open_audio_playback_eq]
        split_ifs
        · exact Repeater.reported_carries _ _ _ _ (by simp [Call.connection_id?])
        · exact Reach.trans (Reach.call w _ (by simp [Call.connection_id?]))
            (Reach.trans (Repeater.reported_carries _ _ _ _ (by simp [Call.connection_id?]))
              (Reach.trans (Repeater.reported_carries _ _ _ _ (by simp [Call.connection_id?]))
                (Repeater.reported_carries _ _ _ _ (by simp [Call.connection_id?]))))
    exact Reach.since this
  · intro h w
    have : Reach (fun e => ∀ m, e.call.connection_id? = some m → m = h._connection_id) w
        (h.destroy w) := by
      unfold Repeater.Connection_Handler.destroy
      simp only
      split_ifs
      · exact Reach.trans (Reach.call w _ (by simp [Call.connection_id?]))
          (Repeater.print_error_carries _ _ _ _)
      · exact Reach.call w _ (by simp [Call.connection_id?])
    exact Reach.since this

/-- C19: the requests of `open_audio` start with a device-open request.  On the branch
that opens the capture device (taken for `Audio_IO::Playback`) the preprocessor requests
that follow are, when the device was opened, exactly the three pairs
("vad_mode", "1"), ("voiceactivation_level", "-50"), ("vad", "true") in this order, for
the connection of the handler, and none when it was not opened; on the branch that opens
the playback device (taken for `Audio_IO::Capture`) there is no preprocessor request. -/
theorem C19_preprocessor_pairs (h : Repeater.Connection_Handler) (audio_io : Repeater.Audio_IO)
    (mode dev : String) (w : World) :
    ∃ e rest, (h.open_audio audio_io mode dev w).2.since w = e :: rest ∧
      ((audio_io = .Playback ∧
        e.call = .openCaptureDevice h._connection_id mode (some dev) ∧
        (rest.map Entry.call).filter Call.isPreProcessor =
          if e.reply.status = ERROR_ok then
            [.setPreProcessorConfigValue h._connection_id "vad_mode" "1",
             .setPreProcessorConfigValue h._connection_id "voiceactivation_level" "-50",
             .setPreProcessorConfigValue h._connection_id "vad" "true"]
          else []) ∨
       (audio_io = .Capture ∧
        e.call = .openPlaybackDevice h._connection_id mode (some dev) ∧
        (rest.map Entry.call).filter Call.isPreProcessor = [])) := by
  have hne : ∀ c : Call, c.isErrorReport = true → c.isPreProcessor = false := by
    intro c hc
    cases c <;> simp [Call.isErrorReport, Call.isPreProcessor] at hc ⊢
  cases audio_io with
  | Capture =>
    rw [Repeater.open_audio_capture_eq]
    by_cases hr : (w.lib w.trace (.openPlaybackDevice h._connection_id mode (some dev))).status
        = ERROR_ok
    · rw [if_neg (not_not.mpr hr)]
      exact ⟨⟨_, _⟩, [], since_of_append rfl, Or.inr ⟨rfl, rfl, rfl⟩⟩
    · rw [if_pos hr]
      obtain ⟨-, -, l, ht, hp⟩ := Repeater.reported_trace
        (.openPlaybackDevice h._connection_id mode (some dev))
        "Error opening playback device." h._connection_id w
      exact ⟨_, l, since_of_append ht, Or.inr ⟨rfl, rfl, filter_errorReport _ hne l hp⟩⟩
  | Playback =>
    rw [Repeater.open_audio_playback_eq]
    by_cases hr : (w.lib w.trace (.openCaptureDevice h._connection_id mode (some dev))).status
        = ERROR_ok
    · rw [if_neg (not_not.mpr hr)]
      obtain ⟨-, -, l1, ht1, hp1⟩ := Repeater.reported_trace
        (.setPreProcessorConfigValue h._connection_id "vad_mode" "1")
        "Error setting vad_mode value to hybrid." h._connection_id
        (w.call (.openCaptureDevice h._connection_id mode (some dev))).2
      obtain ⟨-, -, l2, ht2, hp2⟩ := Repeater.reported_trace
        (.setPreProcessorConfigValue h._connection_id "voiceactivation_level" "-50")
        "Error setting voiceactivation_level." h._connection_id
        (Repeater.reported (.setPreProcessorConfigValue h._connection_id "vad_mode" "1")
          "Error setting vad_mode value to hybrid." h._connection_id
          (w.call (.openCaptureDevice h._connection_id mode (some dev))).2)
      obtain ⟨-, -, l3, ht3, hp3⟩ := Repeater.reported_trace
        (.setPreProcessorConfigValue h._connection_id "vad" "true")
        "Couldn't turn on VAD." h._connection_id
        (Repeater.reported
          (.setPreProcessorConfigValue h._connection_id "voiceactivation_level" "-50")
          "Error setting voiceactivation_level." h._connection_id
          (Repeater.reported (.setPreProcessorConfigValue h._connection_id "vad_mode" "1")
            "Error setting vad_mode value to hybrid." h._connection_id
            (w.call (.openCaptureDevice h._connection_id mode (some dev))).2))
      rw [ht2, ht1] at ht3
      simp only [call_trace, List.append_assoc, List.singleton_append, List.cons_append,
        List.nil_append] at ht3
      refine ⟨_, _, since_of_append ht3, Or.inl ⟨rfl, rfl, ?_⟩⟩
      rw [if_pos hr]
      have f1 := filter_errorReport _ hne l1 hp1
      have f2 := filter_errorReport _ hne l2 hp2
      have f3 := filter_errorReport _ hne l3 hp3
      simp only [List.map_cons, List.map_append, List.filter_cons, List.filter_append,
        Call.isPreProcessor, f1, f2, f3, if_true, List.nil_append, List.append_nil,
        List.cons_append]
    · rw [if_pos hr]
      obtain ⟨-, -, l, ht, hp⟩ := Repeater.reported_trace
        (.openCaptureDevice h._connection_id mode (some dev))
        "Error opening capture device." h._connection_id w
      refine ⟨_, l, since_of_append ht, Or.inl ⟨rfl, rfl, ?_⟩⟩
      rw [if_neg hr]
      exact filter_errorReport _ hne l hp

/-- C20, as stated, fails for `ts3plugin_description`: the two files return different
texts. -/
theorem C20_counterexample :
    Plugin.ts3plugin_description ≠ SafePlugin.ts3plugin_description := by
  decide

/-- C20 (amended): `ts3plugin_version`, `ts3plugin_apiVersion`, `ts3plugin_author`,
`ts3plugin_commandKeyword`, `ts3plugin_infoTitle`, `ts3plugin_requestAutoload`,
`ts3plugin_onServerErrorEvent` and `ts3plugin_onTextMessageEvent` return the same value in
the original plugin and in the safe-logging variant, for every input, build, plugin state
and history; `ts3plugin_description` does not. -/
theorem C20_variants_agree (win32 : Bool) (st : PluginState) (w w1 : World) :
    Plugin.ts3plugin_version = SafePlugin.ts3plugin_version ∧
    Plugin.ts3plugin_apiVersion = SafePlugin.ts3plugin_apiVersion ∧
    Plugin.ts3plugin_author = SafePlugin.ts3plugin_author ∧
    Plugin.ts3plugin_commandKeyword = SafePlugin.ts3plugin_commandKeyword ∧
    Plugin.ts3plugin_infoTitle = SafePlugin.ts3plugin_infoTitle ∧
    Plugin.ts3plugin_requestAutoload = SafePlugin.ts3plugin_requestAutoload ∧
    (∀ (sch : Nat) (errorMessage : Option String) (error : Nat)
        (returnCode extraMessage : Option String),
      (Plugin.ts3plugin_onServerErrorEvent sch errorMessage error returnCode extraMessage w).1 =
      (SafePlugin.ts3plugin_onServerErrorEvent win32 st sch errorMessage error returnCode
        extraMessage w1).1) ∧
    (∀ (sch targetMode toID fromID : Nat) (fromName fromUID message : Option String)
        (ffIgnored : Int),
      (Plugin.ts3plugin_onTextMessageEvent sch targetMode toID fromID fromName fromUID message
        ffIgnored w).1 =
      (SafePlugin.ts3plugin_onTextMessageEvent win32 st sch targetMode toID fromID fromName
        fromUID message ffIgnored w1).1) ∧
    Plugin.ts3plugin_description ≠ SafePlugin.ts3plugin_description := by
  refine ⟨rfl, rfl, rfl, rfl, rfl, rfl, ?_, ?_, by decide⟩
  · intro sch errorMessage error returnCode extraMessage
    cases returnCode <;> rfl
  · intro sch targetMode toID fromID fromName fromUID message ffIgnored
    by_cases h : ffIgnored = 0 <;>
      simp [Plugin.ts3plugin_onTextMessageEvent, SafePlugin.ts3plugin_onTextMessageEvent, h]

/-- C21: the sample count of the repeater's buffer is 960, which is 48000 samples per
second times 1 channel times 20 ms (48000 * 1 * 20 / 1000); the custom device is registered
as "loopback" with rate 48000 and 1 channel for capture and for playback; every
`acquireCustomPlaybackData` and `processCustomCaptureData` request of the loop names the
device "loopback" and 960 samples, however many iterations of the inner loop are followed
(`drainSteps`), in every pass that ends (`drainPass`) and over every run of the thread. -/
theorem C21_buffer_size_and_device :
    Repeater.playback_buffer_size = 960 ∧
    Repeater.playback_buffer_size = 48000 * 1 * 20 / 1000 ∧
    (∀ w : World, ∃ rest, (Repeater.Custom_Device.new w).2.callsSince w =
      .registerCustomDevice "loopback" "loopback" 48000 1 48000 1 :: rest ∧
      ∀ c ∈ rest, c.isErrorReport = true) ∧
    (∀ (n : Nat) (buf : List Int) (w : World),
      ∀ c ∈ (Repeater.drainSteps n buf w).callsSince w,
        (c.isAcquire = true → c = .acquireCustomPlaybackData "loopback" 960) ∧
        (c.isCapture = true → ∃ b, c = .processCustomCaptureData "loopback" b 960)) ∧
    (∀ (fuel : Nat) (buf : List Int) (w : World) (r : List Int × World),
      Repeater.drainPass fuel buf w = some r → r.2 = Repeater.drainSteps fuel buf w) ∧
    (∀ (es : List Repeater.Event) (s s1 : Repeater.ThreadState), Repeater.run es s = some s1 →
      ∀ c ∈ s1.world.callsSince s.world,
        (c.isAcquire = true → c = .acquireCustomPlaybackData "loopback" 960) ∧
        (c.isCapture = true → ∃ b, c = .processCustomCaptureData "loopback" b 960)) := by
  have key : ∀ c : Call, c.loopback960 = true →
      (c.isAcquire = true → c = .acquireCustomPlaybackData "loopback" 960) ∧
      (c.isCapture = true → ∃ b, c = .processCustomCaptureData "loopback" b 960) := by
    intro c hc
    cases c <;> simp [Call.isAcquire, Call.isCapture, Call.loopback960] at hc ⊢
    · exact hc
    · exact hc
  refine ⟨rfl, by decide, ?_, ?_, ?_, ?_⟩
  · intro w
    rw [Repeater.Custom_Device_new_eq]
    obtain ⟨-, -, l, ht, hp⟩ := Repeater.reported_trace
      (.registerCustomDevice Repeater.custom_device Repeater.custom_device 48000 1 48000 1)
      "Error creating custom device." 0 w
    refine ⟨l.map Entry.call, ?_, ?_⟩
    · rw [World.callsSince, since_of_append ht]
      rfl
    · intro c hc
      obtain ⟨e, he, rfl⟩ := List.mem_map.mp hc
      exact hp e he
  · intro n buf w c hc
    obtain ⟨e, he, rfl⟩ := List.mem_map.mp hc
    exact key _ (Reach.since (Repeater.drainSteps_reach n buf w) e he)
  · exact fun fuel => Repeater.drainPass_steps fuel
  · intro es s s1 h c hc
    obtain ⟨e, he, rfl⟩ := List.mem_map.mp hc
    exact key _ (Reach.since (Repeater.run_reach es s s1 h) e he)

/-- C22: `ts3plugin_infoData` on its success path in a build without `_WIN32` (the lookup
for the item returned `ERROR_ok`, `malloc` returned a buffer), in both files: the string
left in `*data` is the text `The nickname is [I]"s"[/I]` for the looked-up name `s`, cut to
its first 127 characters; it has at most 127 characters, and it is the whole text exactly
when `s` has at most 102 characters. -/
theorem C22_infoData_text_cut (st : PluginState) (sch id : Nat) (type : Int)
    (data : Option String) (w : World)
    (c : Call) (hc : infoData_lookup sch id type = some c)
    (hs : (w.lib w.trace c).status = ERROR_ok)
    (hm : ((w.call c).2.lib (w.call c).2.trace (.malloc INFODATA_BUFSIZE)).ret ≠ 0) :
    (Plugin.ts3plugin_infoData false sch id type data w).map Prod.fst =
      some (some (String.mk ((infoData_text (w.lib w.trace c).text).data.take 127))) ∧
    (SafePlugin.ts3plugin_infoData false st sch id type data w).1 =
      some (String.mk ((infoData_text (w.lib w.trace c).text).data.take 127)) ∧
    (String.mk ((infoData_text (w.lib w.trace c).text).data.take 127)).length ≤ 127 ∧
    (String.mk ((infoData_text (w.lib w.trace c).text).data.take 127) =
        infoData_text (w.lib w.trace c).text ↔ (w.lib w.trace c).text.length ≤ 102) := by
  have hcut := snprintf_c_complete INFODATA_BUFSIZE (infoData_text (w.lib w.trace c).text)
  have e : snprintf false INFODATA_BUFSIZE (infoData_text (w.lib w.trace c).text) =
      String.mk ((infoData_text (w.lib w.trace c).text).data.take 127) := rfl
  rw [e, infoData_text_length] at hcut
  have horig : ∀ w1 : World, w1 = (w.call c).2 →
      (Plugin.infoData_fill false (w.lib w.trace c).text w1).map Prod.fst =
        some (some (String.mk ((infoData_text (w.lib w.trace c).text).data.take 127))) := by
    intro w1 hw1
    subst hw1
    simp only [Plugin.infoData_fill, call_fst, INFODATA_BUFSIZE, Nat.mul_one] at hm ⊢
    rw [if_neg hm]
    rfl
  have hsafe : ∀ w1 : World, w1 = (w.call c).2 →
      (SafePlugin.infoData_fill false (w.lib w.trace c).text w1).1 =
        some (String.mk ((infoData_text (w.lib w.trace c).text).data.take 127)) := by
    intro w1 hw1
    subst hw1
    simp only [SafePlugin.infoData_fill, call_fst, INFODATA_BUFSIZE, Nat.mul_one] at hm ⊢
    rw [if_pos hm]
    rfl
  refine ⟨?_, ?_, hcut.1, ?_⟩
  · unfold infoData_lookup at hc
    unfold Plugin.ts3plugin_infoData
    split_ifs at hc ⊢ with h0 h1 h2 <;> cases hc <;>
      simp only [call_fst, hs, ne_eq, not_true_eq_false, if_false] <;>
      exact horig _ rfl
  · unfold infoData_lookup at hc
    unfold SafePlugin.ts3plugin_infoData
    split_ifs at hc ⊢ with h0 h1 h2 <;> cases hc <;>
      simp only [call_fst, hs, ne_eq, not_true_eq_false, if_false] <;>
      exact hsafe _ rfl
  · rw [hcut.2]
    show _ ≤ 127 ↔ _
    omega

/-- C22 at a concrete input: the client item 7, whose nickname is "Rayla". -/
theorem C22_infoData_text_cut_witness :
    (Plugin.ts3plugin_infoData false 1 7 PLUGIN_CLIENT none (World.start hostOk)).map Prod.fst
      = some (some "The nickname is [I]\"Rayla\"[/I]") ∧
    (SafePlugin.ts3plugin_infoData false {} 1 7 PLUGIN_CLIENT none (World.start hostOk)).1
      = some "The nickname is [I]\"Rayla\"[/I]" := by
  have h := C22_infoData_text_cut {} 1 7 PLUGIN_CLIENT none (World.start hostOk)
    (.getClientVariableAsString 1 7 CLIENT_NICKNAME) (by decide) (by decide) (by decide)
  rw [h.1, h.2.1]
  decide

/-- C23, as stated, fails for a client list that holds the own id twice and nothing else:
for the array 4, 4, 0 and the own id 4 the list read is 4, 4, one 4 stays after the filter,
the whisper list is requested for it and the input is switched on. -/
theorem C23_counterexample :
    Whisperer.read_client_ids
      ((World.start libClients44).lib (World.start libClients44).trace (.getClientList 1)).ids
      = [4, 4] ∧
    (Whisperer.set_whisper_to_all_visible 4 1 (World.start libClients44)).whisperListsSince
        (World.start libClients44)
      = [.requestClientSetWhisperList 1 0 none [4, 0] none] ∧
    ((Whisperer.set_whisper_to_all_visible 4 1 (World.start libClients44)).callsSince
        (World.start libClients44)).filter Call.isSelfVariable
      = [.setClientSelfVariableAsInt 1 CLIENT_INPUT_DEACTIVATED INPUT_ACTIVE] := by
  decide

/-- C23 (amended): `set_whisper_to_all_visible` without a target.  If the client-list
request fails, or the list read from it is empty, or it is the list that holds the own id
once and nothing else, then no `requestClientSetWhisperList` request is made and exactly
one request sets a variable of the own client: `CLIENT_INPUT_DEACTIVATED` to
`INPUT_DEACTIVATED`.  And when a whisper-list request is made and fails, no request sets a
variable of the own client. -/
theorem C23_no_target_deactivates_input (my_id connection_id : Nat) (w : World) :
    (((w.lib w.trace (.getClientList connection_id)).status ≠ ERROR_ok ∨
      Whisperer.read_client_ids (w.lib w.trace (.getClientList connection_id)).ids = [] ∨
      Whisperer.read_client_ids (w.lib w.trace (.getClientList connection_id)).ids = [my_id]) →
      (Whisperer.set_whisper_to_all_visible my_id connection_id w).whisperListsSince w = [] ∧
      ((Whisperer.set_whisper_to_all_visible my_id connection_id w).callsSince w).filter
        Call.isSelfVariable =
        [.setClientSelfVariableAsInt connection_id CLIENT_INPUT_DEACTIVATED INPUT_DEACTIVATED]) ∧
    (∀ e ∈ (Whisperer.set_whisper_to_all_visible my_id connection_id w).since w,
      e.call.isWhisperList = true → e.reply.status ≠ ERROR_ok →
      ((Whisperer.set_whisper_to_all_visible my_id connection_id w).callsSince w).filter
        Call.isSelfVariable = []) := by
  obtain ⟨g, l1, e, rest, hs, hg, hp1, hsh⟩ :=
    Whisperer.set_whisper_trace my_id connection_id w
  have gW : g.call.isWhisperList = false := by rw [hg]; rfl
  have gS : g.call.isSelfVariable = false := by rw [hg]; rfl
  have f1W := filter_errorReport _ errorReport_not_whisperList l1 hp1
  have f1S := filter_errorReport _ errorReport_not_selfVariable l1 hp1
  constructor
  · intro hcase
    have hnil : ((if (w.lib w.trace (.getClientList connection_id)).status ≠ ERROR_ok then []
            else Whisperer.read_client_ids
              (w.lib w.trace (.getClientList connection_id)).ids).erase my_id) = [] := by
      rcases hcase with h | h | h
      · rw [if_pos h]; rfl
      · split_ifs
        · rfl
        · rw [h]; rfl
      · split_ifs
        · rfl
        · rw [h]; simp
    rw [hnil] at hsh
    simp only [List.length_nil, gt_iff_lt, Nat.lt_irrefl, if_false] at hsh
    obtain ⟨he, hr⟩ := hsh
    have frW := filter_errorReport _ errorReport_not_whisperList rest hr
    have frS := filter_errorReport _ errorReport_not_selfVariable rest hr
    have eW : e.call.isWhisperList = false := by rw [he]; rfl
    have eS : e.call.isSelfVariable = true := by rw [he]; rfl
    rw [World.whisperListsSince, World.callsSince, hs]
    simp only [List.map_cons, List.map_append, List.filter_cons, List.filter_append, gW, gS,
      eW, eS, f1W, f1S, frW, frS]
    simp [he]
  · intro x hx hxW hxS
    rw [hs] at hx
    have hxne : ∀ l : List Entry, (∀ y ∈ l, y.call.isErrorReport = true) → x ∉ l := by
      intro l hl hmem
      have := errorReport_not_whisperList _ (hl x hmem)
      rw [hxW] at this
      cases this
    rcases List.mem_cons.mp hx with rfl | hx
    · rw [gW] at hxW; cases hxW
    rcases List.mem_append.mp hx with hx | hx
    · exact absurd hx (hxne l1 hp1)
    by_cases hlen : ((if (w.lib w.trace (.getClientList connection_id)).status ≠ ERROR_ok
        then [] else Whisperer.read_client_ids
          (w.lib w.trace (.getClientList connection_id)).ids).erase my_id).length > 0
    · rw [if_pos hlen] at hsh
      obtain ⟨heW, hfail, hok⟩ := hsh
      have hxe : x = e := by
        rcases List.mem_cons.mp hx with h | h
        · exact h
        · by_cases hes : e.reply.status = ERROR_ok
          · have := (hok hes).2
            rw [List.filter_eq_nil_iff] at this
            have := this x.call (List.mem_map.mpr ⟨x, h, rfl⟩)
            rw [hxW] at this
            exact absurd rfl this
          · exact absurd h (hxne rest (hfail hes))
      subst hxe
      have hr := hfail hxS
      have frS := filter_errorReport _ errorReport_not_selfVariable rest hr
      have eS : x.call.isSelfVariable = false := by
        cases hc : x.call <;> simp [hc, Call.isWhisperList, Call.isSelfVariable] at hxW ⊢
      rw [World.callsSince, hs]
      simp only [List.map_cons, List.map_append, List.filter_cons, List.filter_append, gS,
        eS, f1S, frS]
      simp
    · rw [if_neg hlen] at hsh
      obtain ⟨he, hr⟩ := hsh
      rcases List.mem_cons.mp hx with h | h
      · subst h
        rw [he] at hxW
        cases hxW
      · exact absurd h (hxne rest hr)

/-- C23 at a concrete input: the own id 4 and the client list 4, 0. -/
theorem C23_no_target_deactivates_input_witness :
    (Whisperer.set_whisper_to_all_visible 4 1 (World.start libClients4)).whisperListsSince
        (World.start libClients4) = [] ∧
    ((Whisperer.set_whisper_to_all_visible 4 1 (World.start libClients4)).callsSince
        (World.start libClients4)).filter Call.isSelfVariable =
      [.setClientSelfVariableAsInt 1 CLIENT_INPUT_DEACTIVATED INPUT_DEACTIVATED] :=
  (C23_no_target_deactivates_input 4 1 (World.start libClients4)).1 (Or.inr (Or.inr (by decide)))

/-- C24: the own id of the whisperer under `onConnectStatusChangeEvent`.  It is 0 at the
start and after every `STATUS_DISCONNECTED` event; after a `STATUS_CONNECTED` event whose
`getClientID` request returned `ERROR_ok` and stored an id it is that id; it is unchanged
after a `STATUS_CONNECTED` event whose `getClientID` request failed and stored nothing, and
after an event with any other status.  The only request of an event apart from error
reporting is the `getClientID` request of a `STATUS_CONNECTED` event. -/
theorem C24_own_id_state_machine :
    Whisperer.my_id = 0 ∧
    (∀ (my_id sch errorNumber : Nat) (w : World),
      (Whisperer.onConnectStatusChangeEvent my_id sch STATUS_DISCONNECTED errorNumber w).1 = 0) ∧
    (∀ (my_id sch errorNumber id : Nat) (w : World),
      (w.lib w.trace (.getClientID sch)).status = ERROR_ok →
      (w.lib w.trace (.getClientID sch)).num = some id →
      (Whisperer.onConnectStatusChangeEvent my_id sch STATUS_CONNECTED errorNumber w).1 = id) ∧
    (∀ (my_id sch errorNumber : Nat) (w : World),
      (w.lib w.trace (.getClientID sch)).status ≠ ERROR_ok →
      (w.lib w.trace (.getClientID sch)).num = none →
      (Whisperer.onConnectStatusChangeEvent my_id sch STATUS_CONNECTED errorNumber w).1
        = my_id) ∧
    (∀ (my_id sch errorNumber : Nat) (newStatus : Int) (w : World),
      newStatus ≠ STATUS_CONNECTED → newStatus ≠ STATUS_DISCONNECTED →
      (Whisperer.onConnectStatusChangeEvent my_id sch newStatus errorNumber w).1 = my_id) ∧
    (∀ (my_id sch errorNumber : Nat) (newStatus : Int) (w : World),
      ((Whisperer.onConnectStatusChangeEvent my_id sch newStatus errorNumber w).2.callsSince w
        ).filter (fun c => !c.isErrorReport) =
        if newStatus = STATUS_CONNECTED then [.getClientID sch] else []) := by
  refine ⟨rfl, ?_, ?_, ?_, ?_, ?_⟩
  · intro my_id sch errorNumber w
    obtain ⟨wp, -, -, h⟩ :=
      Whisperer.onConnectStatusChangeEvent_eq my_id sch STATUS_DISCONNECTED errorNumber w
    rw [h, if_neg (by decide), if_pos rfl]
  · intro my_id sch errorNumber id w hs hn
    obtain ⟨wp, hl, ht, h⟩ :=
      Whisperer.onConnectStatusChangeEvent_eq my_id sch STATUS_CONNECTED errorNumber w
    have hr : (wp.call (.getClientID sch)).1 = w.lib w.trace (.getClientID sch) := by
      rw [call_fst, hl, ht]
    rw [h, if_pos rfl, hr, if_neg (not_not.mpr hs), hn]
    rfl
  · intro my_id sch errorNumber w hs hn
    obtain ⟨wp, hl, ht, h⟩ :=
      Whisperer.onConnectStatusChangeEvent_eq my_id sch STATUS_CONNECTED errorNumber w
    have hr : (wp.call (.getClientID sch)).1 = w.lib w.trace (.getClientID sch) := by
      rw [call_fst, hl, ht]
    rw [h, if_pos rfl, hr, if_pos hs, hn]
    rfl
  · intro my_id sch errorNumber newStatus w h1 h2
    obtain ⟨wp, -, -, h⟩ :=
      Whisperer.onConnectStatusChangeEvent_eq my_id sch newStatus errorNumber w
    rw [h, if_neg h1, if_neg h2]
  · intro my_id sch errorNumber newStatus w
    obtain ⟨wp, hl, ht, h⟩ :=
      Whisperer.onConnectStatusChangeEvent_eq my_id sch newStatus errorNumber w
    have hne : ∀ c : Call, c.isErrorReport = true → (!c.isErrorReport) = false := by
      intro c hc; simp [hc]
    rw [h]
    by_cases h1 : newStatus = STATUS_CONNECTED
    · rw [if_pos h1, if_pos h1]
      by_cases hs : (wp.call (.getClientID sch)).1.status = ERROR_ok
      · rw [if_neg (not_not.mpr hs), World.callsSince,
          since_of_append (l := [⟨.getClientID sch, wp.lib wp.trace (.getClientID sch)⟩])
            (by rw [call_trace, ht])]
        rfl
      · rw [if_pos hs]
        obtain ⟨-, l, htr, hp⟩ := Whisperer.whisperer_print_error_reach
          (wp.call (.getClientID sch)).1.status "Couldn't get own client id." sch
          (wp.call (.getClientID sch)).2
        rw [call_trace, ht, List.append_assoc] at htr
        rw [World.callsSince, since_of_append htr]
        simp only [List.singleton_append, List.map_cons, List.filter_cons,
          filter_errorReport _ hne l hp]
        rfl
    · rw [if_neg h1, if_neg h1]
      by_cases h2 : newStatus = STATUS_DISCONNECTED
      · rw [if_pos h2, World.callsSince, since_of_append (l := []) (by simp [ht])]
        rfl
      · rw [if_neg h2, World.callsSince, since_of_append (l := []) (by simp [ht])]
        rfl

/-- C24 at a concrete input: a `STATUS_CONNECTED` event in a library that stores the id 1. -/
theorem C24_own_id_state_machine_witness :
    (Whisperer.onConnectStatusChangeEvent 0 1 STATUS_CONNECTED 0 (World.start libOk)).1 = 1 :=
  C24_own_id_state_machine.2.2.1 0 1 0 1 (World.start libOk) (by decide) (by decide)

/-- C25, as stated, fails for a client list that holds the own id twice: for the list
4, 9, 4, 5 and the own id 4 the target array is 9, 4, 5, 0, and `filter_own_client_id`
leaves the second 4 in the list. -/
theorem C25_counterexample :
    (Whisperer.set_whisper_to_all_visible 4 1 (World.start libClients4945)).whisperListsSince
        (World.start libClients4945)
      = [.requestClientSetWhisperList 1 0 none [9, 4, 5, 0] none] ∧
    4 ∈ Whisperer.filter_own_client_id 4 1 [4, 9, 4, 5] := by
  decide

/-- C25 (amended): `filter_own_client_id` erases the first occurrence of the own id and
keeps the other ids in their order; for a list that holds the own id at most once that
removes the id.  For every client list of the library that holds the own id at most once,
the targets handed to `requestClientSetWhisperList` (the array before its terminating 0)
are the other ids of the list in their order, and the own id is not among them. -/
theorem C25_own_id_filtered (my_id connection_id : Nat) (w : World) :
    (∀ l : List Nat,
      Whisperer.filter_own_client_id my_id connection_id l = l.erase my_id ∧
      (Whisperer.filter_own_client_id my_id connection_id l).filter (fun x => x ≠ my_id)
        = l.filter (fun x => x ≠ my_id) ∧
      (l.count my_id ≤ 1 →
        Whisperer.filter_own_client_id my_id connection_id l
          = l.filter (fun x => x ≠ my_id))) ∧
    ((Whisperer.read_client_ids (w.lib w.trace (.getClientList connection_id)).ids).count my_id
        ≤ 1 →
      ∀ c ∈ (Whisperer.set_whisper_to_all_visible my_id connection_id w).whisperListsSince w,
        ∃ targets : List Nat,
          c = .requestClientSetWhisperList connection_id 0 none (targets ++ [0]) none ∧
          my_id ∉ targets ∧
          targets = (Whisperer.read_client_ids
            (w.lib w.trace (.getClientList connection_id)).ids).filter (fun x => x ≠ my_id)) := by
  constructor
  · intro l
    rw [Whisperer.filter_own_eq_erase]
    exact ⟨rfl, filter_erase_others my_id l, erase_eq_filter_of_count_le_one my_id l⟩
  · intro hcount c hc
    rw [(Whisperer.set_whisper_requests my_id connection_id w).2.1] at hc
    by_cases hs : (w.lib w.trace (.getClientList connection_id)).status = ERROR_ok
    · simp only [hs, ne_eq, not_true_eq_false, if_false] at hc
      split_ifs at hc with hlen
      · rw [List.mem_singleton] at hc
        refine ⟨_, hc, ?_, erase_eq_filter_of_count_le_one my_id _ hcount⟩
        rw [erase_eq_filter_of_count_le_one my_id _ hcount]
        simp
      · simp at hc
    · simp [hs] at hc

/-- C25 at a concrete input: the own id 4 and the client list 4, 9, 5, 0. -/
theorem C25_own_id_filtered_witness :
    ∃ targets : List Nat,
      Call.requestClientSetWhisperList 1 0 none [9, 5, 0] none
        = .requestClientSetWhisperList 1 0 none (targets ++ [0]) none ∧
      4 ∉ targets ∧
      targets = (Whisperer.read_client_ids
        ((World.start libClients495).lib (World.start libClients495).trace
          (.getClientList 1)).ids).filter (fun x => x ≠ 4) :=
  (C25_own_id_filtered 4 1 (World.start libClients495)).2 (by decide) _ (by decide)

/-- C26 (what the code does where the claim fails): `open_audio` makes exactly one
device-open request, and it is the one for the other kind of device than its argument
names: `openCaptureDevice` for `Audio_IO::Playback` (and no `openPlaybackDevice`),
`openPlaybackDevice` for `Audio_IO::Capture` (and no `openCaptureDevice`). -/
theorem C26_open_audio_opens_the_other_device (h : Repeater.Connection_Handler)
    (mode dev : String) (w : World) :
    ((h.open_audio .Playback mode dev w).2.callsSince w).filter Call.isOpenDevice
      = [.openCaptureDevice h._connection_id mode (some dev)] ∧
    ((h.open_audio .Capture mode dev w).2.callsSince w).filter Call.isOpenDevice
      = [.openPlaybackDevice h._connection_id mode (some dev)] ∧
    ((h.open_audio .Playback mode dev w).2.callsSince w).filter Call.isOpenPlayback = [] ∧
    ((h.open_audio .Capture mode dev w).2.callsSince w).filter Call.isOpenCapture = [] := by
  have hpb : ∀ c : Call, c.isOpenDevice = false → c.isOpenPlayback = false := by
    intro c hc
    cases c <;> simp [Call.isOpenDevice, Call.isOpenPlayback] at hc ⊢
  have hcp : ∀ c : Call, c.isOpenDevice = false → c.isOpenCapture = false := by
    intro c hc
    cases c <;> simp [Call.isOpenDevice, Call.isOpenCapture] at hc ⊢
  obtain ⟨c1, r1, hs1, hc1, hr1⟩ := Repeater.open_audio_first h .Playback mode dev w
  obtain ⟨c2, r2, hs2, hc2, hr2⟩ := Repeater.open_audio_first h .Capture mode dev w
  simp only at hc1 hc2
  subst hc1 hc2
  have f1 := filter_of_forall Call.isOpenDevice r1 hr1
  have f2 := filter_of_forall Call.isOpenDevice r2 hr2
  have g1 := filter_of_forall Call.isOpenPlayback r1 (fun e he => hpb _ (hr1 e he))
  have g2 := filter_of_forall Call.isOpenCapture r2 (fun e he => hcp _ (hr2 e he))
  refine ⟨?_, ?_, ?_, ?_⟩
  · rw [World.callsSince, hs1, List.map_cons, List.filter_cons, f1]; rfl
  · rw [World.callsSince, hs2, List.map_cons, List.filter_cons, f2]; rfl
  · rw [World.callsSince, hs1, List.map_cons, List.filter_cons, g1]; rfl
  · rw [World.callsSince, hs2, List.map_cons, List.filter_cons, g2]; rfl

end TS3
